import Mathlib

/-!
# godot_openxr: `src/OpenXRApi.cpp`

A shallow embedding of the OpenXR bridge of the Godot plugin.

* The object `OpenXRApi` becomes a record of the members the code reads and
  writes; every member function becomes a function on that record.
* The XR runtime and the host engine are external: a call made to either is
  appended to a trace of `Call`s, and what the runtime answers is an explicit
  input of the function that makes the call (a reply record).
* `XrResult`, `XrTime`, `XrSessionState`, handles and formats are C integers
  and are embedded as `Int` / `Nat`; the values of the constants come from
  `openxr.h` and the GL headers, which the plugin includes.
* Diagnostic output (`Godot::print`, `Godot::print_error` and the log line
  written by `xr_result`) is not part of the model.
-/

namespace OpenXRApi

/-! ## Runtime constants and small helpers -/

abbrev XrResult := Int
abbrev XrTime := Int
abbrev XrSessionState := Int
abbrev XrPath := Nat
abbrev XrSwapchain := Nat
abbrev XrStructureType := Int
/-- C `float` values. The code copies, negates and scales them; they are
idealised as rationals. -/
abbrev XrFloat := Rat

def XR_SUCCESS : XrResult := 0
def XR_EVENT_UNAVAILABLE : XrResult := 4
def XR_ERROR_ACTION_TYPE_MISMATCH : XrResult := -27
def XR_ERROR_RUNTIME_FAILURE : XrResult := -2

def XR_SESSION_STATE_UNKNOWN : XrSessionState := 0
def XR_SESSION_STATE_IDLE : XrSessionState := 1
def XR_SESSION_STATE_READY : XrSessionState := 2
def XR_SESSION_STATE_SYNCHRONIZED : XrSessionState := 3
def XR_SESSION_STATE_VISIBLE : XrSessionState := 4
def XR_SESSION_STATE_FOCUSED : XrSessionState := 5
def XR_SESSION_STATE_STOPPING : XrSessionState := 6
def XR_SESSION_STATE_LOSS_PENDING : XrSessionState := 7
def XR_SESSION_STATE_EXITING : XrSessionState := 8

def XR_NULL_PATH : XrPath := 0
def XR_NULL_HANDLE : Nat := 0

def XR_VIEW_STATE_ORIENTATION_VALID_BIT : Nat := 1
def XR_VIEW_STATE_POSITION_VALID_BIT : Nat := 2
def XR_SPACE_LOCATION_ORIENTATION_VALID_BIT : Nat := 1
def XR_SPACE_LOCATION_POSITION_VALID_BIT : Nat := 2

def XR_TYPE_ACTION_STATE_BOOLEAN : XrStructureType := 23
def XR_TYPE_ACTION_STATE_FLOAT : XrStructureType := 24
def XR_TYPE_ACTION_STATE_POSE : XrStructureType := 27

def GL_SRGB8_ALPHA8 : Int := 0x8C43
def GL_RGBA8 : Int := 0x8058

def HANDCOUNT : Nat := 2
def HAND_LEFT : Nat := 0
def HAND_RIGHT : Nat := 1

/-! The indices into `actions` are an enumeration of `OpenXRApi.h`; the
properties only use that they are distinct. -/

def TRIGGER_ACTION_INDEX : Nat := 0
def GRAB_ACTION_INDEX : Nat := 1
def MENU_ACTION_INDEX : Nat := 2
def POSE_ACTION_INDEX : Nat := 3
def THUMBSTICK_X_AXIS_ACTION_INDEX : Nat := 4
def THUMBSTICK_Y_AXIS_ACTION_INDEX : Nat := 5

/-- The macro `XR_SUCCEEDED(result)` of `openxr.h`: `(result) >= 0`. -/
def XR_SUCCEEDED (result : XrResult) : Bool := decide (0 ≤ result)

/-- The helper `xr_result`: `true` exactly when the result code succeeded; on
failure it only writes a log line (asking the runtime for the name of the
code with `xrResultToString`), which is diagnostic output. -/
def xr_result (result : XrResult) : Bool := XR_SUCCEEDED result

/-! ## Data carried by the object -/

structure XrVector3f where
  x : XrFloat
  y : XrFloat
  z : XrFloat
deriving DecidableEq, Repr

structure XrQuaternionf where
  x : XrFloat
  y : XrFloat
  z : XrFloat
  w : XrFloat
deriving DecidableEq, Repr

structure XrPosef where
  orientation : XrQuaternionf
  position : XrVector3f
deriving DecidableEq, Repr

structure XrFovf where
  angleLeft : XrFloat
  angleRight : XrFloat
  angleUp : XrFloat
  angleDown : XrFloat
deriving DecidableEq, Repr

structure XrView where
  pose : XrPosef
  fov : XrFovf
deriving DecidableEq, Repr

structure XrFrameState where
  predictedDisplayTime : XrTime
  shouldRender : Bool
deriving DecidableEq, Repr

/-- The fields of `XrViewConfigurationView` the code reads. -/
structure XrViewConfigurationView where
  recommendedImageRectWidth : Nat
  recommendedImageRectHeight : Nat
  recommendedSwapchainSampleCount : Nat
deriving DecidableEq, Repr

/-- One element of `projection_views` (`XrCompositionLayerProjectionView`). -/
structure ProjectionView where
  pose : XrPosef
  fov : XrFovf
  swapchain : XrSwapchain
  width : Nat
  height : Nat
deriving DecidableEq, Repr

/-- What the pointer member `projectionLayer->views` points to: `NULL` after
the constructor, the member array `projection_views` once eye 1 was rendered. -/
inductive ViewsPtr where
  | null
  | projection_views
deriving DecidableEq, Repr

/-- The object `projectionLayer` (`XrCompositionLayerProjection`). -/
structure ProjectionLayer where
  space : Nat
  viewCount : Nat
  views : ViewsPtr
deriving DecidableEq, Repr

/-- A composition layer as the runtime sees it when `xrEndFrame` is called:
the header fields and the contents of the array `views` points to at that
moment (empty for `NULL`). -/
structure SubmittedLayer where
  space : Nat
  viewCount : Nat
  views : List ProjectionView
deriving DecidableEq, Repr

/-- The host transform built by `godot_transform_new` from a basis and an
origin; the basis is kept as the quaternion it is built from. -/
structure godot_transform where
  basis : XrQuaternionf
  origin : XrVector3f
deriving DecidableEq, Repr

/-- Calls that leave the plugin: to the XR runtime, to GL and to the host
engine, with the arguments the properties speak about. -/
inductive Call where
  | xrPollEvent
  | xrStringToPath (path : String)
  | xrGetCurrentInteractionProfile (hand : Nat)
  | xrPathToString (path : XrPath)
  | xrWaitFrame
  | xrSyncActions
  | xrGetActionStateFloat (action : Nat) (hand : Nat)
  | xrGetActionStateBoolean (action : Nat) (hand : Nat)
  | xrGetActionStatePose (action : Nat) (hand : Nat)
  | xrLocateSpace (space : Nat) (baseSpace : Nat) (time : XrTime)
  | xrLocateViews (displayTime : XrTime) (space : Nat)
  | xrBeginFrame
  | xrAcquireSwapchainImage (swapchain : XrSwapchain)
  | xrWaitSwapchainImage (swapchain : XrSwapchain)
  | xrReleaseSwapchainImage (swapchain : XrSwapchain)
  | glCopyTextureSubImage2D (texid : Nat) (image : Nat) (width : Nat) (height : Nat)
  | xrEndFrame (displayTime : XrTime) (layers : List SubmittedLayer)
  | xrEnumerateViewConfigurations (capacity : Nat)
  | godot_arvr_set_controller_transform (controller : Int) (transform : godot_transform)
  | godot_arvr_set_controller_button (controller : Int) (button : Nat) (p_is_pressed : Bool)
  | godot_arvr_set_controller_axis (controller : Int) (axis : Nat) (value : XrFloat)
  | xrEnumerateInstanceExtensionProperties (capacity : Nat)
  | xrCreateInstance (enabledExtensionNames : List String)
  | xrGetSystem
  | xrGetSystemProperties
  | xrEnumerateViewConfigurationViews (capacity : Nat)
  | xrGetInstanceProcAddr (name : String)
  | xrGetOpenGLGraphicsRequirementsKHR
  | xrCreateSession
  | xrEnumerateReferenceSpaces (capacity : Nat)
  | xrCreateReferenceSpace (referenceSpaceType : Int)
  | xrBeginSession
  | xrEnumerateSwapchainFormats (capacity : Nat)
  | xrCreateSwapchain (format : Int) (sampleCount : Nat) (width : Nat) (height : Nat)
  | xrEnumerateSwapchainImages (swapchain : XrSwapchain) (capacity : Nat)
  | xrCreateActionSet
  | xrCreateAction (actionName : String) (actionType : Int)
  | xrSuggestInteractionProfileBindings (interactionProfile : XrPath)
      (suggestedBindings : List (Option (Nat × XrPath)))
  | xrCreateActionSpace (action : Nat) (subactionPath : XrPath)
  | xrAttachSessionActionSets
  | godot_arvr_add_controller (name : String) (hand : Nat)
deriving DecidableEq, Repr

def identityQuat : XrQuaternionf := ⟨0, 0, 0, 1⟩

def zeroVec : XrVector3f := ⟨0, 0, 0⟩

def identityPose : XrPosef := ⟨identityQuat, zeroVec⟩

def zeroFov : XrFovf := ⟨0, 0, 0, 0⟩

def defaultView : XrView := ⟨identityPose, zeroFov⟩

def defaultProjectionView : ProjectionView := ⟨identityPose, zeroFov, XR_NULL_HANDLE, 0, 0⟩

/-- The members of `class OpenXRApi` that the modelled functions use. Arrays
allocated with `malloc` are lists; `buffer_index` and `views` can be `NULL`
(`none`). The handles `instance`, `session` and `actionSet` are only passed
back to the runtime and are left out. -/
structure Api where
  use_count : Int
  successful_init : Bool
  running : Bool
  state : XrSessionState
  view_pose_valid : Bool
  view_count : Nat
  frameState : XrFrameState
  views : Option (List XrView)
  projection_views : List ProjectionView
  projectionLayer : ProjectionLayer
  swapchains : List XrSwapchain
  buffer_index : Option (List Nat)
  images : List (List Nat)
  configuration_views : List XrViewConfigurationView
  godot_controllers : List Int
  play_space : Nat
  handSpaces : List Nat
  monado_stick_on_ball_ext : Bool := false
  play_space_type : Int := 2
  view_space : Nat := 0
  handPaths : List XrPath := []
  actions : List Nat := []
deriving DecidableEq, Repr

/-! ## The singleton accessor (`openxr_get_api`, `openxr_release_api`) -/

/-- Address of a heap object. -/
abbrev Ptr := Nat

/-- Object lifetime events: the constructor ran for the object at an address,
or `delete` ran its destructor. -/
inductive LifeEvent where
  | constructed (p : Ptr)
  | destroyed (p : Ptr)
deriving DecidableEq, Repr

/-- The process-wide state the accessor works on: the static pointer
`OpenXRApi::singleton` together with the object it points to (`none` is
`NULL`), and the constructions and destructions that happened so far. -/
structure World where
  singleton : Option (Ptr × Api)
  log : List LifeEvent
deriving DecidableEq, Repr

/-- The function `OpenXRApi::is_successful_init`. -/
def is_successful_init (self : Api) : Bool := self.successful_init

/-- The function `OpenXRApi::openxr_release_api`. -/
def openxr_release_api (w : World) : World :=
  match w.singleton with
  | none => w
  | some (p, obj) =>
    if obj.use_count > 1 then
      { w with singleton := some (p, { obj with use_count := obj.use_count - 1 }) }
    else
      { singleton := none, log := w.log ++ [LifeEvent.destroyed p] }

/-- The function `OpenXRApi::openxr_get_api`. The argument `newResult` is what
`new OpenXRApi()` evaluates to if this call reaches it: `none` for `NULL`,
otherwise the address of the object and the object as the constructor left
it. The returned pointer is the value of `singleton` at the end. -/
def openxr_get_api (newResult : Option (Ptr × Api)) (w : World) : World × Option Ptr :=
  match w.singleton with
  | some (p, obj) =>
    ({ w with singleton := some (p, { obj with use_count := obj.use_count + 1 }) }, some p)
  | none =>
    match newResult with
    | none => ({ w with singleton := none }, none)
    | some (p, obj) =>
      if !is_successful_init obj then
        ({ singleton := none,
           log := w.log ++ [LifeEvent.constructed p, LifeEvent.destroyed p] }, none)
      else
        ({ singleton := some (p, obj), log := w.log ++ [LifeEvent.constructed p] }, some p)

/-- Consecutive `openxr_get_api` calls, one per element of `news` (what `new`
would give that call); the pointers returned are collected in call order. -/
def getCalls : List (Option (Ptr × Api)) → World → World × List (Option Ptr)
  | [], w => (w, [])
  | r :: rs, w =>
    let step := openxr_get_api r w
    let rest := getCalls rs step.1
    (rest.1, step.2 :: rest.2)

/-- Consecutive `openxr_release_api` calls. -/
def releaseCalls : Nat → World → World
  | 0, w => w
  | n + 1, w => releaseCalls n (openxr_release_api w)

/-! ## Per-eye rendering (`acquire_image`, `render_openxr`,
`get_external_texture_for_eye`)

Array reads `a[i]` are `List.getD`; an index outside the array is undefined
behaviour in the source and reads a default here. -/

/-- What the runtime answers to the two calls of `acquire_image`: the result
of `xrAcquireSwapchainImage`, the image index it writes on success, and the
result of `xrWaitSwapchainImage`. -/
structure AcquireReply where
  acquire : XrResult
  index : Nat
  wait : XrResult
deriving DecidableEq, Repr

/-- What the runtime answers to the calls of one `render_openxr`. -/
structure RenderReply where
  acquire : AcquireReply
  release : XrResult
  endFrame : XrResult
deriving DecidableEq, Repr

/-- The function `OpenXRApi::acquire_image`: result code, object afterwards,
calls made. -/
def acquire_image (rt : AcquireReply) (eye : Nat) (self : Api) : XrResult × Api × List Call :=
  let swapchain := self.swapchains.getD eye XR_NULL_HANDLE
  let self1 : Api :=
    if XR_SUCCEEDED rt.acquire then
      { self with buffer_index := self.buffer_index.map (fun b => b.set eye rt.index) }
    else self
  if !xr_result rt.acquire then
    (rt.acquire, self1, [Call.xrAcquireSwapchainImage swapchain])
  else if !xr_result rt.wait then
    (rt.wait, self1, [Call.xrAcquireSwapchainImage swapchain, Call.xrWaitSwapchainImage swapchain])
  else
    (XR_SUCCESS, self1, [Call.xrAcquireSwapchainImage swapchain, Call.xrWaitSwapchainImage swapchain])

/-- The image handle `images[eye][buffer_index[eye]].image`. -/
def currentImage (self : Api) (eye : Nat) : Nat :=
  (self.images.getD eye []).getD ((self.buffer_index.getD []).getD eye 0) 0

/-- The layer `projectionLayer` as `xrEndFrame` reads it. -/
def submittedProjectionLayer (self : Api) : SubmittedLayer :=
  { space := self.projectionLayer.space
    viewCount := self.projectionLayer.viewCount
    views := match self.projectionLayer.views with
      | ViewsPtr.null => []
      | ViewsPtr.projection_views => self.projection_views }

/-- The function `OpenXRApi::render_openxr`: object afterwards and calls made,
in order. -/
def render_openxr (rt : RenderReply) (eye : Nat) (texid : Nat)
    (has_external_texture_support : Bool) (self : Api) : Api × List Call :=
  if !self.running || decide (self.state ≥ XR_SESSION_STATE_STOPPING) then
    (self, [])
  else if !self.frameState.shouldRender || !self.view_pose_valid then
    let released : List Call :=
      if has_external_texture_support then
        [Call.xrReleaseSwapchainImage (self.swapchains.getD eye XR_NULL_HANDLE)]
      else []
    if has_external_texture_support && !xr_result rt.release then
      (self, released)
    else if eye == 1 then
      (self, released ++ [Call.xrEndFrame self.frameState.predictedDisplayTime []])
    else
      (self, released)
  else
    let acq : XrResult × Api × List Call :=
      if !has_external_texture_support then acquire_image rt.acquire eye self
      else (XR_SUCCESS, self, [])
    if !has_external_texture_support && !xr_result acq.1 then
      (acq.2.1, acq.2.2)
    else
      let self1 := acq.2.1
      let copied : List Call :=
        if !has_external_texture_support then
          [Call.glCopyTextureSubImage2D texid (currentImage self1 eye)
            (self1.configuration_views.getD eye ⟨0, 0, 0⟩).recommendedImageRectWidth
            (self1.configuration_views.getD eye ⟨0, 0, 0⟩).recommendedImageRectHeight]
        else []
      let trace1 := acq.2.2 ++ copied ++
        [Call.xrReleaseSwapchainImage (self1.swapchains.getD eye XR_NULL_HANDLE)]
      if !xr_result rt.release then
        (self1, trace1)
      else
        let view := (self1.views.getD []).getD eye defaultView
        let pv := self1.projection_views.getD eye defaultProjectionView
        let self2 : Api :=
          { self1 with projection_views :=
              self1.projection_views.set eye { pv with fov := view.fov, pose := view.pose } }
        if eye == 1 then
          let self3 : Api :=
            { self2 with projectionLayer :=
                { self2.projectionLayer with views := ViewsPtr.projection_views } }
          (self3, trace1 ++
            [Call.xrEndFrame self3.frameState.predictedDisplayTime [submittedProjectionLayer self3]])
        else
          (self2, trace1)

/-- Result of `get_external_texture_for_eye`: the returned texture, the
caller's `*has_support` afterwards, the object and the calls made. -/
structure TextureOut where
  ret : Nat
  has_support : Bool
  api : Api
  trace : List Call
deriving DecidableEq, Repr

/-- The function `OpenXRApi::get_external_texture_for_eye`; `has_support` is
the value of the caller's variable before the call. -/
def get_external_texture_for_eye (rt : AcquireReply) (eye : Nat) (has_support : Bool)
    (self : Api) : TextureOut :=
  let acq := acquire_image rt eye self
  if !xr_result acq.1 then
    { ret := 0, has_support := has_support, api := acq.2.1, trace := acq.2.2 }
  else if decide (acq.2.1.state > XR_SESSION_STATE_UNKNOWN) && acq.2.1.buffer_index.isSome then
    { ret := currentImage acq.2.1 eye, has_support := true, api := acq.2.1, trace := acq.2.2 }
  else
    { ret := 0, has_support := has_support, api := acq.2.1, trace := acq.2.2 }

/-! ## Input synchronisation (`getActionStates`, `transform_from_pose`,
`update_controllers`) -/

structure XrActionStateFloat where
  currentState : XrFloat
  changedSinceLastSync : Bool
  isActive : Bool
deriving DecidableEq, Repr

structure XrActionStateBoolean where
  currentState : Bool
  changedSinceLastSync : Bool
  isActive : Bool
deriving DecidableEq, Repr

structure XrActionStatePose where
  isActive : Bool
deriving DecidableEq, Repr

/-- One element of the untyped `states` buffer of `getActionStates`. -/
inductive ActionState where
  | float (s : XrActionStateFloat)
  | boolean (s : XrActionStateBoolean)
  | pose (s : XrActionStatePose)
deriving DecidableEq, Repr

/-- What the runtime answers to the state queries of one action: for each
hand the result code and the state structure as it is after the call. -/
structure StateReplies where
  float : Nat → XrResult × XrActionStateFloat
  boolean : Nat → XrResult × XrActionStateBoolean
  pose : Nat → XrResult × XrActionStatePose

/-- One iteration of the loop of `getActionStates` (hand `i`): `none` when the
`switch` reaches `default`, otherwise the element written and the call made. -/
def getActionStateFor (rt : StateReplies) (action : Nat) (actionStateType : XrStructureType)
    (i : Nat) : Option (ActionState × Call) :=
  if actionStateType = XR_TYPE_ACTION_STATE_FLOAT then
    let r := rt.float i
    let st := if !xr_result r.1 then { r.2 with isActive := false } else r.2
    some (ActionState.float st, Call.xrGetActionStateFloat action i)
  else if actionStateType = XR_TYPE_ACTION_STATE_BOOLEAN then
    let r := rt.boolean i
    let st := if !xr_result r.1 then { r.2 with isActive := false } else r.2
    some (ActionState.boolean st, Call.xrGetActionStateBoolean action i)
  else if actionStateType = XR_TYPE_ACTION_STATE_POSE then
    let r := rt.pose i
    let st := if !xr_result r.1 then { r.2 with isActive := false } else r.2
    some (ActionState.pose st, Call.xrGetActionStatePose action i)
  else none

/-- The loop of `getActionStates` from hand `i` on, with `remaining` hands
left (`HANDCOUNT - i`). -/
def getActionStatesFrom (rt : StateReplies) (action : Nat) (actionStateType : XrStructureType) :
    Nat → Nat → List ActionState → XrResult × List ActionState × List Call
  | 0, _, states => (XR_SUCCESS, states, [])
  | remaining + 1, i, states =>
    match getActionStateFor rt action actionStateType i with
    | none => (XR_ERROR_ACTION_TYPE_MISMATCH, states, [])
    | some (st, call) =>
      let rest := getActionStatesFrom rt action actionStateType remaining (i + 1) (states.set i st)
      (rest.1, rest.2.1, call :: rest.2.2)

/-- The function `OpenXRApi::getActionStates`; `states` is the caller's buffer
before the call, the result carries it as it is afterwards. -/
def getActionStates (rt : StateReplies) (action : Nat) (actionStateType : XrStructureType)
    (states : List ActionState) : XrResult × List ActionState × List Call :=
  getActionStatesFrom rt action actionStateType HANDCOUNT 0 states

/-- The function `OpenXRApi::transform_from_pose`: the return value and the
transform written to `p_dest`. -/
def transform_from_pose (pose : XrPosef) (p_world_scale : XrFloat) : Bool × godot_transform :=
  (true,
    { basis := pose.orientation
      origin := ⟨pose.position.x * p_world_scale, pose.position.y * p_world_scale,
        pose.position.z * p_world_scale⟩ })

/-- The located hand space after `xrLocateSpace`. -/
structure XrSpaceLocation where
  locationFlags : Nat
  pose : XrPosef
deriving DecidableEq, Repr

/-- What the runtime answers during one `update_controllers`: the result of
`xrSyncActions`, the state queries by action index, and for each hand the
result of `xrLocateSpace` with the location structure afterwards. -/
structure ControllerReplies where
  sync : XrResult
  states : Nat → StateReplies
  locate : Nat → XrResult × XrSpaceLocation

/-- Reading a typed element back from the buffer filled by `getActionStates`
(the local arrays are typed in the source). -/
def floatAt (states : List ActionState) (i : Nat) : XrActionStateFloat :=
  match states.getD i (ActionState.float ⟨0, false, false⟩) with
  | ActionState.float st => st
  | _ => ⟨0, false, false⟩

def booleanAt (states : List ActionState) (i : Nat) : XrActionStateBoolean :=
  match states.getD i (ActionState.boolean ⟨false, false, false⟩) with
  | ActionState.boolean st => st
  | _ => ⟨false, false, false⟩

def poseAt (states : List ActionState) (i : Nat) : XrActionStatePose :=
  match states.getD i (ActionState.pose ⟨false⟩) with
  | ActionState.pose st => st
  | _ => ⟨false⟩

def triggerButton : Nat := 15

def grabButton : Nat := 2

def menuButton : Nat := 1

def joystick_x_axis : List Nat := [0, 2]

def joystick_y_axis : List Nat := [1, 3]

/-- The state arrays `update_controllers` fetched before its loop over the
hands. -/
structure HandStates where
  trigger : List ActionState
  grab : List ActionState
  menu : List ActionState
  pose : List ActionState
  thumbstickX : List ActionState
  thumbstickY : List ActionState
deriving DecidableEq, Repr

/-- The body of the loop of `update_controllers` for hand `i`: the calls it
makes, in order. The third parameter of `godot_arvr_set_controller_button` is
the boolean `p_is_pressed`: the `float` state of the trigger is converted to
it by the call (nonzero is true), the boolean states of grab and menu are
passed as they are. -/
def updateHand (rt : ControllerReplies) (self : Api) (st : HandStates) (i : Nat) : List Call :=
  if !(poseAt st.pose i).isActive then []
  else
    let located := [Call.xrLocateSpace (self.handSpaces.getD i XR_NULL_HANDLE) self.play_space
      self.frameState.predictedDisplayTime]
    let spaceLocation := (rt.locate i).2
    let spaceLocationValid :=
      decide (spaceLocation.locationFlags &&& XR_SPACE_LOCATION_ORIENTATION_VALID_BIT ≠ 0)
    if !spaceLocationValid then located
    else
      let tf := transform_from_pose spaceLocation.pose 1
      if !tf.1 then located
      else
        let controller := self.godot_controllers.getD i 0
        let trigger := floatAt st.trigger i
        let grab := booleanAt st.grab i
        let menu := booleanAt st.menu i
        let thumb_x_state := floatAt st.thumbstickX i
        let thumb_y_state := floatAt st.thumbstickY i
        located ++ [Call.godot_arvr_set_controller_transform controller tf.2]
          ++ (if trigger.isActive && trigger.changedSinceLastSync then
                [Call.godot_arvr_set_controller_button controller triggerButton
                  (decide (trigger.currentState ≠ 0))] else [])
          ++ (if grab.isActive && grab.changedSinceLastSync then
                [Call.godot_arvr_set_controller_button controller grabButton
                  grab.currentState] else [])
          ++ (if menu.isActive && menu.changedSinceLastSync then
                [Call.godot_arvr_set_controller_button controller menuButton
                  menu.currentState] else [])
          ++ (if thumb_x_state.isActive && thumb_x_state.changedSinceLastSync then
                [Call.godot_arvr_set_controller_axis controller (joystick_x_axis.getD i 0)
                  thumb_x_state.currentState] else [])
          ++ (if thumb_y_state.isActive && thumb_y_state.changedSinceLastSync then
                [Call.godot_arvr_set_controller_axis controller (joystick_y_axis.getD i 0)
                  (-thumb_y_state.currentState)] else [])

/-- The buffer of a local state array before `getActionStates` fills it. -/
def emptyStates (d : ActionState) : List ActionState := List.replicate HANDCOUNT d

/-- The function `OpenXRApi::update_controllers`: the calls it makes, in
order (it changes no member). -/
def update_controllers (rt : ControllerReplies) (self : Api) : List Call :=
  if self.frameState.predictedDisplayTime = 0 then []
  else
    let trigger := getActionStates (rt.states TRIGGER_ACTION_INDEX) TRIGGER_ACTION_INDEX
      XR_TYPE_ACTION_STATE_FLOAT (emptyStates (ActionState.float ⟨0, false, false⟩))
    let grab := getActionStates (rt.states GRAB_ACTION_INDEX) GRAB_ACTION_INDEX
      XR_TYPE_ACTION_STATE_BOOLEAN (emptyStates (ActionState.boolean ⟨false, false, false⟩))
    let menu := getActionStates (rt.states MENU_ACTION_INDEX) MENU_ACTION_INDEX
      XR_TYPE_ACTION_STATE_BOOLEAN (emptyStates (ActionState.boolean ⟨false, false, false⟩))
    let pose := getActionStates (rt.states POSE_ACTION_INDEX) POSE_ACTION_INDEX
      XR_TYPE_ACTION_STATE_POSE (emptyStates (ActionState.pose ⟨false⟩))
    let thumbX := getActionStates (rt.states THUMBSTICK_X_AXIS_ACTION_INDEX)
      THUMBSTICK_X_AXIS_ACTION_INDEX XR_TYPE_ACTION_STATE_FLOAT
      (emptyStates (ActionState.float ⟨0, false, false⟩))
    let thumbY := getActionStates (rt.states THUMBSTICK_Y_AXIS_ACTION_INDEX)
      THUMBSTICK_Y_AXIS_ACTION_INDEX XR_TYPE_ACTION_STATE_FLOAT
      (emptyStates (ActionState.float ⟨0, false, false⟩))
    let st : HandStates :=
      { trigger := trigger.2.1, grab := grab.2.1, menu := menu.2.1, pose := pose.2.1,
        thumbstickX := thumbX.2.1, thumbstickY := thumbY.2.1 }
    [Call.xrSyncActions] ++ trigger.2.2 ++ grab.2.2 ++ menu.2.2 ++ pose.2.2 ++ thumbX.2.2
      ++ thumbY.2.2
      ++ (List.range HANDCOUNT).foldl (fun calls i => calls ++ updateHand rt self st i) []

/-! ## The frame driver (`process_openxr`) -/

/-- What the runtime answers, for one hand, to the queries made while an
interaction-profile-changed event is handled: the result of
`xrGetCurrentInteractionProfile`, the profile path it reports and the result
of `xrPathToString`. -/
structure ProfileReply where
  getResult : XrResult
  interactionProfile : XrPath
  toStringResult : XrResult
deriving DecidableEq, Repr

/-- The event written to `runtimeEvent` by a successful `xrPollEvent`, by its
`type`. An interaction-profile-changed event carries the answers to the
queries its handler makes for the left and the right hand. -/
inductive XrEvent where
  | eventsLost (lostEventCount : Nat)
  | visibilityMaskChanged
  | instanceLossPending (lossTime : XrTime)
  | sessionStateChanged (state : XrSessionState)
  | referenceSpaceChangePending (referenceSpaceType : Int)
  | interactionProfileChanged (left : ProfileReply) (right : ProfileReply)
  | unhandled (type : XrStructureType)
deriving DecidableEq, Repr

/-- One answer of `xrPollEvent`: the result code and, for `XR_SUCCESS`, the
event. -/
structure PollReply where
  result : XrResult
  event : XrEvent
deriving DecidableEq, Repr

/-- The pending events of a queue as the answers `xrPollEvent` gives. -/
def pendingEvents (queue : List XrEvent) : List PollReply :=
  queue.map (fun e => { result := XR_SUCCESS, event := e })

/-- The loop body of the interaction-profile case for one hand. -/
def queryProfile (hand : Nat) (r : ProfileReply) : List Call :=
  if !xr_result r.getResult then [Call.xrGetCurrentInteractionProfile hand]
  else if r.interactionProfile = XR_NULL_PATH then [Call.xrGetCurrentInteractionProfile hand]
  else [Call.xrGetCurrentInteractionProfile hand, Call.xrPathToString r.interactionProfile]

/-- The `switch` of `process_openxr` on one event: the object afterwards, the
calls made, and whether the case executed `return`. -/
def handleEvent (event : XrEvent) (self : Api) : Api × List Call × Bool :=
  match event with
  | XrEvent.eventsLost _ => (self, [], false)
  | XrEvent.visibilityMaskChanged => (self, [], false)
  | XrEvent.instanceLossPending _ => ({ self with running := false }, [], true)
  | XrEvent.sessionStateChanged st =>
    let self1 : Api := { self with state := st }
    if st ≥ XR_SESSION_STATE_STOPPING then ({ self1 with running := false }, [], true)
    else (self1, [], false)
  | XrEvent.referenceSpaceChangePending _ => (self, [], false)
  | XrEvent.interactionProfileChanged left right =>
    (self, [Call.xrStringToPath "/user/hand/left", Call.xrStringToPath "/user/hand/right"]
      ++ queryProfile 0 left ++ queryProfile 1 right, false)
  | XrEvent.unhandled _ => (self, [], false)

/-- How the event loop of `process_openxr` was left. -/
inductive LoopExit where
  | returned
  | pollResult (r : XrResult)
deriving DecidableEq, Repr

/-- State after the event loop: object, calls made, the answers of the runtime
that were not consumed, and how the loop was left. -/
structure DrainOut where
  api : Api
  trace : List Call
  pending : List PollReply
  exit : LoopExit
deriving DecidableEq, Repr

/-- The event loop of `process_openxr`: `xrPollEvent` is called, and while it
answers `XR_SUCCESS` the event is dispatched and `xrPollEvent` is called
again. When the runtime has no answer left the queue is empty and the call
gives `XR_EVENT_UNAVAILABLE`. -/
def drainEvents : List PollReply → Api → DrainOut
  | [], self =>
    { api := self, trace := [Call.xrPollEvent], pending := [],
      exit := LoopExit.pollResult XR_EVENT_UNAVAILABLE }
  | r :: rest, self =>
    if r.result = XR_SUCCESS then
      let h := handleEvent r.event self
      if h.2.2 then
        { api := h.1, trace := Call.xrPollEvent :: h.2.1, pending := rest,
          exit := LoopExit.returned }
      else
        let d := drainEvents rest h.1
        { d with trace := Call.xrPollEvent :: (h.2.1 ++ d.trace) }
    else
      { api := self, trace := [Call.xrPollEvent], pending := rest,
        exit := LoopExit.pollResult r.result }

/-- What the runtime answers to `xrLocateViews`: the result, the flags of
`viewState`, `viewCountOutput` and the array `views` as it is afterwards. -/
structure LocateViewsReply where
  result : XrResult
  viewStateFlags : Nat
  viewCountOutput : Nat
  views : List XrView
deriving DecidableEq, Repr

/-- What the runtime answers during one `process_openxr`. -/
structure ProcessReplies where
  polls : List PollReply
  waitFrame : XrResult × XrFrameState
  controllers : ControllerReplies
  locateViews : LocateViewsReply
  beginFrame : XrResult

/-- Result of `process_openxr`: the object afterwards, the calls made in
order, and the answers of `xrPollEvent` that were not consumed. -/
structure ProcessOut where
  api : Api
  trace : List Call
  pending : List PollReply
deriving DecidableEq, Repr

/-- The loop deciding `pose_invalid` in `process_openxr`, with `remaining`
iterations left. -/
def poseInvalidLoop (viewStateFlags : Nat) : Nat → Bool → Bool
  | 0, pose_invalid => pose_invalid
  | remaining + 1, pose_invalid =>
    if viewStateFlags &&& XR_VIEW_STATE_ORIENTATION_VALID_BIT = 0 ∨
        viewStateFlags &&& XR_VIEW_STATE_POSITION_VALID_BIT = 0 then
      poseInvalidLoop viewStateFlags remaining true
    else
      poseInvalidLoop viewStateFlags remaining pose_invalid

/-- The function `OpenXRApi::process_openxr`. -/
def process_openxr (rt : ProcessReplies) (self : Api) : ProcessOut :=
  let d := drainEvents rt.polls self
  match d.exit with
  | LoopExit.returned => { api := d.api, trace := d.trace, pending := d.pending }
  | LoopExit.pollResult pollResult =>
    if pollResult = XR_EVENT_UNAVAILABLE then
      let self1 : Api := { d.api with frameState := rt.waitFrame.2 }
      let trace1 := d.trace ++ [Call.xrWaitFrame]
      if !xr_result rt.waitFrame.1 then
        { api := self1, trace := trace1, pending := d.pending }
      else
        let trace2 := trace1 ++ update_controllers rt.controllers self1 ++
          [Call.xrLocateViews self1.frameState.predictedDisplayTime self1.play_space]
        let self2 : Api := { self1 with views := self1.views.map (fun _ => rt.locateViews.views) }
        if !xr_result rt.locateViews.result then
          { api := self2, trace := trace2, pending := d.pending }
        else
          let pose_invalid :=
            poseInvalidLoop rt.locateViews.viewStateFlags rt.locateViews.viewCountOutput false
          let self3 : Api := { self2 with view_pose_valid := !pose_invalid }
          { api := self3, trace := trace2 ++ [Call.xrBeginFrame], pending := d.pending }
    else
      { api := d.api, trace := d.trace, pending := d.pending }

/-! ## Capability queries and swapchain format selection -/

/-- The comparison of `strcmp` on the characters of two NUL-terminated
strings (the terminator is the end of the list): the sign of the first
difference, zero when there is none. -/
def strcmpChars : List Char → List Char → Int
  | [], [] => 0
  | [], _ :: _ => -1
  | _ :: _, [] => 1
  | a :: as, b :: bs =>
    if a = b then strcmpChars as bs else if a.toNat < b.toNat then -1 else 1

/-- The C library function `strcmp`. -/
def strcmp (a b : String) : Int := strcmpChars a.data b.data

/-- The loop of `isExtensionSupported` at `supportedIndex`, with `remaining`
iterations left (`instanceExtensionCount - supportedIndex`). The array holds
the `extensionName` of each entry; reading past its end is undefined in the
source and gives `none`. -/
def isExtensionSupportedFrom (extensionName : String) (instanceExtensionProperties : List String) :
    Nat → Nat → Option Bool
  | 0, _ => some false
  | remaining + 1, supportedIndex =>
    match instanceExtensionProperties.get? supportedIndex with
    | none => none
    | some entry =>
      if strcmp extensionName entry = 0 then some true
      else isExtensionSupportedFrom extensionName instanceExtensionProperties remaining
        (supportedIndex + 1)

/-- The function `OpenXRApi::isExtensionSupported`. -/
def isExtensionSupported (extensionName : String) (instanceExtensionProperties : List String)
    (instanceExtensionCount : Nat) : Option Bool :=
  isExtensionSupportedFrom extensionName instanceExtensionProperties instanceExtensionCount 0

/-- What happens around the two `xrEnumerateViewConfigurations` calls of
`isViewConfigSupported`: the result and the count of the first call, whether
`malloc` gives a buffer, and the result of the second call with the entries
the runtime enumerated (their number is the count it writes back). -/
structure EnumerateReply where
  countResult : XrResult
  count : Nat
  mallocOk : Bool
  listResult : XrResult
  items : List Int
deriving DecidableEq, Repr

/-- The search loop of `isViewConfigSupported` over the enumerated entries. -/
def viewConfigLoop (type : Int) : List Int → Bool
  | [] => false
  | c :: rest => if c = type then true else viewConfigLoop type rest

/-- The function `OpenXRApi::isViewConfigSupported`: the value returned and
the runtime calls made. -/
def isViewConfigSupported (rt : EnumerateReply) (type : Int) : Bool × List Call :=
  if !xr_result rt.countResult then
    (false, [Call.xrEnumerateViewConfigurations 0])
  else if !rt.mallocOk then
    (false, [Call.xrEnumerateViewConfigurations 0])
  else if !xr_result rt.listResult then
    (false, [Call.xrEnumerateViewConfigurations 0, Call.xrEnumerateViewConfigurations rt.count])
  else
    (viewConfigLoop type rt.items,
      [Call.xrEnumerateViewConfigurations 0, Call.xrEnumerateViewConfigurations rt.count])

/-- The loop of the constructor over `swapchainFormats`, which runs while
`swapchainFormatToUse == 0`; the second argument is `swapchainFormatToUse`. -/
def swapchainFormatLoop : List Int → Int → Int
  | [], swapchainFormatToUse => swapchainFormatToUse
  | format :: rest, swapchainFormatToUse =>
    if swapchainFormatToUse = 0 then
      let afterSrgb := if format = GL_SRGB8_ALPHA8 then format else swapchainFormatToUse
      let afterRgba := if format = GL_RGBA8 then format else afterSrgb
      swapchainFormatLoop rest afterRgba
    else swapchainFormatToUse

/-- The swapchain format selection of the constructor: the final value of
`swapchainFormatToUse`. The fallback reads `swapchainFormats[0]`, which does
not exist for an empty list (`none`). -/
def selectSwapchainFormat (swapchainFormats : List Int) : Option Int :=
  let swapchainFormatToUse := swapchainFormatLoop swapchainFormats 0
  if swapchainFormatToUse = 0 then swapchainFormats.head? else some swapchainFormatToUse

/-! ## Sequences of entry-point calls used by the properties -/

/-- A runtime failure code. -/
def failed : XrResult := XR_ERROR_RUNTIME_FAILURE

/-- Number of `xrEndFrame` calls in a trace. -/
def countEndFrame (trace : List Call) : Nat :=
  trace.countP (fun c => match c with | Call.xrEndFrame _ _ => true | _ => false)

/-- Number of `xrAcquireSwapchainImage` calls on a swapchain in a trace. -/
def countAcquire (swapchain : XrSwapchain) (trace : List Call) : Nat :=
  trace.count (Call.xrAcquireSwapchainImage swapchain)

/-- Number of `xrReleaseSwapchainImage` calls on a swapchain in a trace. -/
def countRelease (swapchain : XrSwapchain) (trace : List Call) : Nat :=
  trace.count (Call.xrReleaseSwapchainImage swapchain)

/-- Whether a call is a texture copy. -/
def isCopy (c : Call) : Bool :=
  match c with
  | Call.glCopyTextureSubImage2D _ _ _ _ => true
  | _ => false

/-- Whether a call is an image acquire (of any swapchain). -/
def isAcquire (c : Call) : Bool :=
  match c with
  | Call.xrAcquireSwapchainImage _ => true
  | _ => false

/-- Whether a call goes to the XR runtime (as opposed to GL or the host). -/
def isRuntimeCall (c : Call) : Bool :=
  match c with
  | Call.glCopyTextureSubImage2D _ _ _ _ => false
  | Call.godot_arvr_set_controller_transform _ _ => false
  | Call.godot_arvr_set_controller_button _ _ _ => false
  | Call.godot_arvr_set_controller_axis _ _ _ => false
  | Call.godot_arvr_add_controller _ _ => false
  | _ => true

/-- Whether a call is an `xrSuggestInteractionProfileBindings`. -/
def isSuggestCall (c : Call) : Bool :=
  match c with
  | Call.xrSuggestInteractionProfileBindings _ _ => true
  | _ => false

/-- Whether a call is an `xrEndFrame`. -/
def isEndFrame (c : Call) : Bool :=
  match c with
  | Call.xrEndFrame _ _ => true
  | _ => false

/-- The calls the event loop of `process_openxr` can make: the poll itself
and the diagnostic queries of the interaction-profile case. -/
def isEventCall (c : Call) : Bool :=
  match c with
  | Call.xrPollEvent => true
  | Call.xrStringToPath _ => true
  | Call.xrGetCurrentInteractionProfile _ => true
  | Call.xrPathToString _ => true
  | _ => false

/-- The events on which the `switch` of `process_openxr` executes `return`:
instance loss pending, and a session state change to `STOPPING` or beyond. -/
def isFatalEvent (e : XrEvent) : Bool :=
  match e with
  | XrEvent.instanceLossPending _ => true
  | XrEvent.sessionStateChanged st => decide (st ≥ XR_SESSION_STATE_STOPPING)
  | _ => false

/-- Rendering one eye as the host drives it (see the comment in
`render_openxr`). Without external texture support (Godot 3.1) the host calls
`render_openxr(eye, texid, false)`, which acquires the image itself. With it
(Godot 3.2+) the host first calls `get_external_texture_for_eye(eye,
&has_support)` on a variable that is false until that function sets it, and
then `render_openxr(eye, texid, has_support)` with the variable as the first
call left it. The reply `rt` holds the answers of the runtime while this eye
is rendered; its acquire part answers every acquire made for the eye. -/
def renderEye (ext : Bool) (rt : RenderReply) (eye : Nat) (texid : Nat) (self : Api) :
    Api × List Call :=
  if ext then
    let t := get_external_texture_for_eye rt.acquire eye false self
    let r := render_openxr rt eye texid t.has_support t.api
    (r.1, t.trace ++ r.2)
  else
    render_openxr rt eye texid false self

/-! ## Concrete objects and runtime answers for evaluating the model -/

/-- A located view of the left eye. -/
def leftView : XrView := ⟨⟨identityQuat, ⟨-1, 0, 0⟩⟩, ⟨-1, 1, 1, -1⟩⟩

/-- A located view of the right eye. -/
def rightView : XrView := ⟨⟨identityQuat, ⟨1, 0, 0⟩⟩, ⟨-1, 1, 1, -1⟩⟩

/-- An object as the constructor leaves it for a stereo runtime, in a focused
session with a frame begun and the views located. -/
def sampleApi : Api :=
  { use_count := 1
    successful_init := true
    running := true
    state := XR_SESSION_STATE_FOCUSED
    view_pose_valid := true
    view_count := 2
    frameState := ⟨1000, true⟩
    views := some [leftView, rightView]
    projection_views := [⟨identityPose, zeroFov, 11, 1024, 768⟩, ⟨identityPose, zeroFov, 12, 1024, 768⟩]
    projectionLayer := ⟨1, 2, ViewsPtr.null⟩
    swapchains := [11, 12]
    buffer_index := some [0, 0]
    images := [[101, 102], [201, 202]]
    configuration_views := [⟨1024, 768, 1⟩, ⟨1024, 768, 1⟩]
    godot_controllers := [1, 2]
    play_space := 1
    handSpaces := [21, 22] }

/-- The sample object after a fatal session event cleared `running`. -/
def stoppedApi : Api := { sampleApi with running := false }

/-- The sample object in a frame the runtime asked not to render. -/
def skipFrameApi : Api := { sampleApi with frameState := ⟨1000, false⟩ }

/-- A runtime whose image acquire and wait succeed, giving image 1. -/
def okAcquire : AcquireReply := ⟨XR_SUCCESS, 1, XR_SUCCESS⟩

/-- A runtime whose calls during `render_openxr` all succeed. -/
def okRender : RenderReply := ⟨okAcquire, XR_SUCCESS, XR_SUCCESS⟩

/-- A runtime that reports every action of both hands as inactive. -/
def quietControllers : ControllerReplies :=
  { sync := XR_SUCCESS
    states := fun _ =>
      { float := fun _ => (XR_SUCCESS, ⟨0, false, false⟩)
        boolean := fun _ => (XR_SUCCESS, ⟨false, false, false⟩)
        pose := fun _ => (XR_SUCCESS, ⟨false⟩) }
    locate := fun _ => (XR_SUCCESS, ⟨0, identityPose⟩) }

/-- A runtime with no pending event whose frame calls all succeed. -/
def quietFrame : ProcessReplies :=
  { polls := []
    waitFrame := (XR_SUCCESS, ⟨2000, true⟩)
    controllers := quietControllers
    locateViews := ⟨XR_SUCCESS, 3, 2, [leftView, rightView]⟩
    beginFrame := XR_SUCCESS }

/-- A queue in which a change to `STOPPING` is followed by another event. -/
def stoppingQueue : List XrEvent :=
  [XrEvent.eventsLost 1, XrEvent.sessionStateChanged XR_SESSION_STATE_STOPPING,
    XrEvent.sessionStateChanged XR_SESSION_STATE_IDLE]

/-- The quiet runtime with the stopping queue pending. -/
def stoppingFrame : ProcessReplies := { quietFrame with polls := pendingEvents stoppingQueue }

/-- A queue in which an instance loss is followed by another event. -/
def lossQueue : List XrEvent :=
  [XrEvent.sessionStateChanged XR_SESSION_STATE_VISIBLE, XrEvent.instanceLossPending 5000,
    XrEvent.sessionStateChanged XR_SESSION_STATE_FOCUSED]

/-- The quiet runtime with the loss queue pending. -/
def lossFrame : ProcessReplies := { quietFrame with polls := pendingEvents lossQueue }

/-! ## Transform queries (`get_view_transform`, `get_head_center`) -/

/-- The function `OpenXRApi::get_view_transform`: the return value and the
transform written to `transform_for_eye` (`none` when nothing is written). -/
def get_view_transform (eye : Nat) (world_scale : XrFloat) (self : Api) :
    Bool × Option godot_transform :=
  if self.frameState.predictedDisplayTime = 0 then (false, none)
  else if self.views.isNone || !self.view_pose_valid then (false, none)
  else
    (true, some (transform_from_pose ((self.views.getD []).getD eye defaultView).pose
      world_scale).2)

/-- The function `OpenXRApi::get_head_center`: the return value, the transform
written to `transform` (`none` when nothing is written) and the calls made.
The reply is the result of `xrLocateSpace` and the location afterwards. -/
def get_head_center (rt : XrResult × XrSpaceLocation) (world_scale : XrFloat) (self : Api) :
    Bool × Option godot_transform × List Call :=
  if self.frameState.predictedDisplayTime = 0 then (false, none, [])
  else
    let located := [Call.xrLocateSpace self.view_space self.play_space
      self.frameState.predictedDisplayTime]
    if !xr_result rt.1 then (false, none, located)
    else if rt.2.locationFlags &&& XR_SPACE_LOCATION_ORIENTATION_VALID_BIT = 0 ∨
        rt.2.locationFlags &&& XR_SPACE_LOCATION_POSITION_VALID_BIT = 0 then
      (false, none, located)
    else (true, some (transform_from_pose rt.2.pose world_scale).2, located)

/-! ## The parts of `update_controllers` the properties speak about -/

/-- The six local state arrays of `update_controllers` as the calls of
`getActionStates` leave them. -/
def fetchedStates (rt : ControllerReplies) : HandStates :=
  { trigger := (getActionStates (rt.states TRIGGER_ACTION_INDEX) TRIGGER_ACTION_INDEX
      XR_TYPE_ACTION_STATE_FLOAT (emptyStates (ActionState.float ⟨0, false, false⟩))).2.1
    grab := (getActionStates (rt.states GRAB_ACTION_INDEX) GRAB_ACTION_INDEX
      XR_TYPE_ACTION_STATE_BOOLEAN (emptyStates (ActionState.boolean ⟨false, false, false⟩))).2.1
    menu := (getActionStates (rt.states MENU_ACTION_INDEX) MENU_ACTION_INDEX
      XR_TYPE_ACTION_STATE_BOOLEAN (emptyStates (ActionState.boolean ⟨false, false, false⟩))).2.1
    pose := (getActionStates (rt.states POSE_ACTION_INDEX) POSE_ACTION_INDEX
      XR_TYPE_ACTION_STATE_POSE (emptyStates (ActionState.pose ⟨false⟩))).2.1
    thumbstickX := (getActionStates (rt.states THUMBSTICK_X_AXIS_ACTION_INDEX)
      THUMBSTICK_X_AXIS_ACTION_INDEX XR_TYPE_ACTION_STATE_FLOAT
      (emptyStates (ActionState.float ⟨0, false, false⟩))).2.1
    thumbstickY := (getActionStates (rt.states THUMBSTICK_Y_AXIS_ACTION_INDEX)
      THUMBSTICK_Y_AXIS_ACTION_INDEX XR_TYPE_ACTION_STATE_FLOAT
      (emptyStates (ActionState.float ⟨0, false, false⟩))).2.1 }

/-- The calls `update_controllers` makes before its loop over the hands: the
sync and the state queries of the six actions for both hands. -/
def fetchCalls : List Call :=
  [Call.xrSyncActions,
    Call.xrGetActionStateFloat TRIGGER_ACTION_INDEX 0,
    Call.xrGetActionStateFloat TRIGGER_ACTION_INDEX 1,
    Call.xrGetActionStateBoolean GRAB_ACTION_INDEX 0,
    Call.xrGetActionStateBoolean GRAB_ACTION_INDEX 1,
    Call.xrGetActionStateBoolean MENU_ACTION_INDEX 0,
    Call.xrGetActionStateBoolean MENU_ACTION_INDEX 1,
    Call.xrGetActionStatePose POSE_ACTION_INDEX 0,
    Call.xrGetActionStatePose POSE_ACTION_INDEX 1,
    Call.xrGetActionStateFloat THUMBSTICK_X_AXIS_ACTION_INDEX 0,
    Call.xrGetActionStateFloat THUMBSTICK_X_AXIS_ACTION_INDEX 1,
    Call.xrGetActionStateFloat THUMBSTICK_Y_AXIS_ACTION_INDEX 0,
    Call.xrGetActionStateFloat THUMBSTICK_Y_AXIS_ACTION_INDEX 1]

/-- The calls of the loop iteration of `update_controllers` for hand `i`. -/
def handCalls (rt : ControllerReplies) (self : Api) (i : Nat) : List Call :=
  updateHand rt self (fetchedStates rt) i

/-- Whether a call goes to the host engine. -/
def isHostCall (c : Call) : Bool :=
  match c with
  | Call.godot_arvr_set_controller_transform _ _ => true
  | Call.godot_arvr_set_controller_button _ _ _ => true
  | Call.godot_arvr_set_controller_axis _ _ _ => true
  | Call.godot_arvr_add_controller _ _ => true
  | _ => false

/-- Whether a call is an update of the given button. -/
def isButtonUpdate (button : Nat) (c : Call) : Bool :=
  match c with
  | Call.godot_arvr_set_controller_button _ b _ => b == button
  | _ => false

/-- Whether a call is an axis update. -/
def isAxisUpdate (c : Call) : Bool :=
  match c with
  | Call.godot_arvr_set_controller_axis _ _ _ => true
  | _ => false

/-- Whether a call is a controller transform update. -/
def isTransformUpdate (c : Call) : Bool :=
  match c with
  | Call.godot_arvr_set_controller_transform _ _ => true
  | _ => false

/-- Two runtimes give hand `i` the same answers during `update_controllers`. -/
def sameHandAnswers (rt rt2 : ControllerReplies) (i : Nat) : Prop :=
  (∀ a, (rt.states a).float i = (rt2.states a).float i) ∧
  (∀ a, (rt.states a).boolean i = (rt2.states a).boolean i) ∧
  (∀ a, (rt.states a).pose i = (rt2.states a).pose i) ∧
  rt.locate i = rt2.locate i

/-- A runtime that tracks both hands (orientation and position valid) at the
position (1, 2, 3); the trigger of each hand changed to 1, its grab button is
unchanged, and its thumbstick moved to (0.25, 0.6). -/
def trackedControllers : ControllerReplies :=
  { sync := XR_SUCCESS
    states := fun a =>
      { float := fun _ =>
          if a = TRIGGER_ACTION_INDEX then (XR_SUCCESS, ⟨1, true, true⟩)
          else if a = THUMBSTICK_X_AXIS_ACTION_INDEX then (XR_SUCCESS, ⟨0.25, true, true⟩)
          else (XR_SUCCESS, ⟨0.6, true, true⟩)
        boolean := fun _ =>
          if a = GRAB_ACTION_INDEX then (XR_SUCCESS, ⟨true, false, true⟩)
          else (XR_SUCCESS, ⟨true, true, true⟩)
        pose := fun _ => (XR_SUCCESS, ⟨true⟩) }
    locate := fun _ => (XR_SUCCESS, ⟨3, ⟨identityQuat, ⟨1, 2, 3⟩⟩⟩) }

/-- The tracking runtime with the left hand reporting an inactive pose. -/
def leftHandLost : ControllerReplies :=
  { trackedControllers with
    states := fun a =>
      { (trackedControllers.states a) with
        pose := fun i => if i = 0 then (XR_SUCCESS, ⟨false⟩) else (XR_SUCCESS, ⟨true⟩) } }

/-- The tracking runtime with orientation-only tracking: the flags hold the
orientation-valid bit alone. -/
def orientationOnly : ControllerReplies :=
  { trackedControllers with locate := fun _ => (XR_SUCCESS, ⟨1, ⟨identityQuat, ⟨1, 2, 3⟩⟩⟩) }

/-- The tracking runtime with position-only tracking: the flags hold the
position-valid bit alone. -/
def positionOnly : ControllerReplies :=
  { trackedControllers with locate := fun _ => (XR_SUCCESS, ⟨2, ⟨identityQuat, ⟨1, 2, 3⟩⟩⟩) }

/-- A frame in which the runtime locates no view and reports no valid flag. -/
def noViewsFrame : ProcessReplies :=
  { quietFrame with locateViews := ⟨XR_SUCCESS, 0, 0, []⟩ }

/-- The float state of one hand as `getActionStates` leaves it: what the
runtime wrote, with `isActive` cleared when the query failed. -/
def floatAnswer (r : XrResult × XrActionStateFloat) : XrActionStateFloat :=
  if !xr_result r.1 then { r.2 with isActive := false } else r.2

/-- The boolean state of one hand as `getActionStates` leaves it. -/
def booleanAnswer (r : XrResult × XrActionStateBoolean) : XrActionStateBoolean :=
  if !xr_result r.1 then { r.2 with isActive := false } else r.2

/-- The pose state of one hand as `getActionStates` leaves it. -/
def poseAnswer (r : XrResult × XrActionStatePose) : XrActionStatePose :=
  if !xr_result r.1 then { r.2 with isActive := false } else r.2

/-- The invariant of the accessor: a live singleton reports successful init.
It holds with no singleton and is kept by acquisitions and releases. -/
def liveInitialised (w : World) : Prop :=
  ∀ p obj, w.singleton = some (p, obj) → is_successful_init obj = true

/-- The sample object as a constructor that returned early leaves it. -/
def failedInitApi : Api := { sampleApi with successful_init := false, running := false }

/-! ## Setup helpers (`isReferenceSpaceSupported`, `createAction`,
`suggestActions`, `check_graphics_requirements_gl`) -/

def XR_KHR_OPENGL_ENABLE_EXTENSION_NAME : String := "XR_KHR_opengl_enable"

def XR_MND_BALL_ON_STICK_EXTENSION_NAME : String := "XR_MNDX_ball_on_a_stick_controller"

def XR_VIEW_CONFIGURATION_TYPE_PRIMARY_STEREO : Int := 2

def XR_REFERENCE_SPACE_TYPE_VIEW : Int := 1

def XR_REFERENCE_SPACE_TYPE_LOCAL : Int := 2

def XR_ACTION_TYPE_BOOLEAN_INPUT : Int := 1

def XR_ACTION_TYPE_FLOAT_INPUT : Int := 2

def XR_ACTION_TYPE_POSE_INPUT : Int := 4

/-- The search loop of `isReferenceSpaceSupported` over the enumerated
entries. -/
def referenceSpaceLoop (type : Int) : List Int → Bool
  | [] => false
  | c :: rest => if c = type then true else referenceSpaceLoop type rest

/-- The function `OpenXRApi::isReferenceSpaceSupported`: the value returned
and the runtime calls made. A failed count query executes `return 1`; a
`NULL` from `malloc` is only logged, so `mallocOk` of the reply is not
read. -/
def isReferenceSpaceSupported (rt : EnumerateReply) (type : Int) : Bool × List Call :=
  if !xr_result rt.countResult then
    (true, [Call.xrEnumerateReferenceSpaces 0])
  else if !xr_result rt.listResult then
    (false, [Call.xrEnumerateReferenceSpaces 0, Call.xrEnumerateReferenceSpaces rt.count])
  else
    (referenceSpaceLoop type rt.items,
      [Call.xrEnumerateReferenceSpaces 0, Call.xrEnumerateReferenceSpaces rt.count])

/-- The function `OpenXRApi::createAction`: the handle returned (`NULL` is
`XR_NULL_HANDLE`) and the call made. The reply is the result of
`xrCreateAction` and the handle it writes. -/
def createAction (rt : XrResult × Nat) (actionType : Int) (actionName : String) :
    Nat × List Call :=
  if !xr_result rt.1 then (XR_NULL_HANDLE, [Call.xrCreateAction actionName actionType])
  else (rt.2, [Call.xrCreateAction actionName actionType])

/-- What the runtime answers during one `suggestActions`: the result of
`xrStringToPath` with the path it writes, and the result of
`xrSuggestInteractionProfileBindings`. -/
structure SuggestReply where
  stringToPath : XrResult × XrPath
  suggest : XrResult
deriving DecidableEq, Repr

/-- The inner loop of `suggestActions` over the hands for one action, from
`handCount` on with `remaining` iterations left: the writes
`bindings[binding_index] = (action, path)` in order. -/
def bindingWritesHands (action : Nat) (paths : List XrPath) (action_count : Nat) :
    Nat → Nat → List (Nat × (Nat × XrPath))
  | 0, _ => []
  | remaining + 1, handCount =>
    (action_count * HANDCOUNT + handCount, (action, paths.getD handCount XR_NULL_PATH)) ::
      bindingWritesHands action paths action_count remaining (handCount + 1)

/-- The outer loop of `suggestActions` over the actions, from `action_count`
on with `remaining` iterations left: all writes to `bindings` in order. -/
def bindingWrites (actions : List Nat) (paths : List (List XrPath)) :
    Nat → Nat → List (Nat × (Nat × XrPath))
  | 0, _ => []
  | remaining + 1, action_count =>
    bindingWritesHands (actions.getD action_count XR_NULL_HANDLE) (paths.getD action_count [])
        action_count HANDCOUNT 0 ++
      bindingWrites actions paths remaining (action_count + 1)

/-- The array `bindings` after the writes; an element never written is
`none`. -/
def writeBindings (bindings : List (Option (Nat × XrPath)))
    (writes : List (Nat × (Nat × XrPath))) : List (Option (Nat × XrPath)) :=
  writes.foldl (fun b w => b.set w.1 (some w.2)) bindings

/-- The function `OpenXRApi::suggestActions`: the value returned and the
calls made. The value of `xrSuggestInteractionProfileBindings` is not stored,
so the test after it reads `result` of `xrStringToPath` again. -/
def suggestActions (rt : SuggestReply) (interaction_profile : String) (actions : List Nat)
    (paths : List (List XrPath)) (num_actions : Nat) : Bool × List Call :=
  let result := rt.stringToPath.1
  if !xr_result result then (false, [Call.xrStringToPath interaction_profile])
  else
    let num_bindings := num_actions * HANDCOUNT
    let bindings := writeBindings (List.replicate num_bindings none)
      (bindingWrites actions paths num_actions 0)
    let calls := [Call.xrStringToPath interaction_profile,
      Call.xrSuggestInteractionProfileBindings rt.stringToPath.2 bindings]
    if !xr_result result then (false, calls) else (true, calls)

/-- The function `OpenXRApi::check_graphics_requirements_gl`: the value
returned and the calls made; a version outside the reported range is only
logged. -/
def check_graphics_requirements_gl (procAddr : XrResult) (requirements : XrResult) :
    Bool × List Call :=
  if !xr_result procAddr then
    (false, [Call.xrGetInstanceProcAddr "xrGetOpenGLGraphicsRequirementsKHR"])
  else if !xr_result requirements then
    (false, [Call.xrGetInstanceProcAddr "xrGetOpenGLGraphicsRequirementsKHR",
      Call.xrGetOpenGLGraphicsRequirementsKHR])
  else
    (true, [Call.xrGetInstanceProcAddr "xrGetOpenGLGraphicsRequirementsKHR",
      Call.xrGetOpenGLGraphicsRequirementsKHR])

/-! ## The constructor `OpenXRApi::OpenXRApi`

The constructor is one long function that leaves with `return` at the first
step that fails. It is embedded as a chain of parts in source order, each
working on a `Construction`: the object so far, the calls made so far, and
whether `return` was executed (a part then does nothing). The embedding
follows the branch of `#ifdef WIN32` for other platforms; building the
graphics binding from the handles of the host has no failure path there and
is left out. -/

/-- What the runtime answers to the two calls of an enumeration and what
`malloc` does between them: the result and count of the count query, whether
the buffer is allocated, the result of the list query and the entries the
runtime writes (their number is the count it writes back). -/
structure EnumerationReply (α : Type) where
  countResult : XrResult
  count : Nat
  mallocOk : Bool
  listResult : XrResult
  items : List α

/-- What the runtime, `malloc` and the host answer during the constructor. -/
structure SetupReplies where
  extensions : EnumerationReply String
  enabledExtensionsMallocOk : Bool
  createInstance : XrResult
  getSystem : XrResult
  getSystemProperties : XrResult
  viewConfigurations : EnumerateReply
  configurationViews : EnumerationReply XrViewConfigurationView
  getInstanceProcAddr : XrResult
  graphicsRequirements : XrResult
  createSession : XrResult
  playSpaces : EnumerateReply
  createPlaySpace : XrResult × Nat
  viewSpaces : EnumerateReply
  createViewSpace : XrResult × Nat
  beginSession : XrResult
  swapchainFormats : EnumerateReply
  createSwapchain : Nat → XrResult × XrSwapchain
  swapchainImageCount : Nat → XrResult × Nat
  swapchainImages : Nat → XrResult × List Nat
  createActionSet : XrResult
  stringToPath : String → XrResult × XrPath
  createAction : String → XrResult × Nat
  suggestBindings : String → XrResult
  createActionSpace : Nat → XrResult × Nat
  attachActionSets : XrResult
  addController : String → Int

/-- The constructor at some point of its body. -/
structure Construction where
  self : Api
  trace : List Call
  returned : Bool
deriving DecidableEq, Repr

/-- One more call was made. -/
def Construction.call (c : Construction) (k : Call) : Construction :=
  { c with trace := c.trace ++ [k] }

/-- Several more calls were made. -/
def Construction.calls (c : Construction) (ks : List Call) : Construction :=
  { c with trace := c.trace ++ ks }

/-- Members of the object were assigned. -/
def Construction.assign (c : Construction) (self : Api) : Construction :=
  { c with self := self }

/-- The constructor executes `return`. -/
def Construction.leave (c : Construction) : Construction :=
  { c with returned := true }

/-- The first statements of the constructor, on the object as the member
initialisers of the class left it. -/
def beginConstruction (init : Api) : Construction :=
  { self :=
      { init with
        successful_init := false
        buffer_index := none
        state := XR_SESSION_STATE_UNKNOWN
        view_pose_valid := false
        monado_stick_on_ball_ext := false }
    trace := []
    returned := false }

/-- The writes `enabledExtensions[enabledExtensionCount++] = name` of the
constructor, as (index, name) in order. -/
def enabledExtensionWrites (monado_stick_on_ball_ext : Bool) : List (Nat × String) :=
  (0, XR_KHR_OPENGL_ENABLE_EXTENSION_NAME) ::
    (if monado_stick_on_ball_ext then [(1, XR_MND_BALL_ON_STICK_EXTENSION_NAME)] else [])

/-- The array `enabledExtensions` of the given capacity after the writes. -/
def writeExtensionNames (capacity : Nat) (writes : List (Nat × String)) : List (Option String) :=
  writes.foldl (fun names w => names.set w.1 (some w.2)) (List.replicate capacity none)

/-- Lines 179 to 270: enumerate the extensions, require the OpenGL extension,
detect the ball-on-stick extension, create the instance. -/
def createInstance (rt : SetupReplies) (c : Construction) : Construction :=
  if c.returned then c
  else
    let c1 := c.call (Call.xrEnumerateInstanceExtensionProperties 0)
    if !xr_result rt.extensions.countResult then c1.leave
    else if !rt.extensions.mallocOk then c1.leave
    else
      let c2 := c1.call (Call.xrEnumerateInstanceExtensionProperties rt.extensions.count)
      if !xr_result rt.extensions.listResult then c2.leave
      else
        let extensionProperties := rt.extensions.items
        let extensionCount := extensionProperties.length
        if !(isExtensionSupported XR_KHR_OPENGL_ENABLE_EXTENSION_NAME extensionProperties
            extensionCount).getD false then c2.leave
        else
          let monado :=
            if (isExtensionSupported XR_MND_BALL_ON_STICK_EXTENSION_NAME extensionProperties
                extensionCount).getD false then true
            else c2.self.monado_stick_on_ball_ext
          let c3 := c2.assign { c2.self with monado_stick_on_ball_ext := monado }
          if !rt.enabledExtensionsMallocOk then c3.leave
          else
            let writes := enabledExtensionWrites monado
            let enabledExtensions := writeExtensionNames extensionCount writes
            let enabledExtensionCount := writes.length
            let c4 := c3.call (Call.xrCreateInstance
              ((enabledExtensions.take enabledExtensionCount).map (fun n => n.getD "")))
            if !xr_result rt.createInstance then c4.leave else c4

/-- Lines 273 to 294: select the head-mounted system and fetch its
properties. -/
def selectSystem (rt : SetupReplies) (c : Construction) : Construction :=
  if c.returned then c
  else
    let c1 := c.call Call.xrGetSystem
    if !xr_result rt.getSystem then c1.leave
    else
      let c2 := c1.call Call.xrGetSystemProperties
      if !xr_result rt.getSystemProperties then c2.leave else c2

/-- Lines 296 to 322: require the stereo view configuration, enumerate the
views of the configuration, check the graphics requirements. -/
def configureViews (rt : SetupReplies) (c : Construction) : Construction :=
  if c.returned then c
  else
    let supported := isViewConfigSupported rt.viewConfigurations
      XR_VIEW_CONFIGURATION_TYPE_PRIMARY_STEREO
    let c1 := c.calls supported.2
    if !supported.1 then c1.leave
    else
      let c2 := c1.call (Call.xrEnumerateViewConfigurationViews 0)
      if !xr_result rt.configurationViews.countResult then c2.leave
      else
        let c3 := c2.assign { c2.self with view_count := rt.configurationViews.count }
        let c4 := c3.call (Call.xrEnumerateViewConfigurationViews rt.configurationViews.count)
        if !xr_result rt.configurationViews.listResult then
          (c4.assign
            { c4.self with
              configuration_views := List.replicate rt.configurationViews.count ⟨0, 0, 0⟩ }).leave
        else
          let c5 := c4.assign
            { c4.self with
              view_count := rt.configurationViews.items.length
              configuration_views := rt.configurationViews.items
              buffer_index := some (List.replicate rt.configurationViews.items.length 0) }
          let checked := check_graphics_requirements_gl rt.getInstanceProcAddr
            rt.graphicsRequirements
          let c6 := c5.calls checked.2
          if !checked.1 then c6.leave else c6

/-- Lines 387 to 396: create the session. -/
def createSession (rt : SetupReplies) (c : Construction) : Construction :=
  if c.returned then c
  else
    let c1 := c.call Call.xrCreateSession
    if !xr_result rt.createSession then c1.leave else c1

/-- Lines 403 to 451: require and create the play space and the view space,
begin the session. -/
def createSpaces (rt : SetupReplies) (c : Construction) : Construction :=
  if c.returned then c
  else
    let play := isReferenceSpaceSupported rt.playSpaces c.self.play_space_type
    let c1 := c.calls play.2
    if !play.1 then c1.leave
    else
      let c2 := c1.call (Call.xrCreateReferenceSpace c1.self.play_space_type)
      if !xr_result rt.createPlaySpace.1 then c2.leave
      else
        let c3 := c2.assign { c2.self with play_space := rt.createPlaySpace.2 }
        let view := isReferenceSpaceSupported rt.viewSpaces XR_REFERENCE_SPACE_TYPE_VIEW
        let c4 := c3.calls view.2
        if !view.1 then c4.leave
        else
          let c5 := c4.call (Call.xrCreateReferenceSpace XR_REFERENCE_SPACE_TYPE_VIEW)
          if !xr_result rt.createViewSpace.1 then c5.leave
          else
            let c6 := c5.assign { c5.self with view_space := rt.createViewSpace.2 }
            let c7 := c6.call Call.xrBeginSession
            if !xr_result rt.beginSession then c7.leave else c7

/-- State of the loops of the constructor over the views: the arrays
`swapchains`, `swapchainLength` and `images`, the calls made, and whether
`return` was executed. -/
structure SwapchainLoop where
  swapchains : List XrSwapchain
  swapchainLength : List Nat
  images : List (List Nat)
  trace : List Call
  returned : Bool
deriving DecidableEq, Repr

/-- The loop creating one swapchain per view and asking for its number of
images (lines 521 to 548), at view `i` with `remaining` iterations left. -/
def createSwapchainsFrom (rt : SetupReplies) (swapchainFormatToUse : Int)
    (configuration_views : List XrViewConfigurationView) :
    Nat → Nat → SwapchainLoop → SwapchainLoop
  | 0, _, acc => acc
  | remaining + 1, i, acc =>
    let created := rt.createSwapchain i
    let acc1 : SwapchainLoop :=
      { acc with
        swapchains := acc.swapchains.set i created.2
        trace := acc.trace ++ [Call.xrCreateSwapchain swapchainFormatToUse
          (configuration_views.getD 0 ⟨0, 0, 0⟩).recommendedSwapchainSampleCount
          (configuration_views.getD i ⟨0, 0, 0⟩).recommendedImageRectWidth
          (configuration_views.getD i ⟨0, 0, 0⟩).recommendedImageRectHeight] }
    if !xr_result created.1 then { acc1 with returned := true }
    else
      let counted := rt.swapchainImageCount i
      let acc2 : SwapchainLoop :=
        { acc1 with
          swapchainLength := acc1.swapchainLength.set i counted.2
          trace := acc1.trace ++ [Call.xrEnumerateSwapchainImages created.2 0] }
      if !xr_result counted.1 then { acc2 with returned := true }
      else createSwapchainsFrom rt swapchainFormatToUse configuration_views remaining (i + 1) acc2

/-- The loop fetching the images of each swapchain (lines 560 to 565), at
view `i` with `remaining` iterations left. -/
def enumerateImagesFrom (rt : SetupReplies) : Nat → Nat → SwapchainLoop → SwapchainLoop
  | 0, _, acc => acc
  | remaining + 1, i, acc =>
    let fetched := rt.swapchainImages i
    let acc1 : SwapchainLoop :=
      { acc with
        images := acc.images.set i fetched.2
        swapchainLength := acc.swapchainLength.set i fetched.2.length
        trace := acc.trace ++ [Call.xrEnumerateSwapchainImages
          (acc.swapchains.getD i XR_NULL_HANDLE) (acc.swapchainLength.getD i 0)] }
    if !xr_result fetched.1 then { acc1 with returned := true }
    else enumerateImagesFrom rt remaining (i + 1) acc1

/-- Lines 453 to 567: enumerate the swapchain formats, choose one, create the
swapchains and fetch their images. -/
def createSwapchains (rt : SetupReplies) (c : Construction) : Construction :=
  if c.returned then c
  else
    let c1 := c.call (Call.xrEnumerateSwapchainFormats 0)
    if !xr_result rt.swapchainFormats.countResult then c1.leave
    else if !rt.swapchainFormats.mallocOk then c1.leave
    else
      let c2 := c1.call (Call.xrEnumerateSwapchainFormats rt.swapchainFormats.count)
      if !xr_result rt.swapchainFormats.listResult then c2.leave
      else
        let swapchainFormatToUse := (selectSwapchainFormat rt.swapchainFormats.items).getD 0
        let view_count := c2.self.view_count
        let created := createSwapchainsFrom rt swapchainFormatToUse c2.self.configuration_views
          view_count 0
          { swapchains := List.replicate view_count XR_NULL_HANDLE
            swapchainLength := List.replicate view_count 0
            images := []
            trace := []
            returned := false }
        let c3 := (c2.assign { c2.self with swapchains := created.swapchains }).calls created.trace
        if created.returned then c3.leave
        else
          let fetched := enumerateImagesFrom rt view_count 0
            { created with
              images := (List.range view_count).map
                (fun i => List.replicate (created.swapchainLength.getD i 0) 0)
              trace := [] }
          let c4 := (c3.assign { c3.self with images := fetched.images }).calls fetched.trace
          if fetched.returned then c4.leave else c4

/-- The loop initialising `views` and `projection_views` (lines 594 to 606):
the projection view of view `i`; pose and fov are not initialised. -/
def initialProjectionView (self : Api) (i : Nat) : ProjectionView :=
  { defaultProjectionView with
    swapchain := self.swapchains.getD i XR_NULL_HANDLE
    width := (self.configuration_views.getD i ⟨0, 0, 0⟩).recommendedImageRectWidth
    height := (self.configuration_views.getD i ⟨0, 0, 0⟩).recommendedImageRectHeight }

/-- Lines 579 to 606: the projection layer, `running = true`, and the arrays
`views` and `projection_views`. -/
def prepareFrameData (c : Construction) : Construction :=
  if c.returned then c
  else
    c.assign
      { c.self with
        projectionLayer :=
          { space := c.self.play_space, viewCount := c.self.view_count, views := ViewsPtr.null }
        running := true
        views := some (List.replicate c.self.view_count defaultView)
        projection_views := (List.range c.self.view_count).map (initialProjectionView c.self) }

/-- One statement pair of lines 625 to 655: `actions[index] = createAction(...)`
followed by `if (actions[checked] == NULL) return`. -/
def createCheckedAction (rt : SetupReplies) (index : Nat) (actionType : Int) (name : String)
    (checked : Nat) (c : Construction) : Construction :=
  if c.returned then c
  else
    let made := createAction (rt.createAction name) actionType name
    let c1 := (c.assign { c.self with actions := c.self.actions.set index made.1 }).calls made.2
    if c1.self.actions.getD checked XR_NULL_HANDLE = XR_NULL_HANDLE then c1.leave else c1

/-- Lines 608 to 655: create the action set, the hand paths and the six
actions. The test after the creation of the menu action reads
`actions[GRAB_ACTION_INDEX]`. The member array `actions` has six elements;
each is written before it is read. -/
def createActions (rt : SetupReplies) (c : Construction) : Construction :=
  if c.returned then c
  else
    let c1 := c.call Call.xrCreateActionSet
    if !xr_result rt.createActionSet then c1.leave
    else
      let c2 := (c1.assign
        { c1.self with
          handPaths := [(rt.stringToPath "/user/hand/left").2,
            (rt.stringToPath "/user/hand/right").2]
          actions := List.replicate 6 XR_NULL_HANDLE }).calls
        [Call.xrStringToPath "/user/hand/left", Call.xrStringToPath "/user/hand/right"]
      let c3 := createCheckedAction rt TRIGGER_ACTION_INDEX XR_ACTION_TYPE_FLOAT_INPUT "trigger"
        TRIGGER_ACTION_INDEX c2
      let c4 := createCheckedAction rt GRAB_ACTION_INDEX XR_ACTION_TYPE_BOOLEAN_INPUT "grab"
        GRAB_ACTION_INDEX c3
      let c5 := createCheckedAction rt MENU_ACTION_INDEX XR_ACTION_TYPE_BOOLEAN_INPUT "menu"
        GRAB_ACTION_INDEX c4
      let c6 := createCheckedAction rt POSE_ACTION_INDEX XR_ACTION_TYPE_POSE_INPUT "handpose"
        POSE_ACTION_INDEX c5
      let c7 := createCheckedAction rt THUMBSTICK_X_AXIS_ACTION_INDEX XR_ACTION_TYPE_FLOAT_INPUT
        "thumbstick_x" THUMBSTICK_X_AXIS_ACTION_INDEX c6
      createCheckedAction rt THUMBSTICK_Y_AXIS_ACTION_INDEX XR_ACTION_TYPE_FLOAT_INPUT
        "thumbstick_y" THUMBSTICK_Y_AXIS_ACTION_INDEX c7

/-- The pair of paths `xrStringToPath` gives for the left and the right hand
of an input, as the constructor stores them in a local array. -/
def handPathPair (rt : SetupReplies) (left right : String) : List XrPath :=
  [(rt.stringToPath left).2, (rt.stringToPath right).2]

/-- The answers of the runtime during `suggestActions` for a profile. -/
def suggestReply (rt : SetupReplies) (interaction_profile : String) : SuggestReply :=
  { stringToPath := rt.stringToPath interaction_profile
    suggest := rt.suggestBindings interaction_profile }

/-- The input paths the constructor converts before suggesting bindings
(lines 657 to 687), in order. -/
def inputPathNames : List String :=
  ["/user/hand/left/input/select/click", "/user/hand/right/input/select/click",
    "/user/hand/left/input/aim/pose", "/user/hand/right/input/aim/pose",
    "/user/hand/left/input/trigger", "/user/hand/right/input/trigger",
    "/user/hand/left/input/menu/click", "/user/hand/right/input/menu/click",
    "/user/hand/left/input/a/click", "/user/hand/right/input/a/click",
    "/user/hand/left/input/b/click", "/user/hand/right/input/b/click",
    "/user/hand/left/input/thumbstick/x", "/user/hand/right/input/thumbstick/x",
    "/user/hand/left/input/thumbstick/y", "/user/hand/right/input/thumbstick/y"]

/-- Lines 657 to 733: convert the input paths and suggest the bindings of the
simple controller, the index controller and the ball-on-stick controller; the
last one is guarded by `true || monado_stick_on_ball_ext`. -/
def suggestBindings (rt : SetupReplies) (c : Construction) : Construction :=
  if c.returned then c
  else
    let selectClickPath := handPathPair rt "/user/hand/left/input/select/click"
      "/user/hand/right/input/select/click"
    let aimPosePath := handPathPair rt "/user/hand/left/input/aim/pose"
      "/user/hand/right/input/aim/pose"
    let triggerPath := handPathPair rt "/user/hand/left/input/trigger"
      "/user/hand/right/input/trigger"
    let menuPath := handPathPair rt "/user/hand/left/input/menu/click"
      "/user/hand/right/input/menu/click"
    let aPath := handPathPair rt "/user/hand/left/input/a/click"
      "/user/hand/right/input/a/click"
    let bPath := handPathPair rt "/user/hand/left/input/b/click"
      "/user/hand/right/input/b/click"
    let thumbstickXAxisPath := handPathPair rt "/user/hand/left/input/thumbstick/x"
      "/user/hand/right/input/thumbstick/x"
    let thumbstickYAxisPath := handPathPair rt "/user/hand/left/input/thumbstick/y"
      "/user/hand/right/input/thumbstick/y"
    let action := fun (index : Nat) => c.self.actions.getD index XR_NULL_HANDLE
    let c1 := c.calls (inputPathNames.map Call.xrStringToPath)
    let simple := suggestActions
      (suggestReply rt "/interaction_profiles/khr/simple_controller")
      "/interaction_profiles/khr/simple_controller"
      [action POSE_ACTION_INDEX, action TRIGGER_ACTION_INDEX]
      [aimPosePath, selectClickPath] 2
    let c2 := c1.calls simple.2
    if !simple.1 then c2.leave
    else
      let index := suggestActions
        (suggestReply rt "/interaction_profiles/valve/index_controller")
        "/interaction_profiles/valve/index_controller"
        [action POSE_ACTION_INDEX, action TRIGGER_ACTION_INDEX, action GRAB_ACTION_INDEX,
          action MENU_ACTION_INDEX, action THUMBSTICK_X_AXIS_ACTION_INDEX,
          action THUMBSTICK_Y_AXIS_ACTION_INDEX]
        [aimPosePath, triggerPath, aPath, bPath, thumbstickXAxisPath, thumbstickYAxisPath] 6
      let c3 := c2.calls index.2
      if !index.1 then c3.leave
      else if true || c3.self.monado_stick_on_ball_ext then
        let squarePath := handPathPair rt "/user/hand/left/input/square_mndx/click"
          "/user/hand/right/input/square_mndx/click"
        let c4 := c3.calls [Call.xrStringToPath "/user/hand/left/input/square_mndx/click",
          Call.xrStringToPath "/user/hand/right/input/square_mndx/click"]
        let ball := suggestActions
          (suggestReply rt "/interaction_profiles/mndx/ball_on_a_stick_controller")
          "/interaction_profiles/mndx/ball_on_a_stick_controller"
          [action POSE_ACTION_INDEX, action TRIGGER_ACTION_INDEX, action GRAB_ACTION_INDEX,
            action MENU_ACTION_INDEX]
          [aimPosePath, triggerPath, squarePath, menuPath] 4
        let c5 := c4.calls ball.2
        if !ball.1 then c5.leave else c5
      else c3

/-- Lines 735 to 776: create the pose space of each hand, attach the action
set, register the two controllers with the host and set
`successful_init`. -/
def finishSetup (rt : SetupReplies) (c : Construction) : Construction :=
  if c.returned then c
  else
    let pose := c.self.actions.getD POSE_ACTION_INDEX XR_NULL_HANDLE
    let c1 := c.call (Call.xrCreateActionSpace pose (c.self.handPaths.getD 0 XR_NULL_PATH))
    if !xr_result (rt.createActionSpace 0).1 then c1.leave
    else
      let c2 := (c1.assign
        { c1.self with
          handSpaces := [(rt.createActionSpace 0).2, c1.self.handSpaces.getD 1 XR_NULL_HANDLE] }).call
        (Call.xrCreateActionSpace pose (c1.self.handPaths.getD 1 XR_NULL_PATH))
      if !xr_result (rt.createActionSpace 1).1 then c2.leave
      else
        let c3 := (c2.assign
          { c2.self with
            handSpaces := [(rt.createActionSpace 0).2, (rt.createActionSpace 1).2] }).call
          Call.xrAttachSessionActionSets
        if !xr_result rt.attachActionSets then c3.leave
        else
          (c3.assign
            { c3.self with
              godot_controllers := [rt.addController "lefthand", rt.addController "righthand"]
              successful_init := true }).calls
            [Call.godot_arvr_add_controller "lefthand" 1,
              Call.godot_arvr_add_controller "righthand" 2]

/-- The constructor `OpenXRApi::OpenXRApi`, on the object as the member
initialisers of the class left it: the object afterwards, the calls made, and
whether it left with `return` before the end. -/
def construct (rt : SetupReplies) (init : Api) : Construction :=
  finishSetup rt (suggestBindings rt (createActions rt (prepareFrameData
    (createSwapchains rt (createSpaces rt (createSession rt (configureViews rt
      (selectSystem rt (createInstance rt (beginConstruction init))))))))))

/-- What `new OpenXRApi()` evaluates to when the allocation at address `p`
succeeds: the constructed object. -/
def newOpenXRApi (rt : SetupReplies) (init : Api) (p : Ptr) : Option (Ptr × Api) :=
  some (p, (construct rt init).self)

/-! ## Concrete setup answers -/

/-- The object before the body of the constructor runs: one reference held,
every other member zero or `NULL`. -/
def blankApi : Api :=
  { use_count := 1
    successful_init := false
    running := false
    state := XR_SESSION_STATE_UNKNOWN
    view_pose_valid := false
    view_count := 0
    frameState := ⟨0, false⟩
    views := none
    projection_views := []
    projectionLayer := ⟨0, 0, ViewsPtr.null⟩
    swapchains := []
    buffer_index := none
    images := []
    configuration_views := []
    godot_controllers := []
    play_space := 0
    handSpaces := [] }

/-- The action handles of the sample runtime, by action name. -/
def sampleActionHandle (name : String) : Nat :=
  if name = "trigger" then 31
  else if name = "grab" then 32
  else if name = "menu" then 33
  else if name = "handpose" then 34
  else if name = "thumbstick_x" then 35
  else 36

/-- A stereo runtime that supports what the plugin asks for and whose calls
all succeed. -/
def okSetup : SetupReplies :=
  { extensions := ⟨XR_SUCCESS, 2, true, XR_SUCCESS,
      ["XR_KHR_vulkan_enable", XR_KHR_OPENGL_ENABLE_EXTENSION_NAME]⟩
    enabledExtensionsMallocOk := true
    createInstance := XR_SUCCESS
    getSystem := XR_SUCCESS
    getSystemProperties := XR_SUCCESS
    viewConfigurations := ⟨XR_SUCCESS, 2, true, XR_SUCCESS, [1, 2]⟩
    configurationViews := ⟨XR_SUCCESS, 2, true, XR_SUCCESS, [⟨1024, 768, 1⟩, ⟨1024, 768, 1⟩]⟩
    getInstanceProcAddr := XR_SUCCESS
    graphicsRequirements := XR_SUCCESS
    createSession := XR_SUCCESS
    playSpaces := ⟨XR_SUCCESS, 3, true, XR_SUCCESS, [1, 2, 3]⟩
    createPlaySpace := (XR_SUCCESS, 1)
    viewSpaces := ⟨XR_SUCCESS, 3, true, XR_SUCCESS, [1, 2, 3]⟩
    createViewSpace := (XR_SUCCESS, 2)
    beginSession := XR_SUCCESS
    swapchainFormats := ⟨XR_SUCCESS, 2, true, XR_SUCCESS, [GL_SRGB8_ALPHA8, GL_RGBA8]⟩
    createSwapchain := fun i => (XR_SUCCESS, 11 + i)
    swapchainImageCount := fun _ => (XR_SUCCESS, 2)
    swapchainImages := fun i => (XR_SUCCESS, [100 * (i + 1) + 1, 100 * (i + 1) + 2])
    createActionSet := XR_SUCCESS
    stringToPath := fun s => (XR_SUCCESS, s.length)
    createAction := fun s => (XR_SUCCESS, sampleActionHandle s)
    suggestBindings := fun _ => XR_SUCCESS
    createActionSpace := fun i => (XR_SUCCESS, 21 + i)
    attachActionSets := XR_SUCCESS
    addController := fun s => if s = "lefthand" then 1 else 2 }

/-- The runtime of `okSetup` failing the count query for the reference spaces
when the play space is checked. -/
def playSpaceCountFails : SetupReplies :=
  { okSetup with playSpaces := ⟨failed, 0, true, XR_SUCCESS, []⟩ }

/-- The runtime of `okSetup` failing the list query for the reference spaces
when the play space is checked. -/
def playSpaceListFails : SetupReplies :=
  { okSetup with playSpaces := ⟨XR_SUCCESS, 3, true, failed, []⟩ }

/-- The runtime of `okSetup` rejecting every suggested binding. -/
def bindingsRejected : SetupReplies :=
  { okSetup with suggestBindings := fun _ => failed }

/-- The runtime of `okSetup` failing to create the menu action only. -/
def menuActionFails : SetupReplies :=
  { okSetup with
    createAction := fun s =>
      if s = "menu" then (failed, 0) else (XR_SUCCESS, sampleActionHandle s) }

/-- The runtime of `okSetup` failing to create the grab action only. -/
def grabActionFails : SetupReplies :=
  { okSetup with
    createAction := fun s =>
      if s = "grab" then (failed, 0) else (XR_SUCCESS, sampleActionHandle s) }

/-- Whether a format is one of the two the constructor looks for. -/
def isWantedFormat (format : Int) : Bool :=
  decide (format = GL_SRGB8_ALPHA8 ∨ format = GL_RGBA8)

/-- The quiet runtime with one pending event: the session goes from focused
back to visible. -/
def focusLostFrame : ProcessReplies :=
  { quietFrame with
    polls := pendingEvents [XrEvent.sessionStateChanged XR_SESSION_STATE_VISIBLE] }

/-- The sample object before any frame was waited for. -/
def notWaitedApi : Api := { sampleApi with frameState := ⟨0, false⟩ }

/-- The runtime of `okSetup` enumerating the ball-on-stick extension next to
the OpenGL extension. -/
def ballOnStickSetup : SetupReplies :=
  { okSetup with
    extensions := ⟨XR_SUCCESS, 2, true, XR_SUCCESS,
      [XR_MND_BALL_ON_STICK_EXTENSION_NAME, XR_KHR_OPENGL_ENABLE_EXTENSION_NAME]⟩ }

/-- The tracking runtime with the trigger pressed a quarter of the way: the
`float` state of the trigger is 0.25, active and changed, for both hands. -/
def lightTrigger : ControllerReplies :=
  { trackedControllers with
    states := fun a =>
      { (trackedControllers.states a) with
        float := fun i =>
          if a = TRIGGER_ACTION_INDEX then (XR_SUCCESS, ⟨0.25, true, true⟩)
          else (trackedControllers.states a).float i } }

/-- The sample object before the runtime reported a session state. -/
def unknownStateApi : Api := { sampleApi with state := XR_SESSION_STATE_UNKNOWN }

end OpenXRApi

namespace OpenXRApi

/-! ## Reference-counted lifecycle -/

theorem getCalls_live (l : List (Option (Ptr × Api))) (p : Ptr) (o : Api) (log : List LifeEvent) :
    getCalls l { singleton := some (p, o), log := log } =
      ({ singleton := some (p, { o with use_count := o.use_count + l.length }), log := log },
        List.replicate l.length (some p)) := by
  induction l generalizing o with
  | nil => simp [getCalls]
  | cons r rs ih =>
    simp only [getCalls, openxr_get_api, ih, List.length_cons, List.replicate_succ]
    refine Prod.ext ?_ rfl
    simp only [Nat.cast_add, Nat.cast_one]
    rw [show o.use_count + 1 + (rs.length : Int) = o.use_count + ((rs.length : Int) + 1) by ring]

/-- The last of `k + 1` releases is applied to the state after the first `k`. -/
theorem releaseCalls_succ (k : Nat) (w : World) :
    releaseCalls (k + 1) w = openxr_release_api (releaseCalls k w) := by
  induction k generalizing w with
  | zero => rfl
  | succ k ih => simp only [releaseCalls] at ih ⊢; rw [ih]

/-- While the use count exceeds the number of releases, each release only
subtracts one. -/
theorem releaseCalls_live (k : Nat) (p : Ptr) (o : Api) (log : List LifeEvent)
    (h : (k : Int) < o.use_count) :
    releaseCalls k { singleton := some (p, o), log := log } =
      { singleton := some (p, { o with use_count := o.use_count - k }), log := log } := by
  induction k with
  | zero => simp [releaseCalls]
  | succ k ih =>
    push_cast at h
    rw [releaseCalls_succ, ih (by omega)]
    have h1 : o.use_count - (k : Int) > 1 := by omega
    simp only [openxr_release_api, h1, if_true]
    rw [show o.use_count - (k : Int) - 1 = o.use_count - ((k + 1 : Nat) : Int) by push_cast; ring]

/-- The release that finds a use count of one destroys the object. -/
theorem releaseCalls_last (k : Nat) (p : Ptr) (o : Api) (log : List LifeEvent)
    (h : o.use_count = k + 1) :
    releaseCalls (k + 1) { singleton := some (p, o), log := log } =
      { singleton := none, log := log ++ [LifeEvent.destroyed p] } := by
  rw [releaseCalls_succ, releaseCalls_live k p o log (by omega)]
  simp [openxr_release_api, h]

/-- C1: starting with no live singleton and with initialisation succeeding
(the fresh object reports successful init and holds one reference), `n`
consecutive `openxr_get_api` calls (`n = rest.length + 1`, any `n ≥ 1`) all
return the same object and construct exactly one; of the `n` following
`openxr_release_api` calls the first `n - 1` destroy nothing and keep the
singleton, the last destroys that one object, and the singleton is `NULL`
afterwards. -/
theorem refcount_lifecycle (p : Ptr) (obj : Api) (rest : List (Option (Ptr × Api))) (w : World)
    (hnone : w.singleton = none) (hinit : obj.successful_init = true)
    (hcount : obj.use_count = 1) :
    (getCalls (some (p, obj) :: rest) w).2 = List.replicate (rest.length + 1) (some p) ∧
    (getCalls (some (p, obj) :: rest) w).1.log = w.log ++ [LifeEvent.constructed p] ∧
    (∀ k, k < rest.length + 1 →
      (releaseCalls k (getCalls (some (p, obj) :: rest) w).1).log
        = w.log ++ [LifeEvent.constructed p] ∧
      ((releaseCalls k (getCalls (some (p, obj) :: rest) w).1).singleton.map Prod.fst)
        = some p) ∧
    (releaseCalls (rest.length + 1) (getCalls (some (p, obj) :: rest) w).1).log
      = w.log ++ [LifeEvent.constructed p, LifeEvent.destroyed p] ∧
    (releaseCalls (rest.length + 1) (getCalls (some (p, obj) :: rest) w).1).singleton = none := by
  have hfirst : openxr_get_api (some (p, obj)) w =
      ({ singleton := some (p, obj), log := w.log ++ [LifeEvent.constructed p] }, some p) := by
    simp [openxr_get_api, hnone, is_successful_init, hinit]
  have hget : getCalls (some (p, obj) :: rest) w =
      ({ singleton := some (p, { obj with use_count := obj.use_count + rest.length }),
         log := w.log ++ [LifeEvent.constructed p] },
        List.replicate (rest.length + 1) (some p)) := by
    simp only [getCalls, hfirst, getCalls_live, List.replicate_succ]
  rw [hget]
  refine ⟨rfl, rfl, ?_, ?_, ?_⟩
  · intro k hk
    rw [releaseCalls_live k p _ _ (by simp only [hcount]; omega)]
    exact ⟨rfl, rfl⟩
  · rw [releaseCalls_last rest.length p _ _ (by simp only [hcount]; omega)]
    simp
  · rw [releaseCalls_last rest.length p _ _ (by simp only [hcount]; omega)]


/-- The lifecycle at `n = 2`: two acquisitions of the sample object at address 7,
then two releases. -/
theorem refcount_lifecycle_witness :
    (⟨none, []⟩ : World).singleton = none ∧ sampleApi.successful_init = true ∧
    sampleApi.use_count = 1 ∧
    (getCalls [some (7, sampleApi), none] ⟨none, []⟩).2 = [some 7, some 7] ∧
    (releaseCalls 1 (getCalls [some (7, sampleApi), none] ⟨none, []⟩).1).log
      = [LifeEvent.constructed 7] ∧
    (releaseCalls 2 (getCalls [some (7, sampleApi), none] ⟨none, []⟩).1).log
      = [LifeEvent.constructed 7, LifeEvent.destroyed 7] :=
  ⟨rfl, rfl, rfl,
    (refcount_lifecycle 7 sampleApi [none] ⟨none, []⟩ rfl rfl rfl).1,
    ((refcount_lifecycle 7 sampleApi [none] ⟨none, []⟩ rfl rfl rfl).2.2.1 1 (by decide)).1,
    (refcount_lifecycle 7 sampleApi [none] ⟨none, []⟩ rfl rfl rfl).2.2.2.1⟩

/-! ## The `running` flag at the entry points -/

/-- With `running` false (or a state of `STOPPING` or beyond) `render_openxr`
returns at its first test: it makes no call and changes nothing. -/
theorem render_openxr_stopped (rt : RenderReply) (eye texid : Nat) (ext : Bool) (self : Api)
    (h : self.running = false ∨ self.state ≥ XR_SESSION_STATE_STOPPING) :
    render_openxr rt eye texid ext self = (self, []) := by
  unfold render_openxr
  rcases h with h | h
  · simp [h]
  · simp [h]

/-- C2: evaluation at the failing input. With `running` false,
`process_openxr` still polls, waits for a frame, synchronises input, locates
the views and begins a frame, and `get_external_texture_for_eye` still
acquires and waits for a swapchain image; only `render_openxr` returns
without a call. -/
theorem stopped_entry_points_call_runtime :
    stoppedApi.running = false ∧
    (process_openxr quietFrame stoppedApi).trace =
      [Call.xrPollEvent, Call.xrWaitFrame, Call.xrSyncActions,
        Call.xrGetActionStateFloat 0 0, Call.xrGetActionStateFloat 0 1,
        Call.xrGetActionStateBoolean 1 0, Call.xrGetActionStateBoolean 1 1,
        Call.xrGetActionStateBoolean 2 0, Call.xrGetActionStateBoolean 2 1,
        Call.xrGetActionStatePose 3 0, Call.xrGetActionStatePose 3 1,
        Call.xrGetActionStateFloat 4 0, Call.xrGetActionStateFloat 4 1,
        Call.xrGetActionStateFloat 5 0, Call.xrGetActionStateFloat 5 1,
        Call.xrLocateViews 2000 1, Call.xrBeginFrame] ∧
    (get_external_texture_for_eye okAcquire 0 false stoppedApi).trace =
      [Call.xrAcquireSwapchainImage 11, Call.xrWaitSwapchainImage 11] ∧
    (render_openxr okRender 0 0 true stoppedApi).2 = [] := by
  refine ⟨rfl, ?_, ?_, ?_⟩
  · decide
  · decide
  · decide


/-! ## Fatal events in the event loop -/

theorem handleEvent_returns (e : XrEvent) (a : Api) :
    (handleEvent e a).2.2 = isFatalEvent e := by
  cases e <;> simp [handleEvent, isFatalEvent]
  split <;> simp_all

/-- The profile queries are event-handling calls and never a poll. -/
theorem queryProfile_eventCalls (hand : Nat) (r : ProfileReply) :
    ∀ c ∈ queryProfile hand r, isEventCall c = true ∧ c ≠ Call.xrPollEvent := by
  intro c hc
  unfold queryProfile at hc
  split at hc
  · simp at hc; subst hc; simp [isEventCall]
  · split at hc
    · simp at hc; subst hc; simp [isEventCall]
    · simp at hc; rcases hc with hc | hc <;> subst hc <;> simp [isEventCall]

/-- Handling an event makes event-handling calls only, and no poll. -/
theorem handleEvent_eventCalls (e : XrEvent) (a : Api) :
    ∀ c ∈ (handleEvent e a).2.1, isEventCall c = true ∧ c ≠ Call.xrPollEvent := by
  intro c hc
  cases e with
  | interactionProfileChanged l r =>
    simp only [handleEvent, List.mem_append, List.mem_cons, List.mem_singleton,
      List.not_mem_nil, or_false] at hc
    rcases hc with ((hc | hc) | hc) | hc
    · subst hc; simp [isEventCall]
    · subst hc; simp [isEventCall]
    · exact queryProfile_eventCalls 0 l c hc
    · exact queryProfile_eventCalls 1 r c hc
  | sessionStateChanged st =>
    simp only [handleEvent] at hc
    split at hc <;> simp at hc
  | _ => simp [handleEvent] at hc

/-- A trace of handler calls contains no poll. -/
theorem count_poll_eq_zero (tr : List Call)
    (h : ∀ c ∈ tr, isEventCall c = true ∧ c ≠ Call.xrPollEvent) :
    tr.count Call.xrPollEvent = 0 := by
  rw [List.count_eq_zero]
  intro hmem
  exact (h _ hmem).2 rfl

/-- A non-fatal event at the head of the queue: handled, then the loop goes on. -/
theorem drainEvents_cons_nonfatal (e : XrEvent) (l : List PollReply) (self : Api)
    (he : isFatalEvent e = false) :
    drainEvents ({ result := XR_SUCCESS, event := e } :: l) self =
      { drainEvents l (handleEvent e self).1 with
        trace := Call.xrPollEvent ::
          ((handleEvent e self).2.1 ++ (drainEvents l (handleEvent e self).1).trace) } := by
  have hflag : (handleEvent e self).2.2 = false := by rw [handleEvent_returns, he]
  simp [drainEvents, hflag]

/-- A fatal event at the head of the queue: handled, then the function returns. -/
theorem drainEvents_cons_fatal (e : XrEvent) (l : List PollReply) (self : Api)
    (he : isFatalEvent e = true) :
    drainEvents ({ result := XR_SUCCESS, event := e } :: l) self =
      { api := (handleEvent e self).1, trace := Call.xrPollEvent :: (handleEvent e self).2.1,
        pending := l, exit := LoopExit.returned } := by
  have hflag : (handleEvent e self).2.2 = true := by rw [handleEvent_returns, he]
  simp [drainEvents, hflag]

/-- Handling a run of non-fatal events: the loop then continues with what
follows them, on the object the run produced, and the run costs one poll per
event plus event-handling queries only. -/
theorem drainEvents_append (pre : List XrEvent) (rest : List PollReply) (self : Api)
    (hpre : ∀ e ∈ pre, isFatalEvent e = false) :
    ∃ tr, (∀ c ∈ tr, isEventCall c = true) ∧ tr.count Call.xrPollEvent = pre.length ∧
      drainEvents (pendingEvents pre ++ rest) self =
        { drainEvents rest (drainEvents (pendingEvents pre) self).api with
          trace := tr ++ (drainEvents rest (drainEvents (pendingEvents pre) self).api).trace } := by
  induction pre generalizing self with
  | nil =>
    refine ⟨[], by simp, by simp, ?_⟩
    simp [pendingEvents, drainEvents]
  | cons e es ih =>
    have he : isFatalEvent e = false := hpre e (List.mem_cons_self _ _)
    have hes : ∀ x ∈ es, isFatalEvent x = false := fun x hx => hpre x (List.mem_cons_of_mem _ hx)
    obtain ⟨tr, htr, hcount, heq⟩ := ih (handleEvent e self).1 hes
    refine ⟨Call.xrPollEvent :: ((handleEvent e self).2.1 ++ tr), ?_, ?_, ?_⟩
    · intro c hc
      simp only [List.mem_cons, List.mem_append] at hc
      rcases hc with hc | hc | hc
      · subst hc; rfl
      · exact (handleEvent_eventCalls e self c hc).1
      · exact htr c hc
    · rw [List.count_cons_self, List.count_append, hcount,
        count_poll_eq_zero _ (handleEvent_eventCalls e self)]
      simp
    · have h1 : pendingEvents (e :: es) ++ rest =
          { result := XR_SUCCESS, event := e } :: (pendingEvents es ++ rest) := rfl
      have h2 : pendingEvents (e :: es) =
          { result := XR_SUCCESS, event := e } :: pendingEvents es := rfl
      rw [h1, h2, drainEvents_cons_nonfatal e _ self he, drainEvents_cons_nonfatal e _ self he,
        heq]
      simp [List.append_assoc]

/-- No case of the `switch` writes `view_pose_valid`. -/
theorem handleEvent_view_pose_valid (e : XrEvent) (a : Api) :
    (handleEvent e a).1.view_pose_valid = a.view_pose_valid := by
  cases e <;> simp [handleEvent]
  split <;> rfl

/-- No event changes `view_pose_valid`. -/
theorem drainEvents_view_pose_valid (l : List PollReply) (self : Api) :
    (drainEvents l self).api.view_pose_valid = self.view_pose_valid := by
  induction l generalizing self with
  | nil => rfl
  | cons r rest ih =>
    simp only [drainEvents]
    split
    · split
      · exact handleEvent_view_pose_valid _ _
      · simp only [ih, handleEvent_view_pose_valid]
    · rfl


/-- The call in which a fatal event is dequeued after a run of non-fatal
ones: `process_openxr` returns from the case of that event. -/
theorem process_openxr_fatal (rt : ProcessReplies) (self : Api) (pre post : List XrEvent)
    (e : XrEvent) (hq : rt.polls = pendingEvents (pre ++ e :: post))
    (hpre : ∀ x ∈ pre, isFatalEvent x = false) (he : isFatalEvent e = true) :
    ∃ tr, (∀ c ∈ tr, isEventCall c = true) ∧ tr.count Call.xrPollEvent = pre.length ∧
      process_openxr rt self =
        { api := (handleEvent e (drainEvents (pendingEvents pre) self).api).1
          trace := tr ++ Call.xrPollEvent ::
            (handleEvent e (drainEvents (pendingEvents pre) self).api).2.1
          pending := pendingEvents post } := by
  obtain ⟨tr, htr, hcount, heq⟩ :=
    drainEvents_append pre ({ result := XR_SUCCESS, event := e } :: pendingEvents post) self hpre
  refine ⟨tr, htr, hcount, ?_⟩
  have hsplit : pendingEvents (pre ++ e :: post) =
      pendingEvents pre ++ { result := XR_SUCCESS, event := e } :: pendingEvents post := by
    simp [pendingEvents]
  unfold process_openxr
  rw [hq, hsplit, heq, drainEvents_cons_fatal e _ _ he]

/-- C3: in `process_openxr`, for every queue of pending events, when a
session-state-changed event with a state of `STOPPING` or beyond is dequeued
(the events before it in the queue being non-fatal), `state` is set to that
value and `running` to false on the object as the earlier events left it,
the events behind it stay in the queue (one poll per dequeued event, none
more), and the call makes event-handling calls only: no wait-frame, no input
sync, no view locate and no begin-frame. -/
theorem stopping_event_aborts (rt : ProcessReplies) (self : Api) (pre post : List XrEvent)
    (st : XrSessionState)
    (hq : rt.polls = pendingEvents (pre ++ XrEvent.sessionStateChanged st :: post))
    (hpre : ∀ x ∈ pre, isFatalEvent x = false) (hst : st ≥ XR_SESSION_STATE_STOPPING) :
    (process_openxr rt self).api =
      { (drainEvents (pendingEvents pre) self).api with state := st, running := false } ∧
    (process_openxr rt self).api.state = st ∧
    (process_openxr rt self).api.running = false ∧
    (process_openxr rt self).pending = pendingEvents post ∧
    (process_openxr rt self).trace.count Call.xrPollEvent = pre.length + 1 ∧
    (∀ c ∈ (process_openxr rt self).trace, isEventCall c = true) ∧
    Call.xrWaitFrame ∉ (process_openxr rt self).trace ∧
    Call.xrSyncActions ∉ (process_openxr rt self).trace ∧
    (∀ t sp, Call.xrLocateViews t sp ∉ (process_openxr rt self).trace) ∧
    Call.xrBeginFrame ∉ (process_openxr rt self).trace := by
  have he : isFatalEvent (XrEvent.sessionStateChanged st) = true := by
    simp [isFatalEvent, hst]
  obtain ⟨tr, htr, hcount, heq⟩ := process_openxr_fatal rt self pre post _ hq hpre he
  have hh : ∀ a : Api, handleEvent (XrEvent.sessionStateChanged st) a =
      ({ a with state := st, running := false }, [], true) := by
    intro a
    simp [handleEvent, hst]
  rw [heq, hh]
  have hall : ∀ c ∈ tr ++ [Call.xrPollEvent], isEventCall c = true := by
    intro c hc
    simp only [List.mem_append, List.mem_singleton] at hc
    rcases hc with hc | hc
    · exact htr c hc
    · subst hc; rfl
  refine ⟨rfl, rfl, rfl, rfl, ?_, hall, ?_, ?_, ?_, ?_⟩
  · simp [List.count_append, hcount]
  · intro hmem; simpa [isEventCall] using hall _ hmem
  · intro hmem; simpa [isEventCall] using hall _ hmem
  · intro t sp hmem; simpa [isEventCall] using hall _ hmem
  · intro hmem; simpa [isEventCall] using hall _ hmem

/-- The stopping queue on the sample object: the change to `STOPPING` is the
second event, the one behind it stays pending. -/
theorem stopping_event_aborts_witness :
    (process_openxr stoppingFrame sampleApi).api.state = XR_SESSION_STATE_STOPPING ∧
    (process_openxr stoppingFrame sampleApi).api.running = false ∧
    (process_openxr stoppingFrame sampleApi).pending =
      pendingEvents [XrEvent.sessionStateChanged XR_SESSION_STATE_IDLE] ∧
    (process_openxr stoppingFrame sampleApi).trace.count Call.xrPollEvent = 2 :=
  have h := stopping_event_aborts stoppingFrame sampleApi [XrEvent.eventsLost 1]
    [XrEvent.sessionStateChanged XR_SESSION_STATE_IDLE] XR_SESSION_STATE_STOPPING rfl
    (by decide) (by decide)
  ⟨h.2.1, h.2.2.1, h.2.2.2.1, h.2.2.2.2.1⟩

/-- C4: in `process_openxr`, when an instance-loss-pending event is dequeued
(the events before it in the queue being non-fatal), the call returns at
once: the object is the one the earlier events left with only `running` set
to false, so `state` and `view_pose_valid` are unchanged by the event; the
events behind it stay in the queue, and the call makes event-handling calls
only: no wait-frame, no input sync, no view locate and no begin-frame. -/
theorem instance_loss_aborts (rt : ProcessReplies) (self : Api) (pre post : List XrEvent)
    (lossTime : XrTime)
    (hq : rt.polls = pendingEvents (pre ++ XrEvent.instanceLossPending lossTime :: post))
    (hpre : ∀ x ∈ pre, isFatalEvent x = false) :
    (process_openxr rt self).api =
      { (drainEvents (pendingEvents pre) self).api with running := false } ∧
    (process_openxr rt self).api.running = false ∧
    (process_openxr rt self).api.state = (drainEvents (pendingEvents pre) self).api.state ∧
    (process_openxr rt self).api.view_pose_valid = self.view_pose_valid ∧
    (process_openxr rt self).pending = pendingEvents post ∧
    (process_openxr rt self).trace.count Call.xrPollEvent = pre.length + 1 ∧
    (∀ c ∈ (process_openxr rt self).trace, isEventCall c = true) ∧
    Call.xrWaitFrame ∉ (process_openxr rt self).trace ∧
    Call.xrSyncActions ∉ (process_openxr rt self).trace ∧
    (∀ t sp, Call.xrLocateViews t sp ∉ (process_openxr rt self).trace) ∧
    Call.xrBeginFrame ∉ (process_openxr rt self).trace := by
  have he : isFatalEvent (XrEvent.instanceLossPending lossTime) = true := rfl
  obtain ⟨tr, htr, hcount, heq⟩ := process_openxr_fatal rt self pre post _ hq hpre he
  have hh : ∀ a : Api, handleEvent (XrEvent.instanceLossPending lossTime) a =
      ({ a with running := false }, [], true) := fun _ => rfl
  rw [heq, hh]
  have hall : ∀ c ∈ tr ++ [Call.xrPollEvent], isEventCall c = true := by
    intro c hc
    simp only [List.mem_append, List.mem_singleton] at hc
    rcases hc with hc | hc
    · exact htr c hc
    · subst hc; rfl
  refine ⟨rfl, rfl, rfl, ?_, rfl, ?_, hall, ?_, ?_, ?_, ?_⟩
  · exact drainEvents_view_pose_valid _ self
  · simp [List.count_append, hcount]
  · intro hmem; simpa [isEventCall] using hall _ hmem
  · intro hmem; simpa [isEventCall] using hall _ hmem
  · intro t sp hmem; simpa [isEventCall] using hall _ hmem
  · intro hmem; simpa [isEventCall] using hall _ hmem

/-- The loss queue on the sample object: the state set by the first event is
kept, the event behind the loss stays pending. -/
theorem instance_loss_aborts_witness :
    (process_openxr lossFrame sampleApi).api.running = false ∧
    (process_openxr lossFrame sampleApi).api.state = XR_SESSION_STATE_VISIBLE ∧
    (process_openxr lossFrame sampleApi).pending =
      pendingEvents [XrEvent.sessionStateChanged XR_SESSION_STATE_FOCUSED] ∧
    (process_openxr lossFrame sampleApi).trace.count Call.xrPollEvent = 2 :=
  have h := instance_loss_aborts lossFrame sampleApi
    [XrEvent.sessionStateChanged XR_SESSION_STATE_VISIBLE]
    [XrEvent.sessionStateChanged XR_SESSION_STATE_FOCUSED] 5000 rfl (by decide)
  ⟨h.2.1, h.2.2.1, h.2.2.2.2.1, h.2.2.2.2.2.1⟩


/-! ## The render-skip path of `render_openxr` -/

/-- C5, as stated, fails: a running session below `STOPPING` with
`shouldRender = false`, eye 1, external texture support and a failing
`xrReleaseSwapchainImage` issues no `xrEndFrame` at all. -/
theorem skip_path_release_failure :
    skipFrameApi.running = true ∧ skipFrameApi.state < XR_SESSION_STATE_STOPPING ∧
    skipFrameApi.frameState.shouldRender = false ∧
    (render_openxr ⟨okAcquire, failed, XR_SUCCESS⟩ 1 0 true skipFrameApi).2 =
      [Call.xrReleaseSwapchainImage 12] ∧
    countEndFrame (render_openxr ⟨okAcquire, failed, XR_SUCCESS⟩ 1 0 true skipFrameApi).2 = 0 := by
  decide

/-- C5, amended: for every call `render_openxr(eye, texid, ext)` made while
running and below `STOPPING` with `shouldRender = false`, no image is
acquired, nothing is copied and the object is unchanged. If `ext` is false or
the release of the eye's swapchain succeeds, then for `eye = 1` exactly one
`xrEndFrame` is issued, the last call, with the frame's display time and no
layers, and for `eye ≠ 1` none is issued. If `ext` is true and that release
fails, the call returns after it without `xrEndFrame`. -/
theorem skip_path_end_frame (rt : RenderReply) (eye texid : Nat) (ext : Bool) (self : Api)
    (hrun : self.running = true) (hstate : self.state < XR_SESSION_STATE_STOPPING)
    (hskip : self.frameState.shouldRender = false) :
    (render_openxr rt eye texid ext self).1 = self ∧
    (∀ c ∈ (render_openxr rt eye texid ext self).2, isAcquire c = false ∧ isCopy c = false) ∧
    ((ext = false ∨ xr_result rt.release = true) → eye = 1 →
      (render_openxr rt eye texid ext self).2 =
        (if ext then [Call.xrReleaseSwapchainImage (self.swapchains.getD eye XR_NULL_HANDLE)]
          else []) ++ [Call.xrEndFrame self.frameState.predictedDisplayTime []] ∧
      countEndFrame (render_openxr rt eye texid ext self).2 = 1) ∧
    ((ext = false ∨ xr_result rt.release = true) → eye ≠ 1 →
      countEndFrame (render_openxr rt eye texid ext self).2 = 0) ∧
    (ext = true → xr_result rt.release = false →
      (render_openxr rt eye texid ext self).2 =
        [Call.xrReleaseSwapchainImage (self.swapchains.getD eye XR_NULL_HANDLE)]) := by
  have hst : ¬ (self.state ≥ XR_SESSION_STATE_STOPPING) := not_le.mpr hstate
  unfold render_openxr
  simp only [hrun, hst, hskip, Bool.not_true, Bool.not_false, decide_False, Bool.or_false,
    Bool.false_eq_true, if_false, Bool.true_or, if_true]
  cases ext <;> cases hrel : xr_result rt.release <;> by_cases heye : eye = 1 <;>
    simp [heye, countEndFrame, isAcquire, isCopy]

/-- The skip path for eye 1 with external texture support and a succeeding
release: one `xrEndFrame`. -/
theorem skip_path_end_frame_witness :
    skipFrameApi.running = true ∧ skipFrameApi.state < XR_SESSION_STATE_STOPPING ∧
    skipFrameApi.frameState.shouldRender = false ∧
    countEndFrame (render_openxr okRender 1 0 true skipFrameApi).2 = 1 :=
  ⟨rfl, by decide, rfl,
    ((skip_path_end_frame okRender 1 0 true skipFrameApi rfl (by decide) rfl).2.2.1
      (Or.inr rfl) rfl).2⟩


/-! ## The render path of `render_openxr` -/

/-- C6, as stated, fails in two ways. In a running, renderable frame with
valid view poses, when the runtime refuses the image acquire for eye 1,
rendering eye 1 issues one acquire that no release follows, and no
`xrEndFrame`. And in such a frame with `state = UNKNOWN` (below `STOPPING`),
rendering eye 0 through `get_external_texture_for_eye` acquires the image
twice before the one release: the function acquires but does not set
`has_support`, so `render_openxr` acquires again. -/
theorem render_path_bracket_broken :
    sampleApi.running = true ∧ sampleApi.state < XR_SESSION_STATE_STOPPING ∧
    sampleApi.frameState.shouldRender = true ∧ sampleApi.view_pose_valid = true ∧
    (renderEye false ⟨⟨failed, 0, XR_SUCCESS⟩, XR_SUCCESS, XR_SUCCESS⟩ 1 0
      (renderEye false okRender 0 0 sampleApi).1).2 = [Call.xrAcquireSwapchainImage 12] ∧
    unknownStateApi.running = true ∧ unknownStateApi.state < XR_SESSION_STATE_STOPPING ∧
    unknownStateApi.frameState.shouldRender = true ∧ unknownStateApi.view_pose_valid = true ∧
    (get_external_texture_for_eye okAcquire 0 false unknownStateApi).has_support = false ∧
    (renderEye true okRender 0 0 unknownStateApi).2.filter isRuntimeCall =
      [Call.xrAcquireSwapchainImage 11, Call.xrWaitSwapchainImage 11,
        Call.xrAcquireSwapchainImage 11, Call.xrWaitSwapchainImage 11,
        Call.xrReleaseSwapchainImage 11] ∧
    countAcquire 11 (renderEye true okRender 0 0 unknownStateApi).2 = 2 ∧
    countRelease 11 (renderEye true okRender 0 0 unknownStateApi).2 = 1 := by
  decide


/-- The code `XR_SUCCESS` succeeds. -/
theorem xr_result_success : xr_result XR_SUCCESS = true := by decide

/-- The function `acquire_image` when both runtime calls succeed. -/
theorem acquire_image_ok (rt : AcquireReply) (eye : Nat) (self : Api)
    (ha : xr_result rt.acquire = true) (hw : xr_result rt.wait = true) :
    acquire_image rt eye self =
      (XR_SUCCESS,
        { self with buffer_index := self.buffer_index.map (fun b => b.set eye rt.index) },
        [Call.xrAcquireSwapchainImage (self.swapchains.getD eye XR_NULL_HANDLE),
          Call.xrWaitSwapchainImage (self.swapchains.getD eye XR_NULL_HANDLE)]) := by
  have ha2 : XR_SUCCEEDED rt.acquire = true := ha
  simp [acquire_image, ha, hw, ha2]

/-- The object after one eye of a renderable frame was rendered, given the
contents `bi` of `buffer_index` afterwards. -/
theorem render_openxr_ok (ext : Bool) (rt : RenderReply) (eye texid : Nat) (self : Api)
    (hrun : self.running = true) (hstate : self.state < XR_SESSION_STATE_STOPPING)
    (hrender : self.frameState.shouldRender = true) (hvalid : self.view_pose_valid = true)
    (ha : xr_result rt.acquire.acquire = true) (hw : xr_result rt.acquire.wait = true)
    (hr : xr_result rt.release = true) :
    (render_openxr rt eye texid ext self).1 =
      { self with
        buffer_index := if ext then self.buffer_index
          else self.buffer_index.map (fun b => b.set eye rt.acquire.index)
        projection_views := self.projection_views.set eye
          { self.projection_views.getD eye defaultProjectionView with
            fov := ((self.views.getD []).getD eye defaultView).fov
            pose := ((self.views.getD []).getD eye defaultView).pose }
        projectionLayer := if eye = 1 then
            { self.projectionLayer with views := ViewsPtr.projection_views }
          else self.projectionLayer } ∧
    (render_openxr rt eye texid ext self).2.filter isRuntimeCall =
      (if ext then [] else
        [Call.xrAcquireSwapchainImage (self.swapchains.getD eye XR_NULL_HANDLE),
          Call.xrWaitSwapchainImage (self.swapchains.getD eye XR_NULL_HANDLE)]) ++
      [Call.xrReleaseSwapchainImage (self.swapchains.getD eye XR_NULL_HANDLE)] ++
      (if eye = 1 then
        [Call.xrEndFrame self.frameState.predictedDisplayTime
          [{ space := self.projectionLayer.space
             viewCount := self.projectionLayer.viewCount
             views := self.projection_views.set eye
              { self.projection_views.getD eye defaultProjectionView with
                fov := ((self.views.getD []).getD eye defaultView).fov
                pose := ((self.views.getD []).getD eye defaultView).pose } }]]
      else []) := by
  have hc1 : (!self.running || decide (self.state ≥ XR_SESSION_STATE_STOPPING)) = false := by
    simp [hrun, not_le.mpr hstate]
  have hc2 : (!self.frameState.shouldRender || !self.view_pose_valid) = false := by
    simp [hrender, hvalid]
  unfold render_openxr
  simp only [hc1, hc2, Bool.false_eq_true, if_false]
  cases ext
  · by_cases heye : eye = 1
    · subst heye
      simp [acquire_image_ok _ _ _ ha hw, hr, xr_result_success, isRuntimeCall,
        submittedProjectionLayer]
    · simp [acquire_image_ok _ _ _ ha hw, hr, xr_result_success, isRuntimeCall, heye]
  · by_cases heye : eye = 1
    · subst heye
      simp [hr, xr_result_success, isRuntimeCall, submittedProjectionLayer]
    · simp [hr, xr_result_success, isRuntimeCall, heye]

/-- The function `get_external_texture_for_eye` when acquire and wait succeed. -/
theorem get_external_texture_ok (rt : AcquireReply) (eye : Nat) (hs : Bool) (self : Api)
    (ha : xr_result rt.acquire = true) (hw : xr_result rt.wait = true) :
    (get_external_texture_for_eye rt eye hs self).api =
      { self with buffer_index := self.buffer_index.map (fun b => b.set eye rt.index) } ∧
    (get_external_texture_for_eye rt eye hs self).trace =
      [Call.xrAcquireSwapchainImage (self.swapchains.getD eye XR_NULL_HANDLE),
        Call.xrWaitSwapchainImage (self.swapchains.getD eye XR_NULL_HANDLE)] := by
  unfold get_external_texture_for_eye
  simp only [acquire_image_ok _ _ _ ha hw, xr_result_success, Bool.not_true, Bool.false_eq_true,
    if_false]
  split <;> exact ⟨rfl, rfl⟩

/-- The function `acquire_image` when the acquire or the wait fails: it
returns the failing code after that call. -/
theorem acquire_image_fails (rt : AcquireReply) (eye : Nat) (self : Api) :
    (xr_result rt.acquire = false →
      acquire_image rt eye self =
        (rt.acquire, self, [Call.xrAcquireSwapchainImage (self.swapchains.getD eye XR_NULL_HANDLE)])) ∧
    (xr_result rt.acquire = true → xr_result rt.wait = false →
      acquire_image rt eye self =
        (rt.wait,
          { self with buffer_index := self.buffer_index.map (fun b => b.set eye rt.index) },
          [Call.xrAcquireSwapchainImage (self.swapchains.getD eye XR_NULL_HANDLE),
            Call.xrWaitSwapchainImage (self.swapchains.getD eye XR_NULL_HANDLE)])) := by
  constructor
  · intro ha
    have ha2 : XR_SUCCEEDED rt.acquire = false := ha
    simp [acquire_image, ha, ha2]
  · intro ha hw
    have ha2 : XR_SUCCEEDED rt.acquire = true := ha
    simp [acquire_image, ha, hw, ha2]

/-- What `get_external_texture_for_eye` leaves in `*has_support`: true when
acquire and wait succeed on an object with a state above `UNKNOWN` and an
allocated `buffer_index`; the value it had when a call fails or the state is
`UNKNOWN` or below. -/
theorem get_external_texture_flag (rt : AcquireReply) (eye : Nat) (hs : Bool) (self : Api) :
    (xr_result rt.acquire = true → xr_result rt.wait = true →
      XR_SESSION_STATE_UNKNOWN < self.state → self.buffer_index.isSome = true →
      (get_external_texture_for_eye rt eye hs self).has_support = true) ∧
    (xr_result rt.acquire = false ∨ xr_result rt.wait = false ∨
        self.state ≤ XR_SESSION_STATE_UNKNOWN →
      (get_external_texture_for_eye rt eye hs self).has_support = hs ∧
      (get_external_texture_for_eye rt eye hs self).ret = 0) := by
  constructor
  · intro ha hw hst hbi
    unfold get_external_texture_for_eye
    simp only [acquire_image_ok _ _ _ ha hw, xr_result_success, Bool.not_true,
      Bool.false_eq_true, if_false]
    have h1 : decide (self.state > XR_SESSION_STATE_UNKNOWN) = true := by simpa using hst
    have h2 : (self.buffer_index.map (fun b => b.set eye rt.index)).isSome = true := by
      simpa using hbi
    simp only [h1, h2, Bool.and_self, if_true]
  · intro h
    unfold get_external_texture_for_eye
    cases ha : xr_result rt.acquire with
    | false =>
      simp only [(acquire_image_fails rt eye self).1 ha, ha, Bool.not_false, if_true]
      exact ⟨trivial, trivial⟩
    | true =>
      cases hw : xr_result rt.wait with
      | false =>
        simp only [(acquire_image_fails rt eye self).2 ha hw, hw, Bool.not_false, if_true]
        exact ⟨trivial, trivial⟩
      | true =>
        have hst : self.state ≤ XR_SESSION_STATE_UNKNOWN := by
          rcases h with h | h | h
          · rw [ha] at h; exact absurd h (by simp)
          · rw [hw] at h; exact absurd h (by simp)
          · exact h
        have h1 : decide (self.state > XR_SESSION_STATE_UNKNOWN) = false := by
          simpa using hst
        simp only [acquire_image_ok _ _ _ ha hw, xr_result_success, Bool.not_true,
          Bool.false_eq_true, if_false, h1, Bool.false_and]
        exact ⟨trivial, trivial⟩

/-- The function `render_openxr` in a renderable frame when a call fails: it
returns after the failing call. -/
theorem render_openxr_fails (rt : RenderReply) (eye texid : Nat) (self : Api)
    (hrun : self.running = true) (hstate : self.state < XR_SESSION_STATE_STOPPING)
    (hrender : self.frameState.shouldRender = true) (hvalid : self.view_pose_valid = true) :
    (xr_result rt.acquire.acquire = false →
      render_openxr rt eye texid false self =
        (self, [Call.xrAcquireSwapchainImage (self.swapchains.getD eye XR_NULL_HANDLE)])) ∧
    (xr_result rt.acquire.acquire = true → xr_result rt.acquire.wait = false →
      (render_openxr rt eye texid false self).2 =
        [Call.xrAcquireSwapchainImage (self.swapchains.getD eye XR_NULL_HANDLE),
          Call.xrWaitSwapchainImage (self.swapchains.getD eye XR_NULL_HANDLE)]) ∧
    (xr_result rt.release = false →
      render_openxr rt eye texid true self =
        (self, [Call.xrReleaseSwapchainImage (self.swapchains.getD eye XR_NULL_HANDLE)])) ∧
    (xr_result rt.acquire.acquire = true → xr_result rt.acquire.wait = true →
      xr_result rt.release = false →
      (render_openxr rt eye texid false self).2.filter isRuntimeCall =
        [Call.xrAcquireSwapchainImage (self.swapchains.getD eye XR_NULL_HANDLE),
          Call.xrWaitSwapchainImage (self.swapchains.getD eye XR_NULL_HANDLE),
          Call.xrReleaseSwapchainImage (self.swapchains.getD eye XR_NULL_HANDLE)]) := by
  have hc1 : (!self.running || decide (self.state ≥ XR_SESSION_STATE_STOPPING)) = false := by
    simp [hrun, not_le.mpr hstate]
  have hc2 : (!self.frameState.shouldRender || !self.view_pose_valid) = false := by
    simp [hrender, hvalid]
  refine ⟨?_, ?_, ?_, ?_⟩
  · intro ha
    unfold render_openxr
    simp only [hc1, hc2, Bool.false_eq_true, if_false]
    simp [(acquire_image_fails rt.acquire eye self).1 ha, ha]
  · intro ha hw
    unfold render_openxr
    simp only [hc1, hc2, Bool.false_eq_true, if_false]
    simp [(acquire_image_fails rt.acquire eye self).2 ha hw, hw]
  · intro hr
    unfold render_openxr
    simp only [hc1, hc2, Bool.false_eq_true, if_false]
    simp [hr]
  · intro ha hw hr
    unfold render_openxr
    simp only [hc1, hc2, Bool.false_eq_true, if_false]
    simp [acquire_image_ok _ _ _ ha hw, hr, xr_result_success, isRuntimeCall]

/-- Rendering one eye of a renderable frame when the runtime calls succeed
and, on the way through `get_external_texture_for_eye`, the state is above
`UNKNOWN`: the runtime sees acquire, wait, release on the swapchain of the
eye, then for eye 1 the `xrEndFrame` with the projection layer; the
projection view of the eye takes pose and fov of the located view. -/
theorem renderEye_ok (ext : Bool) (rt : RenderReply) (eye texid : Nat) (self : Api)
    (hrun : self.running = true) (hstate : self.state < XR_SESSION_STATE_STOPPING)
    (hrender : self.frameState.shouldRender = true) (hvalid : self.view_pose_valid = true)
    (hknown : ext = true → XR_SESSION_STATE_UNKNOWN < self.state)
    (hbi : self.buffer_index.isSome = true)
    (ha : xr_result rt.acquire.acquire = true) (hw : xr_result rt.acquire.wait = true)
    (hr : xr_result rt.release = true) :
    (renderEye ext rt eye texid self).1 =
      { self with
        buffer_index := self.buffer_index.map (fun b => b.set eye rt.acquire.index)
        projection_views := self.projection_views.set eye
          { self.projection_views.getD eye defaultProjectionView with
            fov := ((self.views.getD []).getD eye defaultView).fov
            pose := ((self.views.getD []).getD eye defaultView).pose }
        projectionLayer := if eye = 1 then
            { self.projectionLayer with views := ViewsPtr.projection_views }
          else self.projectionLayer } ∧
    (renderEye ext rt eye texid self).2.filter isRuntimeCall =
      [Call.xrAcquireSwapchainImage (self.swapchains.getD eye XR_NULL_HANDLE),
        Call.xrWaitSwapchainImage (self.swapchains.getD eye XR_NULL_HANDLE),
        Call.xrReleaseSwapchainImage (self.swapchains.getD eye XR_NULL_HANDLE)] ++
      (if eye = 1 then
        [Call.xrEndFrame self.frameState.predictedDisplayTime
          [{ space := self.projectionLayer.space
             viewCount := self.projectionLayer.viewCount
             views := self.projection_views.set eye
              { self.projection_views.getD eye defaultProjectionView with
                fov := ((self.views.getD []).getD eye defaultView).fov
                pose := ((self.views.getD []).getD eye defaultView).pose } }]]
      else []) := by
  cases ext
  · have h := render_openxr_ok false rt eye texid self hrun hstate hrender hvalid ha hw hr
    simpa [renderEye] using h
  · obtain ⟨h1, h2⟩ := get_external_texture_ok rt.acquire eye false self ha hw
    have h3 := (get_external_texture_flag rt.acquire eye false self).1 ha hw (hknown rfl) hbi
    have h := render_openxr_ok true rt eye texid
      { self with buffer_index := self.buffer_index.map (fun b => b.set eye rt.acquire.index) }
      hrun hstate hrender hvalid ha hw hr
    simp only [renderEye, if_true, h1, h2, h3, List.filter_append, h.1, h.2]
    simp [isRuntimeCall]


/-- C6, amended: for every frame with running, a state below `STOPPING`,
`shouldRender = true` and `view_pose_valid = true`, on a stereo object
(`views`, `projection_views` and `buffer_index` hold two entries), in which
the acquire, wait and release calls of the runtime succeed: rendering eye 0
then eye 1, each either by `render_openxr(eye, texid, false)` or, with a state
above `UNKNOWN`, by `get_external_texture_for_eye(eye, &has_support)`
followed by `render_openxr(eye, texid, has_support)`, shows the runtime for
each eye exactly one acquire (and wait) followed by exactly one release of
that eye's swapchain, no `xrEndFrame` after eye 0, and exactly one after eye
1, the last call, carrying exactly one projection layer whose views are the
two projection views with pose and fov copied from `views[0]` and `views[1]`.
In such a frame, whatever the runtime answers: when the acquire or the wait
fails, `render_openxr(eye, texid, false)` returns after that call, and
`get_external_texture_for_eye` returns 0 leaving `has_support` as it was;
when the release fails, `render_openxr` returns after it, without
`xrEndFrame`; with a state of `UNKNOWN` or below,
`get_external_texture_for_eye` leaves `has_support` as it was. -/
theorem render_frame_brackets (ext0 ext1 : Bool) (rt0 rt1 : RenderReply) (tex0 tex1 : Nat)
    (self : Api) (v0 v1 : XrView) (pv0 pv1 : ProjectionView) (b0 b1 : Nat)
    (hrun : self.running = true) (hstate : self.state < XR_SESSION_STATE_STOPPING)
    (hrender : self.frameState.shouldRender = true) (hvalid : self.view_pose_valid = true)
    (hviews : self.views = some [v0, v1]) (hpv : self.projection_views = [pv0, pv1])
    (hbi : self.buffer_index = some [b0, b1])
    (hknown : ext0 = true ∨ ext1 = true → XR_SESSION_STATE_UNKNOWN < self.state)
    (ha0 : xr_result rt0.acquire.acquire = true) (hw0 : xr_result rt0.acquire.wait = true)
    (hr0 : xr_result rt0.release = true)
    (ha1 : xr_result rt1.acquire.acquire = true) (hw1 : xr_result rt1.acquire.wait = true)
    (hr1 : xr_result rt1.release = true) :
    (renderEye ext0 rt0 0 tex0 self).2.filter isRuntimeCall =
      [Call.xrAcquireSwapchainImage (self.swapchains.getD 0 XR_NULL_HANDLE),
        Call.xrWaitSwapchainImage (self.swapchains.getD 0 XR_NULL_HANDLE),
        Call.xrReleaseSwapchainImage (self.swapchains.getD 0 XR_NULL_HANDLE)] ∧
    (renderEye ext1 rt1 1 tex1 (renderEye ext0 rt0 0 tex0 self).1).2.filter isRuntimeCall =
      [Call.xrAcquireSwapchainImage (self.swapchains.getD 1 XR_NULL_HANDLE),
        Call.xrWaitSwapchainImage (self.swapchains.getD 1 XR_NULL_HANDLE),
        Call.xrReleaseSwapchainImage (self.swapchains.getD 1 XR_NULL_HANDLE),
        Call.xrEndFrame self.frameState.predictedDisplayTime
          [{ space := self.projectionLayer.space
             viewCount := self.projectionLayer.viewCount
             views := [{ pv0 with pose := v0.pose, fov := v0.fov },
               { pv1 with pose := v1.pose, fov := v1.fov }] }]] ∧
    (∀ (rt : RenderReply) (eye texid : Nat), xr_result rt.acquire.acquire = false →
      render_openxr rt eye texid false self =
        (self, [Call.xrAcquireSwapchainImage (self.swapchains.getD eye XR_NULL_HANDLE)])) ∧
    (∀ (rt : RenderReply) (eye texid : Nat), xr_result rt.acquire.acquire = true →
      xr_result rt.acquire.wait = false →
      (render_openxr rt eye texid false self).2 =
        [Call.xrAcquireSwapchainImage (self.swapchains.getD eye XR_NULL_HANDLE),
          Call.xrWaitSwapchainImage (self.swapchains.getD eye XR_NULL_HANDLE)]) ∧
    (∀ (rt : RenderReply) (eye texid : Nat), xr_result rt.release = false →
      render_openxr rt eye texid true self =
        (self, [Call.xrReleaseSwapchainImage (self.swapchains.getD eye XR_NULL_HANDLE)])) ∧
    (∀ (rt : RenderReply) (eye texid : Nat), xr_result rt.acquire.acquire = true →
      xr_result rt.acquire.wait = true → xr_result rt.release = false →
      (render_openxr rt eye texid false self).2.filter isRuntimeCall =
        [Call.xrAcquireSwapchainImage (self.swapchains.getD eye XR_NULL_HANDLE),
          Call.xrWaitSwapchainImage (self.swapchains.getD eye XR_NULL_HANDLE),
          Call.xrReleaseSwapchainImage (self.swapchains.getD eye XR_NULL_HANDLE)]) ∧
    (∀ (rt : AcquireReply) (eye : Nat) (hs : Bool),
      xr_result rt.acquire = false ∨ xr_result rt.wait = false ∨
        self.state ≤ XR_SESSION_STATE_UNKNOWN →
      (get_external_texture_for_eye rt eye hs self).has_support = hs ∧
      (get_external_texture_for_eye rt eye hs self).ret = 0) := by
  have hsome : self.buffer_index.isSome = true := by rw [hbi]; rfl
  obtain ⟨hs0, ht0⟩ := renderEye_ok ext0 rt0 0 tex0 self hrun hstate hrender hvalid
    (fun h => hknown (Or.inl h)) hsome ha0 hw0 hr0
  have hf := fun (rt : RenderReply) (eye texid : Nat) =>
    render_openxr_fails rt eye texid self hrun hstate hrender hvalid
  refine ⟨by simpa using ht0, ?_, fun rt eye texid => (hf rt eye texid).1,
    fun rt eye texid => (hf rt eye texid).2.1, fun rt eye texid => (hf rt eye texid).2.2.1,
    fun rt eye texid => (hf rt eye texid).2.2.2,
    fun rt eye hs => (get_external_texture_flag rt eye hs self).2⟩
  have h1 := (renderEye_ok ext1 rt1 1 tex1 (renderEye ext0 rt0 0 tex0 self).1
    (by rw [hs0]; exact hrun) (by rw [hs0]; exact hstate) (by rw [hs0]; exact hrender)
    (by rw [hs0]; exact hvalid) (by rw [hs0]; exact fun h => hknown (Or.inr h))
    (by rw [hs0, hbi]; rfl) ha1 hw1 hr1).2
  rw [h1, hs0]
  simp [hviews, hpv]

/-- A frame of the sample object rendered through
`get_external_texture_for_eye`: the layer carries the poses and fovs of the
two located views. -/
theorem render_frame_brackets_witness :
    (renderEye true okRender 0 0 sampleApi).2.filter isRuntimeCall =
      [Call.xrAcquireSwapchainImage 11, Call.xrWaitSwapchainImage 11,
        Call.xrReleaseSwapchainImage 11] ∧
    (renderEye true okRender 1 0 (renderEye true okRender 0 0 sampleApi).1).2.filter
        isRuntimeCall =
      [Call.xrAcquireSwapchainImage 12, Call.xrWaitSwapchainImage 12,
        Call.xrReleaseSwapchainImage 12,
        Call.xrEndFrame 1000 [⟨1, 2, [⟨leftView.pose, leftView.fov, 11, 1024, 768⟩,
          ⟨rightView.pose, rightView.fov, 12, 1024, 768⟩]⟩]] :=
  have h := render_frame_brackets true true okRender okRender 0 0 sampleApi leftView rightView
    ⟨identityPose, zeroFov, 11, 1024, 768⟩ ⟨identityPose, zeroFov, 12, 1024, 768⟩ 0 0
    rfl (by decide) rfl rfl rfl rfl rfl (fun _ => by decide) (by decide) (by decide)
    (by decide) (by decide) (by decide) (by decide)
  ⟨h.1, h.2.1⟩


/-! ## Acquire and release on the early exits -/

/-- C7: evaluation at the failing input. After a fatal event cleared
`running`, `get_external_texture_for_eye` still acquires the image of eye 0
and reports external texture support, and the `render_openxr` call for that
eye returns at its first test: the acquire has no release. On the sibling
early exit (a frame that is not to be rendered) the same two calls do release
the image. -/
theorem stopped_session_acquire_unreleased :
    stoppedApi.running = false ∧
    (get_external_texture_for_eye okAcquire 0 false stoppedApi).has_support = true ∧
    (renderEye true okRender 0 0 stoppedApi).2 =
      [Call.xrAcquireSwapchainImage 11, Call.xrWaitSwapchainImage 11] ∧
    countAcquire 11 (renderEye true okRender 0 0 stoppedApi).2 = 1 ∧
    countRelease 11 (renderEye true okRender 0 0 stoppedApi).2 = 0 ∧
    (renderEye true okRender 0 0 skipFrameApi).2 =
      [Call.xrAcquireSwapchainImage 11, Call.xrWaitSwapchainImage 11,
        Call.xrReleaseSwapchainImage 11] := by
  decide

/-! ## Swapchain format selection -/

theorem swapchainFormatLoop_nonzero (l : List Int) (t : Int) (ht : t ≠ 0) :
    swapchainFormatLoop l t = t := by
  cases l <;> simp [swapchainFormatLoop, ht]

/-- The loop of the constructor stops at the first format that is one of the
two wanted ones; without such a format it leaves zero. -/
theorem swapchainFormatLoop_cons (f : Int) (rest : List Int) :
    swapchainFormatLoop (f :: rest) 0 =
      if f = GL_SRGB8_ALPHA8 ∨ f = GL_RGBA8 then f else swapchainFormatLoop rest 0 := by
  simp only [swapchainFormatLoop, if_true]
  by_cases h1 : f = GL_RGBA8
  · subst h1
    simp only [if_true, or_true]
    exact swapchainFormatLoop_nonzero _ _ (by decide)
  · by_cases h2 : f = GL_SRGB8_ALPHA8
    · subst h2
      simp only [if_true, true_or, h1, if_false]
      exact swapchainFormatLoop_nonzero _ _ (by decide)
    · simp [h1, h2]

/-- Without a wanted format in the list the loop leaves zero. -/
theorem swapchainFormatLoop_absent (l : List Int) (h1 : GL_SRGB8_ALPHA8 ∉ l)
    (h2 : GL_RGBA8 ∉ l) : swapchainFormatLoop l 0 = 0 := by
  induction l with
  | nil => rfl
  | cons f rest ih =>
    simp only [List.mem_cons, not_or] at h1 h2
    rw [swapchainFormatLoop_cons, if_neg, ih h1.2 h2.2]
    rintro (h | h)
    · exact h1.1 h.symm
    · exact h2.1 h.symm

/-- C8, as stated, fails: with the linear format listed before the sRGB one
the constructor chooses the linear format although sRGB occurs in the list. -/
theorem format_selection_prefers_first_match :
    GL_SRGB8_ALPHA8 ∈ [GL_RGBA8, GL_SRGB8_ALPHA8] ∧
    selectSwapchainFormat [GL_RGBA8, GL_SRGB8_ALPHA8] = some GL_RGBA8 ∧
    selectSwapchainFormat [GL_RGBA8, GL_SRGB8_ALPHA8] ≠ some GL_SRGB8_ALPHA8 := by
  decide

/-- C8, amended: for every list of runtime formats, the chosen format is
`GL_SRGB8_ALPHA8` if it occurs in the list before any occurrence of
`GL_RGBA8`; otherwise `GL_RGBA8` if it occurs anywhere in the list; otherwise
(neither occurs) the first element of the list, which exists when the list is
not empty. -/
theorem format_selection (formats : List Int) :
    ((∃ pre post, formats = pre ++ GL_SRGB8_ALPHA8 :: post ∧ GL_RGBA8 ∉ pre) →
      selectSwapchainFormat formats = some GL_SRGB8_ALPHA8) ∧
    (¬ (∃ pre post, formats = pre ++ GL_SRGB8_ALPHA8 :: post ∧ GL_RGBA8 ∉ pre) →
      GL_RGBA8 ∈ formats → selectSwapchainFormat formats = some GL_RGBA8) ∧
    (GL_SRGB8_ALPHA8 ∉ formats → GL_RGBA8 ∉ formats →
      selectSwapchainFormat formats = formats.head? ∧
      (formats ≠ [] → ∃ first, formats.head? = some first)) := by
  refine ⟨?_, ?_, ?_⟩
  · rintro ⟨pre, post, rfl, hpre⟩
    have hloop : swapchainFormatLoop (pre ++ GL_SRGB8_ALPHA8 :: post) 0 = GL_SRGB8_ALPHA8 := by
      induction pre with
      | nil => simp [swapchainFormatLoop_cons]
      | cons x xs ih =>
        simp only [List.mem_cons, not_or] at hpre
        rw [List.cons_append, swapchainFormatLoop_cons]
        by_cases hx : x = GL_SRGB8_ALPHA8
        · simp [hx]
        · rw [if_neg, ih hpre.2]
          rintro (h | h)
          · exact hx h
          · exact hpre.1 h.symm
    simp only [selectSwapchainFormat, hloop]
    rw [if_neg (by decide)]
  · intro hno hmem
    have hloop : swapchainFormatLoop formats 0 = GL_RGBA8 := by
      induction formats with
      | nil => simp at hmem
      | cons x xs ih =>
        rw [swapchainFormatLoop_cons]
        by_cases hx1 : x = GL_SRGB8_ALPHA8
        · exact absurd ⟨[], xs, by simp [hx1], by simp⟩ hno
        · by_cases hx2 : x = GL_RGBA8
          · simp [hx2]
          · rw [if_neg (by rintro (h | h); exact hx1 h; exact hx2 h)]
            apply ih
            · rintro ⟨pre, post, hxs, hpre⟩
              refine hno ⟨x :: pre, post, by simp [hxs], ?_⟩
              simp only [List.mem_cons, not_or]
              exact ⟨fun h => hx2 h.symm, hpre⟩
            · rcases List.mem_cons.mp hmem with h | h
              · exact absurd h.symm hx2
              · exact h
    simp only [selectSwapchainFormat, hloop]
    rw [if_neg (by decide)]
  · intro h1 h2
    refine ⟨?_, ?_⟩
    · simp [selectSwapchainFormat, swapchainFormatLoop_absent formats h1 h2]
    · intro hne
      cases formats with
      | nil => exact absurd rfl hne
      | cons x xs => exact ⟨x, rfl⟩

/-- The three branches of the selection on crafted lists. -/
theorem format_selection_witness :
    selectSwapchainFormat [0x881A, GL_SRGB8_ALPHA8, GL_RGBA8] = some GL_SRGB8_ALPHA8 ∧
    selectSwapchainFormat [0x881A, GL_RGBA8, GL_SRGB8_ALPHA8] = some GL_RGBA8 ∧
    selectSwapchainFormat [0x881A, 0x8814] = some 0x881A :=
  ⟨(format_selection [0x881A, GL_SRGB8_ALPHA8, GL_RGBA8]).1
      ⟨[0x881A], [GL_RGBA8], rfl, by decide⟩,
    (format_selection [0x881A, GL_RGBA8, GL_SRGB8_ALPHA8]).2.1 (by
      rintro ⟨pre, post, h, hpre⟩
      match pre, h, hpre with
      | [], h, _ => simp [GL_SRGB8_ALPHA8] at h
      | [a], h, _ => simp [GL_SRGB8_ALPHA8, GL_RGBA8] at h
      | [a, b], h, hpre =>
        simp only [List.cons_append, List.nil_append, List.cons.injEq] at h
        exact hpre (by simp [h.2.1])
      | a :: b :: c :: d, h, _ =>
        simp only [List.cons_append, List.cons.injEq] at h
        have := h.2.2.2
        cases d <;> simp at this) (by decide),
    ((format_selection [0x881A, 0x8814]).2.2 (by decide) (by decide)).1⟩


/-! ## Capability queries -/

theorem strcmp_eq_zero (a b : String) : strcmp a b = 0 ↔ a = b := by
  unfold strcmp
  rw [String.ext_iff]
  generalize a.data = x
  generalize b.data = y
  induction x generalizing y with
  | nil => cases y <;> simp [strcmpChars]
  | cons c cs ih =>
    cases y with
    | nil => simp [strcmpChars]
    | cons d ds =>
      simp only [strcmpChars, List.cons.injEq]
      by_cases h : c = d
      · simp [h, ih]
      · simp only [h, if_false, false_and, iff_false]
        split <;> decide

/-- The loop of `isExtensionSupported` from an index on, inside the array. -/
theorem isExtensionSupportedFrom_spec (name : String) (props : List String) (remaining idx : Nat)
    (hlen : idx + remaining ≤ props.length) :
    ∃ b, isExtensionSupportedFrom name props remaining idx = some b ∧
      (b = true ↔ ∃ i, idx ≤ i ∧ i < idx + remaining ∧ props.get? i = some name) := by
  induction remaining generalizing idx with
  | zero =>
    refine ⟨false, rfl, ?_⟩
    simp only [Bool.false_eq_true, false_iff, not_exists]
    intro i hi
    omega
  | succ n ih =>
    have hidx : idx < props.length := by omega
    obtain ⟨entry, hentry⟩ : ∃ entry, props.get? idx = some entry :=
      ⟨props.get ⟨idx, hidx⟩, List.get?_eq_get hidx⟩
    simp only [isExtensionSupportedFrom, hentry]
    by_cases hcmp : strcmp name entry = 0
    · refine ⟨true, by simp [hcmp], ?_⟩
      simp only [true_iff]
      exact ⟨idx, le_refl _, by omega, by rw [hentry, (strcmp_eq_zero _ _).mp hcmp]⟩
    · obtain ⟨b, hb, hiff⟩ := ih (idx + 1) (by omega)
      refine ⟨b, by simp [hcmp, hb], ?_⟩
      rw [hiff]
      constructor
      · rintro ⟨i, h1, h2, h3⟩
        exact ⟨i, by omega, by omega, h3⟩
      · rintro ⟨i, h1, h2, h3⟩
        refine ⟨i, ?_, by omega, h3⟩
        by_contra hlt
        have hi : i = idx := by omega
        subst hi
        rw [hentry] at h3
        exact hcmp ((strcmp_eq_zero _ _).mpr (Option.some.inj h3).symm)

/-- C9: for every extension name, property array and count (the array
holding at least `instanceExtensionCount` entries), `isExtensionSupported`
returns, and it returns true if and only if some entry among the first
`instanceExtensionCount` entries has an `extensionName` equal to the queried
name; for count 0 it returns false. -/
theorem isExtensionSupported_iff (extensionName : String)
    (instanceExtensionProperties : List String) (instanceExtensionCount : Nat)
    (hcount : instanceExtensionCount ≤ instanceExtensionProperties.length) :
    (∃ b, isExtensionSupported extensionName instanceExtensionProperties instanceExtensionCount
        = some b ∧
      (b = true ↔ ∃ i, i < instanceExtensionCount ∧
        instanceExtensionProperties.get? i = some extensionName)) ∧
    isExtensionSupported extensionName instanceExtensionProperties 0 = some false := by
  refine ⟨?_, rfl⟩
  obtain ⟨b, hb, hiff⟩ := isExtensionSupportedFrom_spec extensionName
    instanceExtensionProperties instanceExtensionCount 0 (by omega)
  refine ⟨b, hb, ?_⟩
  rw [hiff]
  constructor
  · rintro ⟨i, _, h2, h3⟩
    exact ⟨i, by omega, h3⟩
  · rintro ⟨i, h2, h3⟩
    exact ⟨i, Nat.zero_le _, by omega, h3⟩

/-- A query among the first two of three enumerated extensions. -/
theorem isExtensionSupported_iff_witness :
    (2 ≤ ["XR_KHR_vulkan_enable", "XR_KHR_opengl_enable", "XR_MND_headless"].length) ∧
    (∃ b, isExtensionSupported "XR_KHR_opengl_enable"
        ["XR_KHR_vulkan_enable", "XR_KHR_opengl_enable", "XR_MND_headless"] 2 = some b ∧
      (b = true ↔ ∃ i, i < 2 ∧
        ["XR_KHR_vulkan_enable", "XR_KHR_opengl_enable", "XR_MND_headless"].get? i
          = some "XR_KHR_opengl_enable")) ∧
    isExtensionSupported "XR_KHR_opengl_enable"
      ["XR_KHR_vulkan_enable", "XR_KHR_opengl_enable", "XR_MND_headless"] 2 = some true ∧
    isExtensionSupported "XR_MND_headless"
      ["XR_KHR_vulkan_enable", "XR_KHR_opengl_enable", "XR_MND_headless"] 2 = some false :=
  ⟨by decide,
    (isExtensionSupported_iff "XR_KHR_opengl_enable"
      ["XR_KHR_vulkan_enable", "XR_KHR_opengl_enable", "XR_MND_headless"] 2 (by decide)).1,
    by decide, by decide⟩

/-- The search loop finds `type` exactly when it is among the entries. -/
theorem viewConfigLoop_iff (type : Int) (items : List Int) :
    viewConfigLoop type items = true ↔ type ∈ items := by
  induction items with
  | nil => simp [viewConfigLoop]
  | cons c rest ih =>
    simp only [viewConfigLoop, List.mem_cons]
    by_cases h : c = type
    · simp [h]
    · simp only [h, if_false, ih]
      constructor
      · exact Or.inr
      · rintro (h1 | h1)
        · exact absurd h1.symm h
        · exact h1

/-- C10: `isViewConfigSupported(type, systemId)` returns true if and only if
both `xrEnumerateViewConfigurations` calls succeed and `type` occurs in the
list the runtime enumerated, the second call being made when the count call
succeeded and the buffer for the list was allocated; if either enumeration
call fails it returns false. The calls made are the count call alone when it
fails or the buffer is not allocated, and the count call followed by the list
call with the counted capacity otherwise. -/
theorem isViewConfigSupported_iff (rt : EnumerateReply) (type : Int) :
    ((isViewConfigSupported rt type).1 = true ↔
      XR_SUCCEEDED rt.countResult = true ∧ rt.mallocOk = true ∧
        XR_SUCCEEDED rt.listResult = true ∧ type ∈ rt.items) ∧
    (XR_SUCCEEDED rt.countResult = false ∨ XR_SUCCEEDED rt.listResult = false →
      (isViewConfigSupported rt type).1 = false) ∧
    (isViewConfigSupported rt type).2 =
      (if XR_SUCCEEDED rt.countResult = true ∧ rt.mallocOk = true then
        [Call.xrEnumerateViewConfigurations 0, Call.xrEnumerateViewConfigurations rt.count]
      else [Call.xrEnumerateViewConfigurations 0]) := by
  unfold isViewConfigSupported xr_result
  cases h1 : XR_SUCCEEDED rt.countResult <;> cases h2 : rt.mallocOk <;>
    cases h3 : XR_SUCCEEDED rt.listResult <;> simp [viewConfigLoop_iff]

/-- A supported type with both calls succeeding, the same query with a
failing list call, and a type the runtime did not enumerate. -/
theorem isViewConfigSupported_iff_witness :
    (isViewConfigSupported ⟨XR_SUCCESS, 2, true, XR_SUCCESS, [1, 2]⟩ 2).1 = true ∧
    (isViewConfigSupported ⟨XR_SUCCESS, 2, true, failed, [1, 2]⟩ 2).1 = false ∧
    ¬ ((isViewConfigSupported ⟨XR_SUCCESS, 2, true, XR_SUCCESS, [1, 2]⟩ 3).1 = true) :=
  ⟨(isViewConfigSupported_iff ⟨XR_SUCCESS, 2, true, XR_SUCCESS, [1, 2]⟩ 2).1.mpr
      ⟨by decide, rfl, by decide, by decide⟩,
    (isViewConfigSupported_iff ⟨XR_SUCCESS, 2, true, failed, [1, 2]⟩ 2).2.1 (Or.inr (by decide)),
    fun h => absurd ((isViewConfigSupported_iff ⟨XR_SUCCESS, 2, true, XR_SUCCESS, [1, 2]⟩ 3).1.mp
      h).2.2.2 (by decide)⟩

/-! ## Input synchronisation -/

/-- The float query of `getActionStates` fills one state per hand. -/
theorem getActionStates_float (rt : StateReplies) (action : Nat) (d0 d1 : ActionState) :
    getActionStates rt action XR_TYPE_ACTION_STATE_FLOAT [d0, d1] =
      (XR_SUCCESS,
        [ActionState.float (floatAnswer (rt.float 0)), ActionState.float (floatAnswer (rt.float 1))],
        [Call.xrGetActionStateFloat action 0, Call.xrGetActionStateFloat action 1]) := by
  simp [getActionStates, HANDCOUNT, getActionStatesFrom, getActionStateFor, floatAnswer]

/-- The boolean query of `getActionStates` fills one state per hand. -/
theorem getActionStates_boolean (rt : StateReplies) (action : Nat) (d0 d1 : ActionState) :
    getActionStates rt action XR_TYPE_ACTION_STATE_BOOLEAN [d0, d1] =
      (XR_SUCCESS,
        [ActionState.boolean (booleanAnswer (rt.boolean 0)),
          ActionState.boolean (booleanAnswer (rt.boolean 1))],
        [Call.xrGetActionStateBoolean action 0, Call.xrGetActionStateBoolean action 1]) := by
  simp [getActionStates, HANDCOUNT, getActionStatesFrom, getActionStateFor, booleanAnswer,
    XR_TYPE_ACTION_STATE_BOOLEAN, XR_TYPE_ACTION_STATE_FLOAT]

/-- The pose query of `getActionStates` fills one state per hand. -/
theorem getActionStates_pose (rt : StateReplies) (action : Nat) (d0 d1 : ActionState) :
    getActionStates rt action XR_TYPE_ACTION_STATE_POSE [d0, d1] =
      (XR_SUCCESS,
        [ActionState.pose (poseAnswer (rt.pose 0)), ActionState.pose (poseAnswer (rt.pose 1))],
        [Call.xrGetActionStatePose action 0, Call.xrGetActionStatePose action 1]) := by
  simp [getActionStates, HANDCOUNT, getActionStatesFrom, getActionStateFor, poseAnswer,
    XR_TYPE_ACTION_STATE_BOOLEAN, XR_TYPE_ACTION_STATE_FLOAT, XR_TYPE_ACTION_STATE_POSE]

/-- The six state arrays hold, per hand, the answers of the runtime. -/
theorem fetchedStates_eq (rt : ControllerReplies) :
    fetchedStates rt =
      { trigger := [ActionState.float (floatAnswer ((rt.states TRIGGER_ACTION_INDEX).float 0)),
          ActionState.float (floatAnswer ((rt.states TRIGGER_ACTION_INDEX).float 1))]
        grab := [ActionState.boolean (booleanAnswer ((rt.states GRAB_ACTION_INDEX).boolean 0)),
          ActionState.boolean (booleanAnswer ((rt.states GRAB_ACTION_INDEX).boolean 1))]
        menu := [ActionState.boolean (booleanAnswer ((rt.states MENU_ACTION_INDEX).boolean 0)),
          ActionState.boolean (booleanAnswer ((rt.states MENU_ACTION_INDEX).boolean 1))]
        pose := [ActionState.pose (poseAnswer ((rt.states POSE_ACTION_INDEX).pose 0)),
          ActionState.pose (poseAnswer ((rt.states POSE_ACTION_INDEX).pose 1))]
        thumbstickX :=
          [ActionState.float (floatAnswer ((rt.states THUMBSTICK_X_AXIS_ACTION_INDEX).float 0)),
            ActionState.float (floatAnswer ((rt.states THUMBSTICK_X_AXIS_ACTION_INDEX).float 1))]
        thumbstickY :=
          [ActionState.float (floatAnswer ((rt.states THUMBSTICK_Y_AXIS_ACTION_INDEX).float 0)),
            ActionState.float (floatAnswer ((rt.states THUMBSTICK_Y_AXIS_ACTION_INDEX).float 1))] } := by
  simp only [fetchedStates, emptyStates, HANDCOUNT, List.replicate, getActionStates_float,
    getActionStates_boolean, getActionStates_pose]

/-- With a frame waited for, `update_controllers` makes the sync and the
state queries, then the calls of hand 0, then the calls of hand 1. -/
theorem update_controllers_eq (rt : ControllerReplies) (self : Api)
    (htime : self.frameState.predictedDisplayTime ≠ 0) :
    update_controllers rt self = fetchCalls ++ handCalls rt self 0 ++ handCalls rt self 1 := by
  have h : (List.range HANDCOUNT) = [0, 1] := by decide
  simp only [update_controllers, htime, if_false, h, List.foldl, handCalls, fetchedStates,
    emptyStates, HANDCOUNT, List.replicate, getActionStates_float,
    getActionStates_boolean, getActionStates_pose, fetchCalls]
  simp


/-- The calls for a hand with an active pose whose located space has the
orientation-valid bit: the locate, the transform, then the button and axis
updates of the actions that are active and changed. -/
theorem handCalls_tracked (rt : ControllerReplies) (self : Api) (i : Nat)
    (hpose : (poseAt (fetchedStates rt).pose i).isActive = true)
    (hvalid : (rt.locate i).2.locationFlags &&& XR_SPACE_LOCATION_ORIENTATION_VALID_BIT ≠ 0) :
    handCalls rt self i =
      [Call.xrLocateSpace (self.handSpaces.getD i XR_NULL_HANDLE) self.play_space
          self.frameState.predictedDisplayTime,
        Call.godot_arvr_set_controller_transform (self.godot_controllers.getD i 0)
          (transform_from_pose (rt.locate i).2.pose 1).2]
      ++ (if (floatAt (fetchedStates rt).trigger i).isActive &&
            (floatAt (fetchedStates rt).trigger i).changedSinceLastSync then
          [Call.godot_arvr_set_controller_button (self.godot_controllers.getD i 0) triggerButton
            (decide ((floatAt (fetchedStates rt).trigger i).currentState ≠ 0))] else [])
      ++ (if (booleanAt (fetchedStates rt).grab i).isActive &&
            (booleanAt (fetchedStates rt).grab i).changedSinceLastSync then
          [Call.godot_arvr_set_controller_button (self.godot_controllers.getD i 0) grabButton
            ((booleanAt (fetchedStates rt).grab i).currentState)] else [])
      ++ (if (booleanAt (fetchedStates rt).menu i).isActive &&
            (booleanAt (fetchedStates rt).menu i).changedSinceLastSync then
          [Call.godot_arvr_set_controller_button (self.godot_controllers.getD i 0) menuButton
            ((booleanAt (fetchedStates rt).menu i).currentState)] else [])
      ++ (if (floatAt (fetchedStates rt).thumbstickX i).isActive &&
            (floatAt (fetchedStates rt).thumbstickX i).changedSinceLastSync then
          [Call.godot_arvr_set_controller_axis (self.godot_controllers.getD i 0)
            (joystick_x_axis.getD i 0) (floatAt (fetchedStates rt).thumbstickX i).currentState]
          else [])
      ++ (if (floatAt (fetchedStates rt).thumbstickY i).isActive &&
            (floatAt (fetchedStates rt).thumbstickY i).changedSinceLastSync then
          [Call.godot_arvr_set_controller_axis (self.godot_controllers.getD i 0)
            (joystick_y_axis.getD i 0) (-(floatAt (fetchedStates rt).thumbstickY i).currentState)]
          else []) := by
  simp only [handCalls, updateHand, hpose, Bool.not_true, Bool.false_eq_true, if_false,
    hvalid, ne_eq, not_false_eq_true, decide_True, transform_from_pose, List.append_assoc,
    List.cons_append, List.nil_append, List.singleton_append]

/-- The calls for a hand whose pose is inactive: none. -/
theorem handCalls_inactive (rt : ControllerReplies) (self : Api) (i : Nat)
    (hpose : (poseAt (fetchedStates rt).pose i).isActive = false) :
    handCalls rt self i = [] := by
  simp [handCalls, updateHand, hpose]

/-- The calls for a hand with an active pose whose located space lacks the
orientation-valid bit: the locate only. -/
theorem handCalls_invalid (rt : ControllerReplies) (self : Api) (i : Nat)
    (hpose : (poseAt (fetchedStates rt).pose i).isActive = true)
    (hvalid : (rt.locate i).2.locationFlags &&& XR_SPACE_LOCATION_ORIENTATION_VALID_BIT = 0) :
    handCalls rt self i =
      [Call.xrLocateSpace (self.handSpaces.getD i XR_NULL_HANDLE) self.play_space
        self.frameState.predictedDisplayTime] := by
  simp [handCalls, updateHand, hpose, hvalid]

/-- The state of a hand in the arrays is the answer of the runtime for that
hand. -/
theorem fetchedStates_at (rt : ControllerReplies) (i : Nat) (hi : i < HANDCOUNT) :
    floatAt (fetchedStates rt).trigger i =
      floatAnswer ((rt.states TRIGGER_ACTION_INDEX).float i) ∧
    booleanAt (fetchedStates rt).grab i =
      booleanAnswer ((rt.states GRAB_ACTION_INDEX).boolean i) ∧
    booleanAt (fetchedStates rt).menu i =
      booleanAnswer ((rt.states MENU_ACTION_INDEX).boolean i) ∧
    poseAt (fetchedStates rt).pose i = poseAnswer ((rt.states POSE_ACTION_INDEX).pose i) ∧
    floatAt (fetchedStates rt).thumbstickX i =
      floatAnswer ((rt.states THUMBSTICK_X_AXIS_ACTION_INDEX).float i) ∧
    floatAt (fetchedStates rt).thumbstickY i =
      floatAnswer ((rt.states THUMBSTICK_Y_AXIS_ACTION_INDEX).float i) := by
  have h : i = 0 ∨ i = 1 := by unfold HANDCOUNT at hi; omega
  rcases h with h | h <;> subst h <;>
    simp [fetchedStates_eq, floatAt, booleanAt, poseAt]


/-- A hand with an active pose is one of the two hands. -/
theorem poseActive_lt (rt : ControllerReplies) (i : Nat)
    (hpose : (poseAt (fetchedStates rt).pose i).isActive = true) : i < HANDCOUNT := by
  by_contra hge
  have h2 : 2 ≤ i := by unfold HANDCOUNT at hge; omega
  have hd : (fetchedStates rt).pose.getD i (ActionState.pose ⟨false⟩) =
      ActionState.pose ⟨false⟩ := by
    rw [fetchedStates_eq]
    exact List.getD_eq_default _ _ (by simpa using h2)
  unfold poseAt at hpose
  rw [hd] at hpose
  simp at hpose

/-- C12, as stated, fails for the trigger: its `float` state is passed as the
boolean `p_is_pressed` argument of `godot_arvr_set_controller_button`, so the
update carries only whether the state is nonzero. A trigger at 0.25 and a
trigger at 1 forward the same update, `true`. -/
theorem trigger_update_drops_value :
    (floatAt (fetchedStates lightTrigger).trigger 0).currentState = 1 / 4 ∧
    (floatAt (fetchedStates trackedControllers).trigger 0).currentState = 1 ∧
    (handCalls lightTrigger sampleApi 0).filter (isButtonUpdate triggerButton) =
      [Call.godot_arvr_set_controller_button 1 triggerButton true] ∧
    (handCalls trackedControllers sampleApi 0).filter (isButtonUpdate triggerButton) =
      [Call.godot_arvr_set_controller_button 1 triggerButton true] := by
  have hstate : floatAt (fetchedStates lightTrigger).trigger 0 = ⟨0.25, true, true⟩ := by
    rw [(fetchedStates_at lightTrigger 0 (by decide)).1]
    rfl
  have hpose : (poseAt (fetchedStates lightTrigger).pose 0).isActive = true := by
    rw [(fetchedStates_at lightTrigger 0 (by decide)).2.2.2.1]
    rfl
  have hgrab : booleanAt (fetchedStates lightTrigger).grab 0 = ⟨true, false, true⟩ := by
    rw [(fetchedStates_at lightTrigger 0 (by decide)).2.1]
    rfl
  have hmenu : booleanAt (fetchedStates lightTrigger).menu 0 = ⟨true, true, true⟩ := by
    rw [(fetchedStates_at lightTrigger 0 (by decide)).2.2.1]
    rfl
  refine ⟨?_, by decide, ?_, by decide⟩
  · rw [hstate]
    norm_num
  · rw [handCalls_tracked lightTrigger sampleApi 0 hpose (by decide), hstate, hgrab, hmenu]
    have hquarter : decide ((0.25 : XrFloat) ≠ 0) = true := by
      rw [decide_eq_true_iff]
      norm_num
    simp only [hquarter]
    generalize ((floatAt (fetchedStates lightTrigger).thumbstickX 0).isActive &&
      (floatAt (fetchedStates lightTrigger).thumbstickX 0).changedSinceLastSync) = b4
    generalize ((floatAt (fetchedStates lightTrigger).thumbstickY 0).isActive &&
      (floatAt (fetchedStates lightTrigger).thumbstickY 0).changedSinceLastSync) = b5
    cases b4 <;> cases b5 <;> simp [isButtonUpdate, triggerButton, grabButton, menuButton] <;> rfl

/-- C12, amended: in `update_controllers` (with a frame waited for), for every
hand whose pose is active and orientation-valid, and for each of the trigger,
grab and menu actions: the calls of that hand contain a button update for the
action if and only if its state has `isActive` and `changedSinceLastSync`
both true, and then exactly one; with `changedSinceLastSync = false` none.
The update of grab and of menu carries `currentState`; the update of the
trigger carries whether its `float` `currentState` is nonzero. The state of an
action is the one the runtime answered for that hand, with `isActive` cleared
when the query failed. -/
theorem button_edge_forwarding (rt : ControllerReplies) (self : Api) (i : Nat)
    (htime : self.frameState.predictedDisplayTime ≠ 0)
    (hpose : (poseAt (fetchedStates rt).pose i).isActive = true)
    (hvalid : (rt.locate i).2.locationFlags &&& XR_SPACE_LOCATION_ORIENTATION_VALID_BIT ≠ 0) :
    update_controllers rt self = fetchCalls ++ handCalls rt self 0 ++ handCalls rt self 1 ∧
    (handCalls rt self i).filter (isButtonUpdate triggerButton) =
      (if (floatAt (fetchedStates rt).trigger i).isActive &&
          (floatAt (fetchedStates rt).trigger i).changedSinceLastSync then
        [Call.godot_arvr_set_controller_button (self.godot_controllers.getD i 0) triggerButton
          (decide ((floatAt (fetchedStates rt).trigger i).currentState ≠ 0))] else []) ∧
    (handCalls rt self i).filter (isButtonUpdate grabButton) =
      (if (booleanAt (fetchedStates rt).grab i).isActive &&
          (booleanAt (fetchedStates rt).grab i).changedSinceLastSync then
        [Call.godot_arvr_set_controller_button (self.godot_controllers.getD i 0) grabButton
          ((booleanAt (fetchedStates rt).grab i).currentState)] else []) ∧
    (handCalls rt self i).filter (isButtonUpdate menuButton) =
      (if (booleanAt (fetchedStates rt).menu i).isActive &&
          (booleanAt (fetchedStates rt).menu i).changedSinceLastSync then
        [Call.godot_arvr_set_controller_button (self.godot_controllers.getD i 0) menuButton
          ((booleanAt (fetchedStates rt).menu i).currentState)] else []) ∧
    floatAt (fetchedStates rt).trigger i =
      floatAnswer ((rt.states TRIGGER_ACTION_INDEX).float i) ∧
    booleanAt (fetchedStates rt).grab i =
      booleanAnswer ((rt.states GRAB_ACTION_INDEX).boolean i) ∧
    booleanAt (fetchedStates rt).menu i =
      booleanAnswer ((rt.states MENU_ACTION_INDEX).boolean i) := by
  have hi : i < HANDCOUNT := poseActive_lt rt i hpose
  have hat := fetchedStates_at rt i hi
  refine ⟨update_controllers_eq rt self htime, ?_, ?_, ?_, hat.1, hat.2.1, hat.2.2.1⟩ <;>
  · rw [handCalls_tracked rt self i hpose hvalid]
    generalize ((floatAt (fetchedStates rt).trigger i).isActive &&
      (floatAt (fetchedStates rt).trigger i).changedSinceLastSync) = b1
    generalize ((booleanAt (fetchedStates rt).grab i).isActive &&
      (booleanAt (fetchedStates rt).grab i).changedSinceLastSync) = b2
    generalize ((booleanAt (fetchedStates rt).menu i).isActive &&
      (booleanAt (fetchedStates rt).menu i).changedSinceLastSync) = b3
    generalize ((floatAt (fetchedStates rt).thumbstickX i).isActive &&
      (floatAt (fetchedStates rt).thumbstickX i).changedSinceLastSync) = b4
    generalize ((floatAt (fetchedStates rt).thumbstickY i).isActive &&
      (floatAt (fetchedStates rt).thumbstickY i).changedSinceLastSync) = b5
    cases b1 <;> cases b2 <;> cases b3 <;> cases b4 <;> cases b5 <;>
      simp [isButtonUpdate, triggerButton, grabButton, menuButton]


/-- The tracking runtime on the sample object, left hand: the changed trigger
(at 1) gives one update, pressed; the unchanged grab button none, the changed
menu button one. -/
theorem button_edge_forwarding_witness :
    (handCalls trackedControllers sampleApi 0).filter (isButtonUpdate triggerButton) =
      [Call.godot_arvr_set_controller_button 1 triggerButton true] ∧
    (handCalls trackedControllers sampleApi 0).filter (isButtonUpdate grabButton) = [] ∧
    (handCalls trackedControllers sampleApi 0).filter (isButtonUpdate menuButton) =
      [Call.godot_arvr_set_controller_button 1 menuButton true] :=
  have h := button_edge_forwarding trackedControllers sampleApi 0 (by decide) (by decide)
    (by decide)
  ⟨h.2.1, h.2.2.1, h.2.2.2.1⟩

/-- C13: in `update_controllers`, for every hand, every axis update among the
calls of that hand is either the horizontal axis of the hand carrying the
thumbstick X value unchanged, or the vertical axis of the hand carrying the
negated thumbstick Y value (0.6 reaches the host as -0.6); the two axes of a
hand are distinct. For a hand whose pose is active and orientation-valid the
axis updates are exactly: the X value if the X state is active and changed,
then the negated Y value if the Y state is active and changed. -/
theorem thumbstick_axis_sign (rt : ControllerReplies) (self : Api) (i : Nat) :
    (∀ c ∈ handCalls rt self i, isAxisUpdate c = true →
      c = Call.godot_arvr_set_controller_axis (self.godot_controllers.getD i 0)
            (joystick_x_axis.getD i 0) (floatAt (fetchedStates rt).thumbstickX i).currentState ∨
      c = Call.godot_arvr_set_controller_axis (self.godot_controllers.getD i 0)
            (joystick_y_axis.getD i 0)
            (-(floatAt (fetchedStates rt).thumbstickY i).currentState)) ∧
    (i < HANDCOUNT → joystick_x_axis.getD i 0 ≠ joystick_y_axis.getD i 0) ∧
    ((poseAt (fetchedStates rt).pose i).isActive = true →
      (rt.locate i).2.locationFlags &&& XR_SPACE_LOCATION_ORIENTATION_VALID_BIT ≠ 0 →
      (handCalls rt self i).filter isAxisUpdate =
        (if (floatAt (fetchedStates rt).thumbstickX i).isActive &&
            (floatAt (fetchedStates rt).thumbstickX i).changedSinceLastSync then
          [Call.godot_arvr_set_controller_axis (self.godot_controllers.getD i 0)
            (joystick_x_axis.getD i 0) (floatAt (fetchedStates rt).thumbstickX i).currentState]
          else []) ++
        (if (floatAt (fetchedStates rt).thumbstickY i).isActive &&
            (floatAt (fetchedStates rt).thumbstickY i).changedSinceLastSync then
          [Call.godot_arvr_set_controller_axis (self.godot_controllers.getD i 0)
            (joystick_y_axis.getD i 0) (-(floatAt (fetchedStates rt).thumbstickY i).currentState)]
          else [])) := by
  have hfilter : (poseAt (fetchedStates rt).pose i).isActive = true →
      (rt.locate i).2.locationFlags &&& XR_SPACE_LOCATION_ORIENTATION_VALID_BIT ≠ 0 →
      (handCalls rt self i).filter isAxisUpdate =
        (if (floatAt (fetchedStates rt).thumbstickX i).isActive &&
            (floatAt (fetchedStates rt).thumbstickX i).changedSinceLastSync then
          [Call.godot_arvr_set_controller_axis (self.godot_controllers.getD i 0)
            (joystick_x_axis.getD i 0) (floatAt (fetchedStates rt).thumbstickX i).currentState]
          else []) ++
        (if (floatAt (fetchedStates rt).thumbstickY i).isActive &&
            (floatAt (fetchedStates rt).thumbstickY i).changedSinceLastSync then
          [Call.godot_arvr_set_controller_axis (self.godot_controllers.getD i 0)
            (joystick_y_axis.getD i 0) (-(floatAt (fetchedStates rt).thumbstickY i).currentState)]
          else []) := by
    intro hpose hvalid
    rw [handCalls_tracked rt self i hpose hvalid]
    generalize ((floatAt (fetchedStates rt).trigger i).isActive &&
      (floatAt (fetchedStates rt).trigger i).changedSinceLastSync) = b1
    generalize ((booleanAt (fetchedStates rt).grab i).isActive &&
      (booleanAt (fetchedStates rt).grab i).changedSinceLastSync) = b2
    generalize ((booleanAt (fetchedStates rt).menu i).isActive &&
      (booleanAt (fetchedStates rt).menu i).changedSinceLastSync) = b3
    generalize ((floatAt (fetchedStates rt).thumbstickX i).isActive &&
      (floatAt (fetchedStates rt).thumbstickX i).changedSinceLastSync) = b4
    generalize ((floatAt (fetchedStates rt).thumbstickY i).isActive &&
      (floatAt (fetchedStates rt).thumbstickY i).changedSinceLastSync) = b5
    cases b1 <;> cases b2 <;> cases b3 <;> cases b4 <;> cases b5 <;> simp [isAxisUpdate]
  refine ⟨?_, ?_, hfilter⟩
  · intro c hc hax
    by_cases hpose : (poseAt (fetchedStates rt).pose i).isActive = true
    · by_cases hvalid :
          (rt.locate i).2.locationFlags &&& XR_SPACE_LOCATION_ORIENTATION_VALID_BIT = 0
      · rw [handCalls_invalid rt self i hpose hvalid] at hc
        simp only [List.mem_singleton] at hc
        subst hc
        simp [isAxisUpdate] at hax
      · have hmem : c ∈ (handCalls rt self i).filter isAxisUpdate :=
          List.mem_filter.mpr ⟨hc, hax⟩
        rw [hfilter hpose hvalid] at hmem
        rcases List.mem_append.mp hmem with h | h
        · split at h
          · exact Or.inl (List.mem_singleton.mp h)
          · simp at h
        · split at h
          · exact Or.inr (List.mem_singleton.mp h)
          · simp at h
    · rw [handCalls_inactive rt self i (by simpa using hpose)] at hc
      simp at hc
  · intro hi
    have h : i = 0 ∨ i = 1 := by unfold HANDCOUNT at hi; omega
    rcases h with h | h <;> subst h <;> decide

/-- The tracking runtime on the sample object, left hand: the thumbstick at
(0.25, 0.6) reaches the host as 0.25 on axis 0 and -0.6 on axis 1. -/
theorem thumbstick_axis_sign_witness :
    (handCalls trackedControllers sampleApi 0).filter isAxisUpdate =
      [Call.godot_arvr_set_controller_axis 1 0 0.25,
        Call.godot_arvr_set_controller_axis 1 1 (-0.6)] :=
  (thumbstick_axis_sign trackedControllers sampleApi 0).2.2 (by decide) (by decide)


/-- The calls of a hand depend only on the answers the runtime gives for that
hand. -/
theorem handCalls_congr (rt rt2 : ControllerReplies) (self : Api) (j : Nat)
    (hj : j < HANDCOUNT) (h : sameHandAnswers rt rt2 j) :
    handCalls rt2 self j = handCalls rt self j := by
  obtain ⟨hf, hb, hp, hl⟩ := h
  obtain ⟨a1, a2, a3, a4, a5, a6⟩ := fetchedStates_at rt j hj
  obtain ⟨b1, b2, b3, b4, b5, b6⟩ := fetchedStates_at rt2 j hj
  simp only [handCalls, updateHand, a1, a2, a3, a4, a5, a6, b1, b2, b3, b4, b5, b6, hf, hb, hp,
    hl]

/-- C14: in `update_controllers` (with a frame waited for), for every hand
whose pose action state is inactive no call at all is made for that hand: no
locate, no controller transform, no button update and no axis update,
whatever the states of the other five actions. The calls of the function are
the state queries followed by the calls of hand 0 and those of hand 1, and
the calls of a hand depend only on what the runtime answers for that hand, so
the other hand is handled independently. -/
theorem inactive_pose_skips_hand (rt : ControllerReplies) (self : Api) (i : Nat)
    (htime : self.frameState.predictedDisplayTime ≠ 0)
    (hpose : (poseAt (fetchedStates rt).pose i).isActive = false) :
    handCalls rt self i = [] ∧
    update_controllers rt self = fetchCalls ++ handCalls rt self 0 ++ handCalls rt self 1 ∧
    (∀ c ∈ fetchCalls, isHostCall c = false) ∧
    (∀ j rt2, j < HANDCOUNT → sameHandAnswers rt rt2 j →
      handCalls rt2 self j = handCalls rt self j) :=
  ⟨handCalls_inactive rt self i hpose, update_controllers_eq rt self htime, by decide,
    fun j rt2 hj h => handCalls_congr rt rt2 self j hj h⟩

/-- The tracking runtime with the left hand lost: nothing is forwarded for
the left hand, and all host calls of the frame go to the controller of the
right hand. -/
theorem inactive_pose_skips_hand_witness :
    handCalls leftHandLost sampleApi 0 = [] ∧
    (update_controllers leftHandLost sampleApi).filter isHostCall =
      [Call.godot_arvr_set_controller_transform 2 ⟨identityQuat, ⟨1 * 1, 2 * 1, 3 * 1⟩⟩,
        Call.godot_arvr_set_controller_button 2 triggerButton true,
        Call.godot_arvr_set_controller_button 2 menuButton true,
        Call.godot_arvr_set_controller_axis 2 2 0.25,
        Call.godot_arvr_set_controller_axis 2 3 (-0.6)] :=
  ⟨(inactive_pose_skips_hand leftHandLost sampleApi 0 (by decide) (by decide)).1, by
    rw [(inactive_pose_skips_hand leftHandLost sampleApi 0 (by decide) (by decide)).2.1]
    rfl⟩

/-- Among the calls for a tracked hand there is exactly one transform update,
built by `transform_from_pose` with the factor 1.0. -/
theorem handCalls_transform (rt : ControllerReplies) (self : Api) (i : Nat)
    (hpose : (poseAt (fetchedStates rt).pose i).isActive = true)
    (hvalid : (rt.locate i).2.locationFlags &&& XR_SPACE_LOCATION_ORIENTATION_VALID_BIT ≠ 0) :
    (handCalls rt self i).filter isTransformUpdate =
      [Call.godot_arvr_set_controller_transform (self.godot_controllers.getD i 0)
        (transform_from_pose (rt.locate i).2.pose 1).2] := by
  rw [handCalls_tracked rt self i hpose hvalid]
  generalize ((floatAt (fetchedStates rt).trigger i).isActive &&
    (floatAt (fetchedStates rt).trigger i).changedSinceLastSync) = b1
  generalize ((booleanAt (fetchedStates rt).grab i).isActive &&
    (booleanAt (fetchedStates rt).grab i).changedSinceLastSync) = b2
  generalize ((booleanAt (fetchedStates rt).menu i).isActive &&
    (booleanAt (fetchedStates rt).menu i).changedSinceLastSync) = b3
  generalize ((floatAt (fetchedStates rt).thumbstickX i).isActive &&
    (floatAt (fetchedStates rt).thumbstickX i).changedSinceLastSync) = b4
  generalize ((floatAt (fetchedStates rt).thumbstickY i).isActive &&
    (floatAt (fetchedStates rt).thumbstickY i).changedSinceLastSync) = b5
  cases b1 <;> cases b2 <;> cases b3 <;> cases b4 <;> cases b5 <;> simp [isTransformUpdate]

/-- C15: in `update_controllers`, for a hand with an active pose, the
controller transform is forwarded (once) if and only if the flags of the
located space contain the orientation-valid bit; without that bit the calls of
the hand are the locate alone, so neither transform nor button or axis update
is forwarded; and two runtimes that differ for this hand only in flags with
the same orientation-valid bit (such as the position-valid bit) give the same
calls. -/
theorem orientation_bit_gates_hand (rt : ControllerReplies) (self : Api) (i : Nat)
    (hpose : (poseAt (fetchedStates rt).pose i).isActive = true) :
    ((∃ c ∈ handCalls rt self i, isTransformUpdate c = true) ↔
      (rt.locate i).2.locationFlags &&& XR_SPACE_LOCATION_ORIENTATION_VALID_BIT ≠ 0) ∧
    ((rt.locate i).2.locationFlags &&& XR_SPACE_LOCATION_ORIENTATION_VALID_BIT ≠ 0 →
      (handCalls rt self i).filter isTransformUpdate =
        [Call.godot_arvr_set_controller_transform (self.godot_controllers.getD i 0)
          (transform_from_pose (rt.locate i).2.pose 1).2]) ∧
    ((rt.locate i).2.locationFlags &&& XR_SPACE_LOCATION_ORIENTATION_VALID_BIT = 0 →
      handCalls rt self i =
        [Call.xrLocateSpace (self.handSpaces.getD i XR_NULL_HANDLE) self.play_space
          self.frameState.predictedDisplayTime] ∧
      ∀ c ∈ handCalls rt self i, isHostCall c = false) ∧
    (∀ rt2 : ControllerReplies, rt2.states = rt.states →
      (rt2.locate i).2.pose = (rt.locate i).2.pose →
      ((rt2.locate i).2.locationFlags &&& XR_SPACE_LOCATION_ORIENTATION_VALID_BIT ≠ 0 ↔
        (rt.locate i).2.locationFlags &&& XR_SPACE_LOCATION_ORIENTATION_VALID_BIT ≠ 0) →
      handCalls rt2 self i = handCalls rt self i) := by
  have hfilter := handCalls_transform rt self i hpose
  refine ⟨?_, hfilter, ?_, ?_⟩
  · constructor
    · rintro ⟨c, hc, htr⟩ hzero
      rw [handCalls_invalid rt self i hpose hzero] at hc
      simp only [List.mem_singleton] at hc
      subst hc
      simp [isTransformUpdate] at htr
    · intro hvalid
      have hmem : Call.godot_arvr_set_controller_transform (self.godot_controllers.getD i 0)
          (transform_from_pose (rt.locate i).2.pose 1).2 ∈
          (handCalls rt self i).filter isTransformUpdate := by
        rw [hfilter hvalid]; exact List.mem_singleton.mpr rfl
      exact ⟨_, (List.mem_filter.mp hmem).1, (List.mem_filter.mp hmem).2⟩
  · intro hzero
    rw [handCalls_invalid rt self i hpose hzero]
    exact ⟨rfl, by simp [isHostCall]⟩
  · intro rt2 hstates hposeEq hbit
    have hfs : fetchedStates rt2 = fetchedStates rt := by
      simp only [fetchedStates, hstates]
    by_cases hvalid :
        (rt.locate i).2.locationFlags &&& XR_SPACE_LOCATION_ORIENTATION_VALID_BIT = 0
    · have hvalid2 :
          (rt2.locate i).2.locationFlags &&& XR_SPACE_LOCATION_ORIENTATION_VALID_BIT = 0 := by
        by_contra hne
        exact (hbit.mp hne) hvalid
      rw [handCalls_invalid rt self i hpose hvalid,
        handCalls_invalid rt2 self i (by rw [hfs]; exact hpose) hvalid2]
    · rw [handCalls_tracked rt self i hpose hvalid,
        handCalls_tracked rt2 self i (by rw [hfs]; exact hpose) (hbit.mpr hvalid), hfs, hposeEq]

/-- Orientation-only tracking forwards the transform, position-only tracking
forwards nothing for the hand. -/
theorem orientation_bit_gates_hand_witness :
    (handCalls orientationOnly sampleApi 0).filter isTransformUpdate =
      [Call.godot_arvr_set_controller_transform 1 ⟨identityQuat, ⟨1 * 1, 2 * 1, 3 * 1⟩⟩] ∧
    handCalls positionOnly sampleApi 0 = [Call.xrLocateSpace 21 1 1000] :=
  ⟨(orientation_bit_gates_hand orientationOnly sampleApi 0 (by decide)).2.1 (by decide),
    ((orientation_bit_gates_hand positionOnly sampleApi 0 (by decide)).2.2.1 (by decide)).1⟩


/-! ## Validity of the located views -/

/-- The loop over the located views marks the poses invalid exactly when it
runs at least once and a valid flag is missing. -/
theorem poseInvalidLoop_eq (flags n : Nat) (b : Bool) :
    poseInvalidLoop flags n b =
      (b || (decide (n ≠ 0) &&
        decide (flags &&& XR_VIEW_STATE_ORIENTATION_VALID_BIT = 0 ∨
          flags &&& XR_VIEW_STATE_POSITION_VALID_BIT = 0))) := by
  induction n generalizing b with
  | zero => simp [poseInvalidLoop]
  | succ k ih =>
    simp only [poseInvalidLoop]
    split
    · rename_i h
      rw [ih]
      simp [h]
    · rename_i h
      rw [ih]
      simp [h]

/-- C16, as stated, fails: wait-frame and view locate succeed, the runtime
reports no view and neither valid flag, and `view_pose_valid` is true. -/
theorem zero_views_marked_valid :
    xr_result noViewsFrame.waitFrame.1 = true ∧
    xr_result noViewsFrame.locateViews.result = true ∧
    noViewsFrame.locateViews.viewCountOutput = 0 ∧
    noViewsFrame.locateViews.viewStateFlags &&& XR_VIEW_STATE_ORIENTATION_VALID_BIT = 0 ∧
    noViewsFrame.locateViews.viewStateFlags &&& XR_VIEW_STATE_POSITION_VALID_BIT = 0 ∧
    (process_openxr noViewsFrame sampleApi).api.view_pose_valid = true := by
  decide

/-- C16, amended: after every `process_openxr` call in which the event loop
ends with an empty queue and wait-frame and view locate succeed, for every
positive number of views the runtime reports, `view_pose_valid` is true if and
only if the runtime reported both the orientation-valid and the
position-valid flag; when the runtime reports zero views, `view_pose_valid`
is true whatever the flags. -/
theorem view_pose_validity (rt : ProcessReplies) (self : Api)
    (hdrain : (drainEvents rt.polls self).exit = LoopExit.pollResult XR_EVENT_UNAVAILABLE)
    (hwait : xr_result rt.waitFrame.1 = true)
    (hlocate : xr_result rt.locateViews.result = true) :
    (0 < rt.locateViews.viewCountOutput →
      ((process_openxr rt self).api.view_pose_valid = true ↔
        (rt.locateViews.viewStateFlags &&& XR_VIEW_STATE_ORIENTATION_VALID_BIT ≠ 0 ∧
          rt.locateViews.viewStateFlags &&& XR_VIEW_STATE_POSITION_VALID_BIT ≠ 0))) ∧
    (rt.locateViews.viewCountOutput = 0 →
      (process_openxr rt self).api.view_pose_valid = true) := by
  have hv : (process_openxr rt self).api.view_pose_valid =
      !poseInvalidLoop rt.locateViews.viewStateFlags rt.locateViews.viewCountOutput false := by
    simp [process_openxr, hdrain, hwait, hlocate]
  rw [hv, poseInvalidLoop_eq]
  constructor
  · intro hpos
    have hne : rt.locateViews.viewCountOutput ≠ 0 := by omega
    simp only [hne, ne_eq, not_false_eq_true, decide_True, Bool.true_and, Bool.false_or,
      Bool.not_eq_true', decide_eq_false_iff_not, not_or]
  · intro hzero
    simp [hzero]

/-- A frame of the quiet runtime, which reports two views with both flags. -/
theorem view_pose_validity_witness :
    (process_openxr quietFrame { sampleApi with view_pose_valid := false }).api.view_pose_valid
      = true :=
  ((view_pose_validity quietFrame { sampleApi with view_pose_valid := false } rfl (by decide)
    (by decide)).1 (by decide)).mpr (by decide)

/-! ## Unsuccessful init at the accessor -/

/-- C19: when the constructed object reports unsuccessful init,
`openxr_get_api` destroys it, returns `NULL` and leaves no live singleton, and
the next `openxr_get_api` call constructs afresh. A live singleton always
reports successful init (this holds with no singleton and is kept by every
acquisition and release), hence whenever `openxr_get_api` returns a non-`NULL`
object, that object is the singleton and `is_successful_init` on it is
true. -/
theorem get_api_init_contract (newResult : Option (Ptr × Api)) (w : World)
    (hinv : liveInitialised w) :
    liveInitialised (openxr_get_api newResult w).1 ∧
    liveInitialised (openxr_release_api w) ∧
    (∀ p, (openxr_get_api newResult w).2 = some p →
      ∃ obj, (openxr_get_api newResult w).1.singleton = some (p, obj) ∧
        is_successful_init obj = true) ∧
    (∀ p obj, w.singleton = none → newResult = some (p, obj) →
      is_successful_init obj = false →
      (openxr_get_api newResult w).2 = none ∧
      (openxr_get_api newResult w).1.singleton = none ∧
      (openxr_get_api newResult w).1.log =
        w.log ++ [LifeEvent.constructed p, LifeEvent.destroyed p] ∧
      ∀ p2 obj2, ∃ rest,
        (openxr_get_api (some (p2, obj2)) (openxr_get_api newResult w).1).1.log =
          (openxr_get_api newResult w).1.log ++ LifeEvent.constructed p2 :: rest) := by
  refine ⟨?_, ?_, ?_, ?_⟩
  · intro p obj hs
    cases hw : w.singleton with
    | some po =>
      obtain ⟨p0, obj0⟩ := po
      simp only [openxr_get_api, hw, Option.some.injEq, Prod.mk.injEq] at hs
      rw [← hs.2]
      exact hinv p0 obj0 hw
    | none =>
      cases hn : newResult with
      | none => simp [openxr_get_api, hw, hn] at hs
      | some po =>
        obtain ⟨p0, obj0⟩ := po
        by_cases hok : is_successful_init obj0 = true
        · simp only [openxr_get_api, hw, hn, hok, Bool.not_true, Bool.false_eq_true, if_false,
            Option.some.injEq, Prod.mk.injEq] at hs
          rw [← hs.2]
          exact hok
        · simp [openxr_get_api, hw, hn, hok] at hs
  · intro p obj hs
    cases hw : w.singleton with
    | none => simp [openxr_release_api, hw] at hs
    | some po =>
      obtain ⟨p0, obj0⟩ := po
      by_cases hc : obj0.use_count > 1
      · simp only [openxr_release_api, hw, hc, if_true, Option.some.injEq, Prod.mk.injEq] at hs
        rw [← hs.2]
        exact hinv p0 obj0 hw
      · simp [openxr_release_api, hw, hc] at hs
  · intro p hret
    cases hw : w.singleton with
    | some po =>
      obtain ⟨p0, obj0⟩ := po
      simp only [openxr_get_api, hw, Option.some.injEq] at hret ⊢
      subst hret
      exact ⟨_, rfl, hinv p0 obj0 hw⟩
    | none =>
      cases hn : newResult with
      | none => simp [openxr_get_api, hw, hn] at hret
      | some po =>
        obtain ⟨p0, obj0⟩ := po
        by_cases hok : is_successful_init obj0 = true
        · simp only [openxr_get_api, hw, hn, hok, Bool.not_true, Bool.false_eq_true, if_false,
            Option.some.injEq] at hret ⊢
          subst hret
          exact ⟨obj0, rfl, hok⟩
        · simp [openxr_get_api, hw, hn, hok] at hret
  · intro p obj hw hn hfail
    have h1 : openxr_get_api newResult w =
        ({ singleton := none,
           log := w.log ++ [LifeEvent.constructed p, LifeEvent.destroyed p] }, none) := by
      simp [openxr_get_api, hw, hn, hfail]
    rw [h1]
    refine ⟨rfl, rfl, rfl, ?_⟩
    intro p2 obj2
    by_cases hok : is_successful_init obj2 = true
    · exact ⟨[], by simp [openxr_get_api, hok]⟩
    · exact ⟨[LifeEvent.destroyed p2], by simp [openxr_get_api, hok]⟩

/-- A first acquisition whose construction fails, then one that succeeds. -/
theorem get_api_init_contract_witness :
    (openxr_get_api (some (7, failedInitApi)) ⟨none, []⟩).2 = none ∧
    (openxr_get_api (some (7, failedInitApi)) ⟨none, []⟩).1.singleton = none ∧
    (openxr_get_api (some (7, failedInitApi)) ⟨none, []⟩).1.log =
      [LifeEvent.constructed 7, LifeEvent.destroyed 7] ∧
    (openxr_get_api (some (8, sampleApi))
      (openxr_get_api (some (7, failedInitApi)) ⟨none, []⟩).1).2 = some 8 :=
  have h := (get_api_init_contract (some (7, failedInitApi)) ⟨none, []⟩
    (by intro p obj hs; simp at hs)).2.2.2 7 failedInitApi rfl rfl rfl
  ⟨h.1, h.2.1, h.2.2.1, by decide⟩


/-! ## World scale -/

/-- C20, as stated, fails: `update_controllers` takes no world-scale factor.
With the hand located at (1, 2, 3) the forwarded origin is (1, 2, 3) also when
the caller works with a world scale of 2, for which `transform_from_pose`
gives (2, 4, 6) and `get_view_transform` scales the eye position by 2. -/
theorem controller_origin_unscaled :
    (handCalls trackedControllers sampleApi 0).filter isTransformUpdate =
      [Call.godot_arvr_set_controller_transform 1 ⟨identityQuat, ⟨1, 2, 3⟩⟩] ∧
    (transform_from_pose ⟨identityQuat, ⟨1, 2, 3⟩⟩ 2).2.origin = ⟨2, 4, 6⟩ ∧
    (⟨1, 2, 3⟩ : XrVector3f) ≠ ⟨2, 4, 6⟩ ∧
    get_view_transform 0 2 sampleApi = (true, some ⟨identityQuat, ⟨-2, 0, 0⟩⟩) := by
  refine ⟨?_, ?_, by decide, ?_⟩
  · have h : handCalls trackedControllers sampleApi 0 =
        [Call.xrLocateSpace 21 1 1000,
          Call.godot_arvr_set_controller_transform 1 ⟨identityQuat, ⟨1 * 1, 2 * 1, 3 * 1⟩⟩,
          Call.godot_arvr_set_controller_button 1 triggerButton true,
          Call.godot_arvr_set_controller_button 1 menuButton true,
          Call.godot_arvr_set_controller_axis 1 0 0.25,
          Call.godot_arvr_set_controller_axis 1 1 (-0.6)] := rfl
    rw [h]
    simp [isTransformUpdate]
  · simp [transform_from_pose]
    norm_num
  · simp [get_view_transform, sampleApi, transform_from_pose, leftView]

/-- C20, amended: for every tracked hand (pose active, orientation valid), the
controller transform that `update_controllers` forwards to the host has as
origin the located pose position multiplied componentwise by the constant
1.0, that is the position itself: the function takes no world-scale factor
from its caller. `transform_from_pose` always returns true and multiplies the
position componentwise by the factor it is given, and `get_view_transform`
and `get_head_center` pass it the world scale supplied by their caller. -/
theorem controller_origin (rt : ControllerReplies) (self : Api) (i : Nat)
    (hpose : (poseAt (fetchedStates rt).pose i).isActive = true)
    (hvalid : (rt.locate i).2.locationFlags &&& XR_SPACE_LOCATION_ORIENTATION_VALID_BIT ≠ 0) :
    (handCalls rt self i).filter isTransformUpdate =
      [Call.godot_arvr_set_controller_transform (self.godot_controllers.getD i 0)
        ⟨(rt.locate i).2.pose.orientation,
          ⟨(rt.locate i).2.pose.position.x * 1, (rt.locate i).2.pose.position.y * 1,
            (rt.locate i).2.pose.position.z * 1⟩⟩] ∧
    (⟨(rt.locate i).2.pose.position.x * 1, (rt.locate i).2.pose.position.y * 1,
        (rt.locate i).2.pose.position.z * 1⟩ : XrVector3f) = (rt.locate i).2.pose.position ∧
    (∀ (pose : XrPosef) (p_world_scale : XrFloat),
      (transform_from_pose pose p_world_scale).1 = true ∧
      (transform_from_pose pose p_world_scale).2.origin =
        ⟨pose.position.x * p_world_scale, pose.position.y * p_world_scale,
          pose.position.z * p_world_scale⟩) ∧
    (∀ (eye : Nat) (world_scale : XrFloat) (t : godot_transform),
      get_view_transform eye world_scale self = (true, some t) →
      t = (transform_from_pose ((self.views.getD []).getD eye defaultView).pose world_scale).2) ∧
    (∀ (loc : XrResult × XrSpaceLocation) (world_scale : XrFloat),
      (get_head_center loc world_scale self).1 = true →
      (get_head_center loc world_scale self).2.1 =
        some (transform_from_pose loc.2.pose world_scale).2) := by
  refine ⟨?_, ?_, fun _ _ => ⟨rfl, rfl⟩, ?_, ?_⟩
  · exact handCalls_transform rt self i hpose hvalid
  · simp
  · intro eye ws t h
    unfold get_view_transform at h
    split at h
    · simp at h
    · split at h
      · simp at h
      · simp only [Prod.mk.injEq, Option.some.injEq, true_and] at h
        exact h.symm
  · intro loc ws h
    unfold get_head_center at h ⊢
    split
    · rename_i h0; simp [h0] at h
    · rename_i h0
      simp only [h0, if_false] at h
      split
      · rename_i h1; simp [h1] at h
      · rename_i h1
        simp only [h1, if_false] at h
        split
        · rename_i h2; simp [h2] at h
        · rfl

/-- The tracking runtime on the sample object: the hand located at (1, 2, 3)
reaches the host with the origin (1, 2, 3). -/
theorem controller_origin_witness :
    (handCalls trackedControllers sampleApi 0).filter isTransformUpdate =
      [Call.godot_arvr_set_controller_transform 1 ⟨identityQuat, ⟨1 * 1, 2 * 1, 3 * 1⟩⟩] ∧
    (⟨1 * 1, 2 * 1, 3 * 1⟩ : XrVector3f) = ⟨1, 2, 3⟩ :=
  ⟨(controller_origin trackedControllers sampleApi 0 (by decide) (by decide)).1,
    (controller_origin trackedControllers sampleApi 0 (by decide) (by decide)).2.1⟩

/-! ## Failures during setup -/

/-- A failed count query makes `isReferenceSpaceSupported` return true. -/
theorem isReferenceSpaceSupported_count_failure (rt : EnumerateReply) (type : Int)
    (h : xr_result rt.countResult = false) :
    isReferenceSpaceSupported rt type = (true, [Call.xrEnumerateReferenceSpaces 0]) := by
  simp [isReferenceSpaceSupported, h]

/-- A failed list query makes `isReferenceSpaceSupported` return false. -/
theorem isReferenceSpaceSupported_list_failure (rt : EnumerateReply) (type : Int)
    (h1 : xr_result rt.countResult = true) (h2 : xr_result rt.listResult = false) :
    (isReferenceSpaceSupported rt type).1 = false := by
  simp [isReferenceSpaceSupported, h1, h2]

/-- C11: evaluation at the failing input. When the count query of
`xrEnumerateReferenceSpaces` fails, `isReferenceSpaceSupported` returns true
after that one call; the constructor then goes on to create the play space
and, the other calls succeeding, ends with `successful_init = true`. When
the list query fails the function returns false and the constructor leaves
with `successful_init = false`. -/
theorem reference_space_count_failure :
    xr_result playSpaceCountFails.playSpaces.countResult = false ∧
    isReferenceSpaceSupported playSpaceCountFails.playSpaces XR_REFERENCE_SPACE_TYPE_LOCAL =
      (true, [Call.xrEnumerateReferenceSpaces 0]) ∧
    (construct playSpaceCountFails blankApi).returned = false ∧
    (construct playSpaceCountFails blankApi).self.successful_init = true ∧
    (isReferenceSpaceSupported playSpaceListFails.playSpaces XR_REFERENCE_SPACE_TYPE_LOCAL).1
      = false ∧
    (construct playSpaceListFails blankApi).returned = true ∧
    (construct playSpaceListFails blankApi).self.successful_init = false := by
  decide

/-- The value of `suggestActions` is decided by `xrStringToPath` alone. -/
theorem suggestActions_result (rt : SuggestReply) (interaction_profile : String)
    (actions : List Nat) (paths : List (List XrPath)) (num_actions : Nat) :
    (suggestActions rt interaction_profile actions paths num_actions).1 =
      xr_result rt.stringToPath.1 := by
  unfold suggestActions
  cases h : xr_result rt.stringToPath.1 <;> simp [h]

/-- C17: evaluation at the failing input. With the profile path converted and
`xrSuggestInteractionProfileBindings` returning a failure code,
`suggestActions` makes the call and returns true; with every batch rejected
the constructor still reaches its end with `successful_init = true`. -/
theorem rejected_bindings_accepted :
    xr_result failed = false ∧
    suggestActions ⟨(XR_SUCCESS, 43), failed⟩ "/interaction_profiles/khr/simple_controller"
        [34, 31] [[3, 4], [1, 2]] 2 =
      (true, [Call.xrStringToPath "/interaction_profiles/khr/simple_controller",
        Call.xrSuggestInteractionProfileBindings 43
          [some (34, 3), some (34, 4), some (31, 1), some (31, 2)]]) ∧
    (construct bindingsRejected blankApi).returned = false ∧
    (construct bindingsRejected blankApi).self.successful_init = true := by
  decide

/-- C18: evaluation at the failing input. When `xrCreateAction` fails for the
menu action only, `createAction` returns `NULL` for it, the constructor stores
`NULL` in `actions[MENU_ACTION_INDEX]`, suggests the bindings of all three
profiles and ends with `successful_init = true`. When it fails for the grab
action only, the constructor leaves before any binding is suggested, with
`successful_init = false`. -/
theorem menu_action_failure_accepted :
    createAction (menuActionFails.createAction "menu") XR_ACTION_TYPE_BOOLEAN_INPUT "menu" =
      (XR_NULL_HANDLE, [Call.xrCreateAction "menu" XR_ACTION_TYPE_BOOLEAN_INPUT]) ∧
    (construct menuActionFails blankApi).self.actions = [31, 32, XR_NULL_HANDLE, 34, 35, 36] ∧
    ((construct menuActionFails blankApi).trace.filter isSuggestCall).length = 3 ∧
    is_successful_init (construct menuActionFails blankApi).self = true ∧
    (construct grabActionFails blankApi).returned = true ∧
    (construct grabActionFails blankApi).trace.filter isSuggestCall = [] ∧
    is_successful_init (construct grabActionFails blankApi).self = false := by
  decide


/-! ## The constructor leaves with `successful_init` false -/

/-- Once `return` was executed no later part of the constructor does
anything. -/
theorem parts_skip_after_return (rt : SetupReplies) (c : Construction)
    (h : c.returned = true) :
    createInstance rt c = c ∧ selectSystem rt c = c ∧ configureViews rt c = c ∧
    createSession rt c = c ∧ createSpaces rt c = c ∧ createSwapchains rt c = c ∧
    prepareFrameData c = c ∧ createActions rt c = c ∧ suggestBindings rt c = c ∧
    finishSetup rt c = c := by
  refine ⟨?_, ?_, ?_, ?_, ?_, ?_, ?_, ?_, ?_, ?_⟩ <;>
    simp [createInstance, selectSystem, configureViews, createSession, createSpaces,
      createSwapchains, prepareFrameData, createActions, suggestBindings, finishSetup, h]

/-- The part creating the instance does not write `successful_init`. -/
theorem createInstance_init (rt : SetupReplies) (c : Construction) :
    (createInstance rt c).self.successful_init = c.self.successful_init := by
  unfold createInstance
  dsimp only
  split_ifs <;> rfl

/-- The part selecting the system does not write `successful_init`. -/
theorem selectSystem_init (rt : SetupReplies) (c : Construction) :
    (selectSystem rt c).self.successful_init = c.self.successful_init := by
  unfold selectSystem
  dsimp only
  split_ifs <;> rfl

/-- The part configuring the views does not write `successful_init`. -/
theorem configureViews_init (rt : SetupReplies) (c : Construction) :
    (configureViews rt c).self.successful_init = c.self.successful_init := by
  unfold configureViews
  dsimp only
  split_ifs <;> rfl

/-- The part creating the session does not write `successful_init`. -/
theorem createSession_init (rt : SetupReplies) (c : Construction) :
    (createSession rt c).self.successful_init = c.self.successful_init := by
  unfold createSession
  dsimp only
  split_ifs <;> rfl

/-- The part creating the spaces does not write `successful_init`. -/
theorem createSpaces_init (rt : SetupReplies) (c : Construction) :
    (createSpaces rt c).self.successful_init = c.self.successful_init := by
  unfold createSpaces
  dsimp only
  split_ifs <;> rfl

/-- The part creating the swapchains does not write `successful_init`. -/
theorem createSwapchains_init (rt : SetupReplies) (c : Construction) :
    (createSwapchains rt c).self.successful_init = c.self.successful_init := by
  unfold createSwapchains
  dsimp only
  split_ifs <;> rfl

/-- The part preparing the frame data does not write `successful_init`. -/
theorem prepareFrameData_init (c : Construction) :
    (prepareFrameData c).self.successful_init = c.self.successful_init := by
  unfold prepareFrameData
  dsimp only
  split_ifs <;> rfl

/-- Creating one action does not write `successful_init`. -/
theorem createCheckedAction_init (rt : SetupReplies) (index : Nat) (actionType : Int)
    (name : String) (checked : Nat) (c : Construction) :
    (createCheckedAction rt index actionType name checked c).self.successful_init =
      c.self.successful_init := by
  unfold createCheckedAction
  dsimp only
  split_ifs <;> rfl

/-- The part creating the actions does not write `successful_init`. -/
theorem createActions_init (rt : SetupReplies) (c : Construction) :
    (createActions rt c).self.successful_init = c.self.successful_init := by
  unfold createActions
  dsimp only
  split_ifs
  · rfl
  · rfl
  · simp only [createCheckedAction_init]
    rfl

/-- The part suggesting the bindings does not write `successful_init`. -/
theorem suggestBindings_init (rt : SetupReplies) (c : Construction) :
    (suggestBindings rt c).self.successful_init = c.self.successful_init := by
  unfold suggestBindings
  dsimp only
  split_ifs <;> rfl

/-- The last part sets `successful_init` exactly when it runs to its end. -/
theorem finishSetup_init (rt : SetupReplies) (c : Construction)
    (h : c.self.successful_init = false) :
    (finishSetup rt c).self.successful_init = !(finishSetup rt c).returned := by
  unfold finishSetup
  dsimp only
  split_ifs <;> simp_all [Construction.leave, Construction.call, Construction.calls,
    Construction.assign]

/-- The constructor ends with `successful_init` true exactly when it did not
leave with `return` before its end. -/
theorem construct_success_iff (rt : SetupReplies) (init : Api) :
    (construct rt init).self.successful_init = !(construct rt init).returned := by
  unfold construct
  apply finishSetup_init
  rw [suggestBindings_init, createActions_init, prepareFrameData_init, createSwapchains_init,
    createSpaces_init, createSession_init, configureViews_init, selectSystem_init,
    createInstance_init]
  rfl


/-- When the list query for the reference spaces of the play space fails
(after a successful count query), the constructor leaves with
`successful_init` false, whatever else the runtime answers. -/
theorem play_space_list_failure_aborts (rt : SetupReplies) (init : Api)
    (h1 : xr_result rt.playSpaces.countResult = true)
    (h2 : xr_result rt.playSpaces.listResult = false) :
    (construct rt init).returned = true ∧ (construct rt init).self.successful_init = false := by
  have hspaces : ∀ c : Construction, (createSpaces rt c).returned = true := by
    intro c
    unfold createSpaces
    by_cases hc : c.returned = true
    · simp [hc]
    · simp [hc, isReferenceSpaceSupported, h1, h2, Construction.leave]
  have hret : (construct rt init).returned = true := by
    unfold construct
    generalize createSession rt (configureViews rt (selectSystem rt (createInstance rt
      (beginConstruction init)))) = c
    have h := hspaces c
    obtain ⟨_, _, _, _, _, e6, _, _, _, _⟩ := parts_skip_after_return rt _ h
    rw [e6]
    obtain ⟨_, _, _, _, _, _, e7, e8, e9, e10⟩ := parts_skip_after_return rt _ h
    rw [e7, e8, e9, e10]
    exact h
  exact ⟨hret, by rw [construct_success_iff, hret]; rfl⟩

/-- When `xrCreateAction` fails for an action whose test reads the element
just written, the constructor has left after that test. -/
theorem createCheckedAction_leaves (rt : SetupReplies) (index : Nat) (actionType : Int)
    (name : String) (c : Construction) (h : xr_result (rt.createAction name).1 = false) :
    (createCheckedAction rt index actionType name index c).returned = true := by
  unfold createCheckedAction
  by_cases hc : c.returned = true
  · simp [hc]
  · have hnull : ((c.self.actions.set index XR_NULL_HANDLE)[index]?).getD XR_NULL_HANDLE
        = XR_NULL_HANDLE := by
      rw [List.getElem?_set]
      simp only [if_true]
      split <;> rfl
    simp [hc, createAction, h, Construction.assign, Construction.calls, Construction.leave,
      hnull]

/-- Creating an action keeps a `return` that was executed before. -/
theorem createCheckedAction_returned (rt : SetupReplies) (index : Nat) (actionType : Int)
    (name : String) (checked : Nat) (c : Construction) (h : c.returned = true) :
    (createCheckedAction rt index actionType name checked c).returned = true := by
  simp [createCheckedAction, h]

/-- When `xrCreateAction` fails for the trigger, grab, pose, thumbstick-x or
thumbstick-y action, the constructor leaves with `successful_init` false,
whatever else the runtime answers. -/
theorem action_failure_aborts (rt : SetupReplies) (init : Api)
    (h : xr_result (rt.createAction "trigger").1 = false ∨
      xr_result (rt.createAction "grab").1 = false ∨
      xr_result (rt.createAction "handpose").1 = false ∨
      xr_result (rt.createAction "thumbstick_x").1 = false ∨
      xr_result (rt.createAction "thumbstick_y").1 = false) :
    (construct rt init).returned = true ∧ (construct rt init).self.successful_init = false := by
  have hactions : ∀ c : Construction, (createActions rt c).returned = true := by
    intro c
    unfold createActions
    by_cases hc : c.returned = true
    · simp [hc]
    · by_cases hset : xr_result rt.createActionSet = true
      · simp only [hc, hset, Bool.not_true, Bool.false_eq_true, if_false]
        rcases h with h | h | h | h | h
        · exact createCheckedAction_returned _ _ _ _ _ _
            (createCheckedAction_returned _ _ _ _ _ _
              (createCheckedAction_returned _ _ _ _ _ _
                (createCheckedAction_returned _ _ _ _ _ _
                  (createCheckedAction_returned _ _ _ _ _ _
                    (createCheckedAction_leaves rt _ _ _ _ h)))))
        · exact createCheckedAction_returned _ _ _ _ _ _
            (createCheckedAction_returned _ _ _ _ _ _
              (createCheckedAction_returned _ _ _ _ _ _
                (createCheckedAction_returned _ _ _ _ _ _
                  (createCheckedAction_leaves rt _ _ _ _ h))))
        · exact createCheckedAction_returned _ _ _ _ _ _
            (createCheckedAction_returned _ _ _ _ _ _
              (createCheckedAction_leaves rt _ _ _ _ h))
        · exact createCheckedAction_returned _ _ _ _ _ _
            (createCheckedAction_leaves rt _ _ _ _ h)
        · exact createCheckedAction_leaves rt _ _ _ _ h
      · simp [hc, hset, Construction.leave]
  have hret : (construct rt init).returned = true := by
    unfold construct
    generalize prepareFrameData (createSwapchains rt (createSpaces rt (createSession rt
      (configureViews rt (selectSystem rt (createInstance rt (beginConstruction init))))))) = c
    have hc := hactions c
    obtain ⟨_, _, _, _, _, _, _, _, e9, e10⟩ := parts_skip_after_return rt _ hc
    rw [e9, e10]
    exact hc
  exact ⟨hret, by rw [construct_success_iff, hret]; rfl⟩

/-! ## The choice of the swapchain format is the first match -/

/-- The loop of the constructor past a run of unwanted formats. -/
theorem swapchainFormatLoop_skip (pre rest : List Int)
    (hpre : ∀ x ∈ pre, isWantedFormat x = false) :
    swapchainFormatLoop (pre ++ rest) 0 = swapchainFormatLoop rest 0 := by
  induction pre with
  | nil => rfl
  | cons x xs ih =>
    have hx : ¬ (x = GL_SRGB8_ALPHA8 ∨ x = GL_RGBA8) := by
      have := hpre x (List.mem_cons_self _ _)
      simpa [isWantedFormat] using this
    rw [List.cons_append, swapchainFormatLoop_cons, if_neg hx]
    exact ih (fun y hy => hpre y (List.mem_cons_of_mem _ hy))

/-- C27: for every non-empty list of runtime swapchain formats the
constructor chooses a member of the list. When the list is a run of unwanted
formats, then a format equal to `GL_SRGB8_ALPHA8` or `GL_RGBA8`, then anything
(so that format is the one at the smallest index with such a value), that
format is chosen whatever follows it: the scan stops at the first match.
When no element has such a value the element at index 0 is chosen. -/
theorem format_first_match (formats : List Int) (hne : formats ≠ []) :
    (∃ f, selectSwapchainFormat formats = some f ∧ f ∈ formats) ∧
    (∀ pre m post, formats = pre ++ m :: post → (∀ x ∈ pre, isWantedFormat x = false) →
      isWantedFormat m = true →
      selectSwapchainFormat formats = some m ∧ formats.get? pre.length = some m ∧
      (∀ j, j < pre.length → ∃ x, formats.get? j = some x ∧ isWantedFormat x = false) ∧
      ∀ post2, selectSwapchainFormat (pre ++ m :: post2) = some m) ∧
    ((∀ x ∈ formats, isWantedFormat x = false) →
      selectSwapchainFormat formats = formats.get? 0) := by
  have hmatch : ∀ (pre : List Int) (m : Int) (post : List Int),
      (∀ x ∈ pre, isWantedFormat x = false) → isWantedFormat m = true →
      selectSwapchainFormat (pre ++ m :: post) = some m := by
    intro pre m post hpre hm
    have hm2 : m = GL_SRGB8_ALPHA8 ∨ m = GL_RGBA8 := by simpa [isWantedFormat] using hm
    have hloop : swapchainFormatLoop (pre ++ m :: post) 0 = m := by
      rw [swapchainFormatLoop_skip pre _ hpre, swapchainFormatLoop_cons, if_pos hm2]
    have hnz : m ≠ 0 := by
      rcases hm2 with h | h <;> rw [h] <;> decide
    simp only [selectSwapchainFormat, hloop]
    rw [if_neg hnz]
  have hnone : (∀ x ∈ formats, isWantedFormat x = false) →
      selectSwapchainFormat formats = formats.get? 0 := by
    intro hall
    have hloop : swapchainFormatLoop formats 0 = 0 := by
      have := swapchainFormatLoop_skip formats [] hall
      simpa [swapchainFormatLoop] using this
    simp only [selectSwapchainFormat, hloop, if_true]
    cases formats <;> rfl
  refine ⟨?_, ?_, hnone⟩
  · by_cases hall : ∀ x ∈ formats, isWantedFormat x = false
    · cases formats with
      | nil => exact absurd rfl hne
      | cons x xs => exact ⟨x, by rw [hnone hall]; rfl, List.mem_cons_self _ _⟩
    · have hex : ∃ x ∈ formats, isWantedFormat x = true := by
        by_contra hno
        apply hall
        intro x hx
        by_contra hx2
        exact hno ⟨x, hx, by simpa using hx2⟩
      have hsplit : ∀ l : List Int, (∃ x ∈ l, isWantedFormat x = true) →
          ∃ pre m post, l = pre ++ m :: post ∧ (∀ x ∈ pre, isWantedFormat x = false) ∧
            isWantedFormat m = true := by
        intro l
        induction l with
        | nil => rintro ⟨x, hx, _⟩; simp at hx
        | cons y ys ih =>
          intro hl
          by_cases hy : isWantedFormat y = true
          · exact ⟨[], y, ys, rfl, by simp, hy⟩
          · obtain ⟨x, hx, hxw⟩ := hl
            have hxys : x ∈ ys := by
              rcases List.mem_cons.mp hx with h | h
              · subst h; exact absurd hxw hy
              · exact h
            obtain ⟨pre, m, post, hl2, hpre, hm⟩ := ih ⟨x, hxys, hxw⟩
            refine ⟨y :: pre, m, post, by simp [hl2], ?_, hm⟩
            intro z hz
            rcases List.mem_cons.mp hz with h | h
            · subst h; simpa using hy
            · exact hpre z h
      obtain ⟨pre, m, post, hl, hpre, hm⟩ := hsplit formats hex
      refine ⟨m, by rw [hl]; exact hmatch pre m post hpre hm, ?_⟩
      rw [hl]
      simp
  · intro pre m post hl hpre hm
    refine ⟨by rw [hl]; exact hmatch pre m post hpre hm, ?_, ?_, fun post2 =>
      hmatch pre m post2 hpre hm⟩
    · rw [hl, List.get?_eq_getElem?, List.getElem?_append_right (le_refl _)]
      simp
    · intro j hj
      have hjl : j < pre.length := hj
      refine ⟨pre.get ⟨j, hjl⟩, ?_, hpre _ (List.get_mem _ _ _)⟩
      rw [hl, List.get?_eq_getElem?, List.getElem?_append_left hjl]
      simp

/-- A list with the linear format at index 1 and the sRGB format behind it:
the element at index 1 is chosen. -/
theorem format_first_match_witness :
    selectSwapchainFormat [0x881A, GL_RGBA8, GL_SRGB8_ALPHA8] = some GL_RGBA8 ∧
    [0x881A, GL_RGBA8, GL_SRGB8_ALPHA8].get? 1 = some GL_RGBA8 :=
  have h := (format_first_match [0x881A, GL_RGBA8, GL_SRGB8_ALPHA8] (by decide)).2.1
    [0x881A] GL_RGBA8 [GL_SRGB8_ALPHA8] rfl (by decide) (by decide)
  ⟨h.1, h.2.1⟩

/-! ## The zero display time sentinel -/

/-- C24: while `frameState.predictedDisplayTime` is 0, `update_controllers`
makes no call at all (no runtime call, nothing forwarded to the host), and
`get_view_transform` and `get_head_center` return false without writing the
output transform and without a call. `get_view_transform` returns true exactly
when the time is not 0, `views` is not NULL and `view_pose_valid` is true, and
it then writes the transform of the eye's view pose. -/
theorem zero_display_time_sentinel (rt : ControllerReplies) (loc : XrResult × XrSpaceLocation)
    (eye : Nat) (world_scale : XrFloat) (self : Api) :
    (self.frameState.predictedDisplayTime = 0 →
      update_controllers rt self = [] ∧
      get_view_transform eye world_scale self = (false, none) ∧
      get_head_center loc world_scale self = (false, none, [])) ∧
    ((get_view_transform eye world_scale self).1 = true ↔
      self.frameState.predictedDisplayTime ≠ 0 ∧ self.views.isSome = true ∧
        self.view_pose_valid = true) ∧
    ((get_view_transform eye world_scale self).1 = false →
      (get_view_transform eye world_scale self).2 = none) ∧
    ((get_view_transform eye world_scale self).1 = true →
      (get_view_transform eye world_scale self).2 =
        some (transform_from_pose ((self.views.getD []).getD eye defaultView).pose
          world_scale).2) := by
  refine ⟨?_, ?_, ?_, ?_⟩
  · intro h
    simp [update_controllers, get_view_transform, get_head_center, h]
  · unfold get_view_transform
    by_cases h : self.frameState.predictedDisplayTime = 0
    · simp [h]
    · cases hv : self.views <;> cases hp : self.view_pose_valid <;> simp [h]
  · unfold get_view_transform
    by_cases h : self.frameState.predictedDisplayTime = 0
    · simp [h]
    · cases hv : self.views <;> cases hp : self.view_pose_valid <;> simp [h]
  · unfold get_view_transform
    by_cases h : self.frameState.predictedDisplayTime = 0
    · simp [h]
    · cases hv : self.views <;> cases hp : self.view_pose_valid <;> simp [h]

/-- The sample object before any frame was waited for: nothing is called and
both queries return false; after a frame the view query returns true. -/
theorem zero_display_time_sentinel_witness :
    (update_controllers trackedControllers notWaitedApi = [] ∧
      get_view_transform 0 1 notWaitedApi = (false, none) ∧
      get_head_center (trackedControllers.locate 0) 1 notWaitedApi = (false, none, [])) ∧
    (get_view_transform 0 1 sampleApi).1 = true :=
  ⟨(zero_display_time_sentinel trackedControllers (trackedControllers.locate 0) 0 1
      notWaitedApi).1 rfl,
    (zero_display_time_sentinel trackedControllers (trackedControllers.locate 0) 0 1
      sampleApi).2.1.mpr ⟨by decide, rfl, rfl⟩⟩

/-! ## The result of `getActionStates` -/

/-- C25: `getActionStates` returns `XR_ERROR_ACTION_TYPE_MISMATCH` if and only
if the requested type is none of float, boolean and pose, and it then makes no
call and leaves the buffer as it was. For each of the three recognised types it
returns `XR_SUCCESS` after one query per hand, in hand order, having filled
the first `HANDCOUNT` elements of the buffer with what the runtime wrote, and
the state of a hand whose query failed has `isActive = false`. -/
theorem getActionStates_result (rt : StateReplies) (action : Nat)
    (actionStateType : XrStructureType) (d0 d1 : ActionState) (rest : List ActionState) :
    ((getActionStates rt action actionStateType (d0 :: d1 :: rest)).1 =
        XR_ERROR_ACTION_TYPE_MISMATCH ↔
      actionStateType ≠ XR_TYPE_ACTION_STATE_FLOAT ∧
        actionStateType ≠ XR_TYPE_ACTION_STATE_BOOLEAN ∧
        actionStateType ≠ XR_TYPE_ACTION_STATE_POSE) ∧
    (actionStateType ≠ XR_TYPE_ACTION_STATE_FLOAT ∧
        actionStateType ≠ XR_TYPE_ACTION_STATE_BOOLEAN ∧
        actionStateType ≠ XR_TYPE_ACTION_STATE_POSE →
      getActionStates rt action actionStateType (d0 :: d1 :: rest) =
        (XR_ERROR_ACTION_TYPE_MISMATCH, d0 :: d1 :: rest, [])) ∧
    getActionStates rt action XR_TYPE_ACTION_STATE_FLOAT (d0 :: d1 :: rest) =
      (XR_SUCCESS,
        ActionState.float (floatAnswer (rt.float 0)) ::
          ActionState.float (floatAnswer (rt.float 1)) :: rest,
        [Call.xrGetActionStateFloat action 0, Call.xrGetActionStateFloat action 1]) ∧
    getActionStates rt action XR_TYPE_ACTION_STATE_BOOLEAN (d0 :: d1 :: rest) =
      (XR_SUCCESS,
        ActionState.boolean (booleanAnswer (rt.boolean 0)) ::
          ActionState.boolean (booleanAnswer (rt.boolean 1)) :: rest,
        [Call.xrGetActionStateBoolean action 0, Call.xrGetActionStateBoolean action 1]) ∧
    getActionStates rt action XR_TYPE_ACTION_STATE_POSE (d0 :: d1 :: rest) =
      (XR_SUCCESS,
        ActionState.pose (poseAnswer (rt.pose 0)) ::
          ActionState.pose (poseAnswer (rt.pose 1)) :: rest,
        [Call.xrGetActionStatePose action 0, Call.xrGetActionStatePose action 1]) ∧
    (∀ i, xr_result (rt.float i).1 = false → (floatAnswer (rt.float i)).isActive = false) ∧
    (∀ i, xr_result (rt.boolean i).1 = false → (booleanAnswer (rt.boolean i)).isActive = false) ∧
    (∀ i, xr_result (rt.pose i).1 = false → (poseAnswer (rt.pose i)).isActive = false) ∧
    (∀ i, xr_result (rt.float i).1 = true → floatAnswer (rt.float i) = (rt.float i).2) ∧
    (∀ i, xr_result (rt.boolean i).1 = true → booleanAnswer (rt.boolean i) = (rt.boolean i).2) ∧
    (∀ i, xr_result (rt.pose i).1 = true → poseAnswer (rt.pose i) = (rt.pose i).2) := by
  have hf : getActionStates rt action XR_TYPE_ACTION_STATE_FLOAT (d0 :: d1 :: rest) =
      (XR_SUCCESS,
        ActionState.float (floatAnswer (rt.float 0)) ::
          ActionState.float (floatAnswer (rt.float 1)) :: rest,
        [Call.xrGetActionStateFloat action 0, Call.xrGetActionStateFloat action 1]) := by
    simp [getActionStates, HANDCOUNT, getActionStatesFrom, getActionStateFor, floatAnswer]
  have hb : getActionStates rt action XR_TYPE_ACTION_STATE_BOOLEAN (d0 :: d1 :: rest) =
      (XR_SUCCESS,
        ActionState.boolean (booleanAnswer (rt.boolean 0)) ::
          ActionState.boolean (booleanAnswer (rt.boolean 1)) :: rest,
        [Call.xrGetActionStateBoolean action 0, Call.xrGetActionStateBoolean action 1]) := by
    simp [getActionStates, HANDCOUNT, getActionStatesFrom, getActionStateFor, booleanAnswer,
      XR_TYPE_ACTION_STATE_BOOLEAN, XR_TYPE_ACTION_STATE_FLOAT]
  have hp : getActionStates rt action XR_TYPE_ACTION_STATE_POSE (d0 :: d1 :: rest) =
      (XR_SUCCESS,
        ActionState.pose (poseAnswer (rt.pose 0)) ::
          ActionState.pose (poseAnswer (rt.pose 1)) :: rest,
        [Call.xrGetActionStatePose action 0, Call.xrGetActionStatePose action 1]) := by
    simp [getActionStates, HANDCOUNT, getActionStatesFrom, getActionStateFor, poseAnswer,
      XR_TYPE_ACTION_STATE_BOOLEAN, XR_TYPE_ACTION_STATE_FLOAT, XR_TYPE_ACTION_STATE_POSE]
  have hm : actionStateType ≠ XR_TYPE_ACTION_STATE_FLOAT ∧
        actionStateType ≠ XR_TYPE_ACTION_STATE_BOOLEAN ∧
        actionStateType ≠ XR_TYPE_ACTION_STATE_POSE →
      getActionStates rt action actionStateType (d0 :: d1 :: rest) =
        (XR_ERROR_ACTION_TYPE_MISMATCH, d0 :: d1 :: rest, []) := by
    rintro ⟨h1, h2, h3⟩
    simp [getActionStates, HANDCOUNT, getActionStatesFrom, getActionStateFor, h1, h2, h3]
  refine ⟨?_, hm, hf, hb, hp, ?_, ?_, ?_, ?_, ?_, ?_⟩
  · constructor
    · intro h
      by_contra hno
      have hcases : actionStateType = XR_TYPE_ACTION_STATE_FLOAT ∨
          actionStateType = XR_TYPE_ACTION_STATE_BOOLEAN ∨
          actionStateType = XR_TYPE_ACTION_STATE_POSE := by
        by_contra hc
        push_neg at hc
        exact hno hc
      rcases hcases with hc | hc | hc
      · rw [hc, hf] at h; simp [XR_SUCCESS, XR_ERROR_ACTION_TYPE_MISMATCH] at h
      · rw [hc, hb] at h; simp [XR_SUCCESS, XR_ERROR_ACTION_TYPE_MISMATCH] at h
      · rw [hc, hp] at h; simp [XR_SUCCESS, XR_ERROR_ACTION_TYPE_MISMATCH] at h
    · intro h
      rw [hm h]
  · intro i h; simp [floatAnswer, h]
  · intro i h; simp [booleanAnswer, h]
  · intro i h; simp [poseAnswer, h]
  · intro i h; simp [floatAnswer, h]
  · intro i h; simp [booleanAnswer, h]
  · intro i h; simp [poseAnswer, h]

/-- An unknown type on the tracking runtime gives the mismatch code with the
buffer untouched; a failing float query leaves an inactive state. -/
theorem getActionStates_result_witness :
    getActionStates (trackedControllers.states 0) 0 99
        [ActionState.pose ⟨true⟩, ActionState.pose ⟨true⟩] =
      (XR_ERROR_ACTION_TYPE_MISMATCH, [ActionState.pose ⟨true⟩, ActionState.pose ⟨true⟩], []) ∧
    (floatAnswer (failed, (⟨1, true, true⟩ : XrActionStateFloat))).isActive = false :=
  ⟨(getActionStates_result (trackedControllers.states 0) 0 99 (ActionState.pose ⟨true⟩)
      (ActionState.pose ⟨true⟩) []).2.1 ⟨by decide, by decide, by decide⟩,
    (getActionStates_result
      { float := fun _ => (failed, ⟨1, true, true⟩)
        boolean := fun _ => (XR_SUCCESS, ⟨false, false, false⟩)
        pose := fun _ => (XR_SUCCESS, ⟨false⟩) } 0 99 (ActionState.pose ⟨true⟩)
      (ActionState.pose ⟨true⟩) []).2.2.2.2.2.1 0 (by decide)⟩

/-! ## The stored session state follows the events -/

/-- Nothing after the event loop writes `state`. -/
theorem process_openxr_state (rt : ProcessReplies) (self : Api) :
    (process_openxr rt self).api.state = (drainEvents rt.polls self).api.state := by
  unfold process_openxr
  dsimp only
  cases (drainEvents rt.polls self).exit with
  | returned => rfl
  | pollResult r =>
    dsimp only
    split_ifs <;> rfl

/-- The events other than a session state change leave `state` alone. -/
theorem handleEvent_state (e : XrEvent) (a : Api)
    (he : ∀ st, e ≠ XrEvent.sessionStateChanged st) :
    (handleEvent e a).1.state = a.state := by
  cases e with
  | sessionStateChanged st => exact absurd rfl (he st)
  | _ => rfl

/-- C22 (counterexample): the focused sample object handles one event, the
change of the session state back to `VISIBLE` (the runtime reports a lost
input focus). The stored state goes from 5 to 4: it is smaller after the
event than before. -/
theorem session_state_decreases :
    sampleApi.state = XR_SESSION_STATE_FOCUSED ∧
    (process_openxr focusLostFrame sampleApi).api.state = XR_SESSION_STATE_VISIBLE ∧
    ¬ ((process_openxr focusLostFrame sampleApi).api.state ≥ sampleApi.state) := by
  have h : (process_openxr focusLostFrame sampleApi).api.state = XR_SESSION_STATE_VISIBLE := by
    rw [process_openxr_state]
    rfl
  refine ⟨rfl, h, ?_⟩
  rw [h]
  decide

/-- C22 (amended): for every queue of events in which a session-state-changed
event is handled by `process_openxr` (the events before it being non-fatal),
the stored state after that event is the state the event carries, whatever
the stored state was before; so it is greater than or equal to the stored
state before the event exactly when the state of the event is. The state
before the event is the one `process_openxr` leaves when only the earlier
events are pending. -/
theorem session_state_follows_event (rt : ProcessReplies) (self : Api) (pre : List XrEvent)
    (st : XrSessionState)
    (hq : rt.polls = pendingEvents (pre ++ [XrEvent.sessionStateChanged st]))
    (hpre : ∀ x ∈ pre, isFatalEvent x = false) :
    (process_openxr rt self).api.state = st ∧
    ((process_openxr rt self).api.state ≥
        (process_openxr { rt with polls := pendingEvents pre } self).api.state ↔
      st ≥ (process_openxr { rt with polls := pendingEvents pre } self).api.state) ∧
    ((∀ x ∈ pre, ∀ s, x ≠ XrEvent.sessionStateChanged s) →
      (process_openxr { rt with polls := pendingEvents pre } self).api.state = self.state) := by
  have hstate : (process_openxr rt self).api.state = st := by
    obtain ⟨tr, _, _, heq⟩ := drainEvents_append pre
      [{ result := XR_SUCCESS, event := XrEvent.sessionStateChanged st }] self hpre
    have hsplit : pendingEvents (pre ++ [XrEvent.sessionStateChanged st]) =
        pendingEvents pre ++ [{ result := XR_SUCCESS, event := XrEvent.sessionStateChanged st }] := by
      simp [pendingEvents]
    rw [process_openxr_state, hq, hsplit, heq]
    simp only [drainEvents, handleEvent]
    split_ifs <;> rfl
  refine ⟨hstate, by rw [hstate], ?_⟩
  intro hno
  rw [process_openxr_state]
  show (drainEvents (pendingEvents pre) self).api.state = self.state
  clear hq hstate
  induction pre generalizing self with
  | nil => rfl
  | cons e es ih =>
    have he : isFatalEvent e = false := hpre e (List.mem_cons_self _ _)
    have h2 : pendingEvents (e :: es) =
        { result := XR_SUCCESS, event := e } :: pendingEvents es := rfl
    rw [h2, drainEvents_cons_nonfatal e _ self he]
    show (drainEvents (pendingEvents es) (handleEvent e self).1).api.state = self.state
    rw [ih (handleEvent e self).1 (fun x hx => hpre x (List.mem_cons_of_mem _ hx))
      (fun x hx => hno x (List.mem_cons_of_mem _ hx))]
    exact handleEvent_state e self (hno e (List.mem_cons_self _ _))

/-- The focused sample object, an events-lost event and then the change to
`VISIBLE`: the stored state is `VISIBLE` afterwards. -/
theorem session_state_follows_event_witness :
    (process_openxr
      { quietFrame with
        polls := pendingEvents
          ([XrEvent.eventsLost 1] ++ [XrEvent.sessionStateChanged XR_SESSION_STATE_VISIBLE]) }
      sampleApi).api.state = XR_SESSION_STATE_VISIBLE :=
  (session_state_follows_event
    { quietFrame with
      polls := pendingEvents
        ([XrEvent.eventsLost 1] ++ [XrEvent.sessionStateChanged XR_SESSION_STATE_VISIBLE]) }
    sampleApi [XrEvent.eventsLost 1] XR_SESSION_STATE_VISIBLE rfl (by decide)).1

/-! ## The order of the frame calls in `process_openxr` -/

/-- A name found by `isExtensionSupported` over the whole list is an entry of
the list. -/
theorem isExtensionSupported_entry (name : String) (props : List String)
    (h : (isExtensionSupported name props props.length).getD false = true) :
    ∃ i, i < props.length ∧ props.get? i = some name := by
  obtain ⟨b, hb, hiff⟩ := isExtensionSupportedFrom_spec name props props.length 0 (by omega)
  unfold isExtensionSupported at h
  rw [hb] at h
  have hbt : b = true := by simpa using h
  obtain ⟨i, _, hi, hget⟩ := hiff.mp hbt
  exact ⟨i, by omega, hget⟩

/-- Over a complete list `isExtensionSupported` always gives an answer. -/
theorem isExtensionSupported_total (name : String) (props : List String) :
    ∃ b, isExtensionSupported name props props.length = some b := by
  obtain ⟨b, hb, _⟩ := isExtensionSupportedFrom_spec name props props.length 0 (by omega)
  exact ⟨b, hb⟩

/-- When the writes fit the capacity, the names passed on are the names
written, in order. -/
theorem writeExtensionNames_names (capacity : Nat) (monado : Bool)
    (h : (enabledExtensionWrites monado).length ≤ capacity) :
    ((writeExtensionNames capacity (enabledExtensionWrites monado)).take
        (enabledExtensionWrites monado).length).map (fun n => n.getD "") =
      (enabledExtensionWrites monado).map Prod.snd := by
  cases monado with
  | false =>
    cases capacity with
    | zero => simp [enabledExtensionWrites] at h
    | succ n => simp [writeExtensionNames, enabledExtensionWrites, List.replicate_succ]
  | true =>
    cases capacity with
    | zero => simp [enabledExtensionWrites] at h
    | succ n =>
      cases n with
      | zero => simp [enabledExtensionWrites] at h
      | succ m => simp [writeExtensionNames, enabledExtensionWrites, List.replicate_succ]

/-- C26: in the constructor, whenever the OpenGL extension is found in the
enumerated list (and additionally the ball-on-stick extension when it is
detected), the names written into `enabledExtensions` are 1 or 2, their
number does not exceed the capacity `extensionCount` of the array (the length
of the enumerated list), and every write index is below that capacity. The
constructor, started from `monado_stick_on_ball_ext = false`, sets the flag
exactly when the ball-on-stick extension is in the list, and when both
allocations and both enumerations succeed it passes to `xrCreateInstance`
exactly the names written, in the order written. -/
theorem enabled_extensions_within_capacity (rt : SetupReplies) (init : Api)
    (hgl : (isExtensionSupported XR_KHR_OPENGL_ENABLE_EXTENSION_NAME rt.extensions.items
      rt.extensions.items.length).getD false = true) :
    (enabledExtensionWrites ((isExtensionSupported XR_MND_BALL_ON_STICK_EXTENSION_NAME
        rt.extensions.items rt.extensions.items.length).getD false)).length ≤
      rt.extensions.items.length ∧
    (∀ w ∈ enabledExtensionWrites ((isExtensionSupported XR_MND_BALL_ON_STICK_EXTENSION_NAME
        rt.extensions.items rt.extensions.items.length).getD false),
      w.1 < rt.extensions.items.length) ∧
    ((enabledExtensionWrites ((isExtensionSupported XR_MND_BALL_ON_STICK_EXTENSION_NAME
        rt.extensions.items rt.extensions.items.length).getD false)).length =
      if (isExtensionSupported XR_MND_BALL_ON_STICK_EXTENSION_NAME
        rt.extensions.items rt.extensions.items.length).getD false then 2 else 1) ∧
    (xr_result rt.extensions.countResult = true → rt.extensions.mallocOk = true →
      xr_result rt.extensions.listResult = true → rt.enabledExtensionsMallocOk = true →
      (createInstance rt (beginConstruction init)).self.monado_stick_on_ball_ext =
        (isExtensionSupported XR_MND_BALL_ON_STICK_EXTENSION_NAME
          rt.extensions.items rt.extensions.items.length).getD false ∧
      (createInstance rt (beginConstruction init)).trace =
        [Call.xrEnumerateInstanceExtensionProperties 0,
          Call.xrEnumerateInstanceExtensionProperties rt.extensions.count,
          Call.xrCreateInstance ((enabledExtensionWrites
            ((isExtensionSupported XR_MND_BALL_ON_STICK_EXTENSION_NAME
              rt.extensions.items rt.extensions.items.length).getD false)).map Prod.snd)]) := by
  obtain ⟨i, hi, hgi⟩ := isExtensionSupported_entry _ _ hgl
  have hlen : (enabledExtensionWrites ((isExtensionSupported XR_MND_BALL_ON_STICK_EXTENSION_NAME
        rt.extensions.items rt.extensions.items.length).getD false)).length ≤
      rt.extensions.items.length := by
    cases hm : (isExtensionSupported XR_MND_BALL_ON_STICK_EXTENSION_NAME
        rt.extensions.items rt.extensions.items.length).getD false with
    | false =>
      simp only [enabledExtensionWrites, Bool.false_eq_true, if_false, List.length_singleton]
      omega
    | true =>
      obtain ⟨j, hj, hgj⟩ := isExtensionSupported_entry _ _ hm
      have hne : i ≠ j := by
        intro hij
        rw [hij, hgj] at hgi
        have hnames : XR_MND_BALL_ON_STICK_EXTENSION_NAME ≠ XR_KHR_OPENGL_ENABLE_EXTENSION_NAME := by
          decide
        exact hnames (Option.some.inj hgi)
      simp only [enabledExtensionWrites, if_true, List.length_cons, List.length_singleton,
        List.length_nil]
      omega
  refine ⟨hlen, ?_, ?_, ?_⟩
  · intro w hw
    revert hlen hw
    cases (isExtensionSupported XR_MND_BALL_ON_STICK_EXTENSION_NAME
        rt.extensions.items rt.extensions.items.length).getD false with
    | false =>
      intro hlen hw
      simp only [enabledExtensionWrites, Bool.false_eq_true, if_false, List.mem_singleton] at hw
      simp only [enabledExtensionWrites, Bool.false_eq_true, if_false,
        List.length_singleton] at hlen
      subst hw
      exact hlen
    | true =>
      intro hlen hw
      simp only [enabledExtensionWrites, if_true, List.mem_cons, List.mem_singleton,
        List.not_mem_nil, or_false] at hw
      simp only [enabledExtensionWrites, if_true, List.length_cons, List.length_singleton,
        List.length_nil] at hlen
      rcases hw with hw | hw
      · subst hw; show 0 < _; omega
      · subst hw; show 1 < _; omega
  · cases (isExtensionSupported XR_MND_BALL_ON_STICK_EXTENSION_NAME
        rt.extensions.items rt.extensions.items.length).getD false <;> rfl
  · intro h1 h2 h3 h4
    have hnames := writeExtensionNames_names rt.extensions.items.length _ hlen
    unfold createInstance
    simp only [beginConstruction, Construction.call, Construction.assign, Construction.leave,
      h1, h2, h3, h4, hgl, Bool.not_true, Bool.false_eq_true, if_false, Bool.or_false,
      List.nil_append, List.cons_append, List.singleton_append]
    have hmon : (if (isExtensionSupported XR_MND_BALL_ON_STICK_EXTENSION_NAME
          rt.extensions.items rt.extensions.items.length).getD false = true then true
        else false) =
        (isExtensionSupported XR_MND_BALL_ON_STICK_EXTENSION_NAME
          rt.extensions.items rt.extensions.items.length).getD false := by
      cases (isExtensionSupported XR_MND_BALL_ON_STICK_EXTENSION_NAME
          rt.extensions.items rt.extensions.items.length).getD false <;> rfl
    rw [hmon, hnames]
    split_ifs <;> exact ⟨rfl, rfl⟩

/-- The runtime that lists the ball-on-stick and the OpenGL extension: two
names are written into an array of capacity two. The runtime of `okSetup`
lists the OpenGL extension without the other: one name. -/
theorem enabled_extensions_within_capacity_witness :
    (enabledExtensionWrites ((isExtensionSupported XR_MND_BALL_ON_STICK_EXTENSION_NAME
        ballOnStickSetup.extensions.items
        ballOnStickSetup.extensions.items.length).getD false)).length ≤
      ballOnStickSetup.extensions.items.length ∧
    (createInstance okSetup (beginConstruction blankApi)).trace =
      [Call.xrEnumerateInstanceExtensionProperties 0,
        Call.xrEnumerateInstanceExtensionProperties 2,
        Call.xrCreateInstance [XR_KHR_OPENGL_ENABLE_EXTENSION_NAME]] :=
  ⟨(enabled_extensions_within_capacity ballOnStickSetup blankApi (by decide)).1,
    ((enabled_extensions_within_capacity okSetup blankApi (by decide)).2.2.2
      (by decide) rfl (by decide) rfl).2⟩

/-! ## The bindings `suggestActions` submits -/

end OpenXRApi
